import Mathlib

set_option autoImplicit false

/-!
# BaseCouplingScheme

A shallow embedding of `src/cplscheme/BaseCouplingScheme.cpp` (preCICE) and
theorems about it.

Conventions of the embedding:

* a C++ `double` is the rational number it stands for (no infinity, no NaN);
  comparisons of doubles are exact, and the arithmetic of doubles (`+`, `-`,
  `std::pow`) is a parameter of the embedding, a field of `Constants`; in
  `exampleConstants` it is the arithmetic of IEEE 754 double precision,
  correctly rounded to nearest;
* a C++ `int` is an integer; the only integers computed from a container size
  are the number of action tokens and the size of a buffer, taken to fit an
  `int`;
* `std::set<std::string>` is a strictly ascending list of strings,
  `std::map<int, PtrCouplingData>` a list of pairs in iteration order;
* a `preciceCheck` / `preciceError` that fires, an `assertion` that fails and a
  `receive` that finds no matching value end the call with a `Failure`;
* member variables keep their names (`_time`, `_actions`, ...).
-/

/-! ## Outcomes of a call -/

/-- How a call ends when it does not return normally. -/
inductive Failure where
  /-- A `preciceCheck` whose condition is false, or a `preciceError`. -/
  | error (method : String) (message : String)
  /-- An `assertion` whose condition is false. -/
  | assertion (method : String)
  /-- A `receive` for which the channel holds no value of the requested kind. -/
  | receive
  deriving DecidableEq, Repr

/-- The result of a call that may fail. -/
abbrev Result (α : Type) := Except Failure α

/-- The macro `preciceCheck(condition, method, message)`. -/
def preciceCheck (condition : Bool) (method message : String) : Result Unit :=
  if condition then .ok () else .error (.error method message)

/-- The macro `preciceError(method, message)`. -/
def preciceError {α : Type} (method message : String) : Result α :=
  .error (.error method message)

/-- The macro `assertion(condition)`, inside `method`. -/
def assertion (condition : Bool) (method : String) : Result Unit :=
  if condition then .ok () else .error (.assertion method)

/-! ## The arithmetic of IEEE 754 double precision -/

/-- Rounding of a rational number to the nearest integer, a tie to the even
one. -/
def roundHalfEven (q : ℚ) : Int :=
  if q - ⌊q⌋ < 1 / 2 then ⌊q⌋
  else if 1 / 2 < q - ⌊q⌋ then ⌊q⌋ + 1
  else if ⌊q⌋ % 2 = 0 then ⌊q⌋ else ⌊q⌋ + 1

/-- The exponent of the binade of `q`: the `e` with `2 ^ e ≤ |q| < 2 ^ (e + 1)`,
and -1022 for zero and the subnormal numbers. -/
def binade (q : ℚ) : Int :=
  max (Int.log 2 |q|) (-1022)

/-- The double nearest to `q`: 53 significant bits, rounded to nearest, a tie
to the even significand. Numbers beyond the largest finite double, which a
double operation turns into an infinity, are outside the model. -/
def roundToDouble (q : ℚ) : ℚ :=
  (roundHalfEven (q / 2 ^ (binade q - 52)) : ℚ) * 2 ^ (binade q - 52)

/-! ## Constants and helpers declared outside this file -/

/-- What `BaseCouplingScheme.cpp` takes from outside: the three "undefined"
sentinels of `CouplingScheme`, the default tolerance of `tarch::la`, the two
action names of `constants`, and the arithmetic of the type `double`: the sum
`a + b` and the difference `a - b` of two doubles, and `std::pow(base, n)` for
an `int` exponent. -/
structure Constants where
  UNDEFINED_TIME : ℚ
  UNDEFINED_TIMESTEPS : Int
  UNDEFINED_TIMESTEP_LENGTH : ℚ
  NUMERICAL_ZERO_DIFFERENCE : ℚ
  actionWriteIterationCheckpoint : String
  actionWriteInitialData : String
  add : ℚ → ℚ → ℚ
  sub : ℚ → ℚ → ℚ
  pow : ℚ → Int → ℚ

/-- The values used in the concrete examples of this file, with the
arithmetic of IEEE 754 double precision: every operation returns the double
nearest to the exact result. -/
def exampleConstants : Constants where
  UNDEFINED_TIME := -1
  UNDEFINED_TIMESTEPS := -1
  UNDEFINED_TIMESTEP_LENGTH := -1
  NUMERICAL_ZERO_DIFFERENCE := 1 / 10 ^ 14
  actionWriteIterationCheckpoint := "write-iteration-checkpoint"
  actionWriteInitialData := "write-initial-data"
  add := fun a b => roundToDouble (a + b)
  sub := fun a b => roundToDouble (a - b)
  pow := fun base n => roundToDouble (base ^ n)

namespace tarch.la

/-- Modelled from the spec: `tarch::la::greater(lhs, rhs, tolerance)`, whose
definition is outside this file. The spec reads
`not greater(remainder, 0.0, eps)` as "`remainder - candidateDt <= eps`", so
`greater` is "the difference exceeds the tolerance"; the difference is the
difference of two doubles. -/
def greater (k : Constants) (lhs rhs tolerance : ℚ) : Bool :=
  decide (k.sub lhs rhs > tolerance)

/-- Modelled from the spec: `tarch::la::greaterEquals(lhs, rhs, tolerance)`,
whose definition is outside this file. The spec reads the failure of
`greaterEquals(remainder, 0.0, eps)` as "negative beyond tolerance". This file
calls it with the right-hand side 0.0 only, and the difference of a double and
0.0 is that double. -/
def greaterEquals (lhs rhs tolerance : ℚ) : Bool :=
  decide (lhs - rhs ≥ -tolerance)

/-- Modelled from the spec: `tarch::la::equals(lhs, rhs, tolerance)`, whose
definition is outside this file: equality up to the tolerance. It is the test
the code uses for "is the undefined sentinel"; the distance to the sentinel is
taken as it is, without rounding. -/
def equals (lhs rhs tolerance : ℚ) : Bool :=
  decide (|rhs - lhs| ≤ tolerance)

end tarch.la

/-! ## The transport collaborator -/

/-- A value that travels over the channel. -/
inductive Msg where
  | double (x : ℚ)
  | int (n : Int)
  | bool (b : Bool)
  | string (s : String)
  /-- A raw buffer `(double*, size)`. -/
  | doubles (xs : List ℚ)
  deriving DecidableEq, Repr

/-- One call on the channel. -/
inductive CommOp where
  | startSendPackage (rank : Int)
  | send (m : Msg) (rank : Int)
  | finishSendPackage
  | startReceivePackage (rank : Int)
  | receive (m : Msg) (rank : Int)
  | finishReceivePackage
  deriving DecidableEq, Repr

/-- Modelled from the spec: `com::Communication`, the transport collaborator,
"a connected, package-framed point-to-point channel" with typed `send` and
`receive`. `inbox` holds the values the peer has written and this side has not
read yet, oldest first; `log` records the calls made on the channel in order. -/
structure Communication where
  isConnected : Bool
  inbox : List Msg
  log : List CommOp
  deriving DecidableEq, Repr

namespace Communication

def startSendPackage (c : Communication) (rank : Int) : Communication :=
  { c with log := c.log ++ [.startSendPackage rank] }

def finishSendPackage (c : Communication) : Communication :=
  { c with log := c.log ++ [.finishSendPackage] }

def startReceivePackage (c : Communication) (rank : Int) : Communication :=
  { c with log := c.log ++ [.startReceivePackage rank] }

def finishReceivePackage (c : Communication) : Communication :=
  { c with log := c.log ++ [.finishReceivePackage] }

/-- The overloads `send(value, rank)` and `send(double*, size, rank)`. -/
def send (c : Communication) (m : Msg) (rank : Int) : Communication :=
  { c with log := c.log ++ [.send m rank] }

/-- The channel after the oldest value `m` has been read. -/
def pop (c : Communication) (m : Msg) (rest : List Msg) (rank : Int) : Communication :=
  { c with inbox := rest, log := c.log ++ [.receive m rank] }

/-- The overload `receive(double&, rank)`. -/
def receiveDouble (c : Communication) (rank : Int) : Result (ℚ × Communication) :=
  match c.inbox with
  | .double x :: rest => .ok (x, c.pop (.double x) rest rank)
  | _ => .error .receive

/-- The overload `receive(int&, rank)`. -/
def receiveInt (c : Communication) (rank : Int) : Result (Int × Communication) :=
  match c.inbox with
  | .int n :: rest => .ok (n, c.pop (.int n) rest rank)
  | _ => .error .receive

/-- The overload `receive(bool&, rank)`. -/
def receiveBool (c : Communication) (rank : Int) : Result (Bool × Communication) :=
  match c.inbox with
  | .bool b :: rest => .ok (b, c.pop (.bool b) rest rank)
  | _ => .error .receive

/-- The overload `receive(std::string&, rank)`. -/
def receiveString (c : Communication) (rank : Int) : Result (String × Communication) :=
  match c.inbox with
  | .string s :: rest => .ok (s, c.pop (.string s) rest rank)
  | _ => .error .receive

/-- The overload `receive(double*, size, rank)`: fills a buffer of `size`
entries. -/
def receiveDoubles (c : Communication) (size : Nat) (rank : Int) :
    Result (List ℚ × Communication) :=
  match c.inbox with
  | .doubles xs :: rest =>
    if xs.length = size then .ok (xs, c.pop (.doubles xs) rest rank) else .error .receive
  | _ => .error .receive

end Communication

/-- The values written by the `send` calls of a log, in order. -/
def sentValues : List CommOp → List Msg
  | [] => []
  | .send m _ :: ops => m :: sentValues ops
  | _ :: ops => sentValues ops

/-! ## Data model -/

/-- `CouplingData::DataMatrix`: a matrix kept as the list of its columns. -/
abbrev DataMatrix := List (List ℚ)

/-- The constructor `DataMatrix(rows, cols, value)`. -/
def DataMatrix.filled (rows cols : Nat) (value : ℚ) : DataMatrix :=
  List.replicate cols (List.replicate rows value)

/-- The method `shiftSetFirst(v)`: every column moves one place to the right,
the last one is dropped, and `v` becomes column 0. -/
def DataMatrix.shiftSetFirst (m : DataMatrix) (v : List ℚ) : DataMatrix :=
  match m with
  | [] => []
  | _ :: _ => v :: m.dropLast

/-- The struct `CouplingData`. The flag `initialize` is called `initialize_`. -/
structure CouplingData where
  values : List ℚ
  oldValues : DataMatrix
  initialize_ : Bool
  deriving DecidableEq, Repr

/-- The type `DataMap`, a `std::map<int, PtrCouplingData>`, as the list of its
entries in iteration order. -/
abbrev DataMap := List (Int × CouplingData)

/-- The entry a `ConvergenceMeasure::data` pointer refers to. -/
inductive DataRef where
  | sendData (dataID : Int)
  | receiveData (dataID : Int)
  deriving DecidableEq, Repr

/-- The struct `ConvergenceMeasure`, without its evaluator. -/
structure ConvergenceMeasure where
  dataID : Int
  data : Option DataRef
  deriving DecidableEq, Repr

/-- Modelled from the spec: the post-processing collaborator, of which the
scheme consumes "`getDataIDs()` (which identifiers it governs) and
`initialize(DataMap)`". -/
structure PostProcessing where
  getDataIDs : List Int
  /-- The method `initialize(DataMap&)`: the map it leaves behind, or `none`
  when the collaborator ends the run. -/
  initialize_ : DataMap → Option DataMap

/-- The enumeration `constants::TimesteppingMethod`, declared outside this
file: the two values this file names, and any other value. -/
inductive TimesteppingMethod where
  | FIXED_DT
  | FIRST_PARTICIPANT_SETS_DT
  | other (value : Int)
  deriving DecidableEq, Repr

/-- The member variables of `BaseCouplingScheme`. -/
structure BaseCouplingScheme where
  _maxTime : ℚ
  _maxTimesteps : Int
  _timestepLength : ℚ
  _doesFirstStep : Bool
  _validDigits : Int
  _time : ℚ
  _computedTimestepPart : ℚ
  _timesteps : Int
  _checkpointTimestepInterval : Int
  _isCouplingOngoing : Bool
  _isCouplingTimestepComplete : Bool
  _hasDataBeenExchanged : Bool
  _hasToReceiveInitData : Bool
  _hasToSendInitData : Bool
  _isInitialized : Bool
  _actions : List String
  _sendData : DataMap
  _receiveData : DataMap
  _firstParticipant : String
  _secondParticipant : String
  _convergenceMeasures : List ConvergenceMeasure
  _postProcessing : Option PostProcessing
  _extrapolationOrder : Int
  _maxIterations : Int
  _iterationToPlot : Int
  _timestepToPlot : Int
  _timeToPlot : ℚ
  _iterations : Int
  _totalIterations : Int
  _participantSetsDt : Bool
  _participantReceivesDt : Bool

/-! ## The action set -/

/-- The method `std::set<std::string>::insert`. -/
def setInsert (a : String) : List String → List String
  | [] => [a]
  | b :: bs =>
    if a < b then a :: b :: bs
    else if b < a then b :: setInsert a bs
    else b :: bs

/-- The method `std::set<std::string>::erase(key)`. -/
def setErase (a : String) (l : List String) : List String :=
  l.filter (fun b => decide (b ≠ a))

/-- The method `std::set<std::string>::count(key)`. -/
def setCount (a : String) (l : List String) : Nat :=
  l.count a

namespace BaseCouplingScheme

/-! ## Sending and receiving the state -/

/-- The loop `foreach(const std::string& action, _actions) send(action)`. -/
def sendActions (communication : Communication) (rankReceiver : Int) :
    List String → Communication
  | [] => communication
  | action :: rest => sendActions (communication.send (.string action) rankReceiver) rankReceiver rest

/-- The method `sendState(communication, rankReceiver)`. -/
def sendState (s : BaseCouplingScheme) (communication : Communication) (rankReceiver : Int) :
    Result Communication := do
  let c := communication.startSendPackage rankReceiver
  assertion c.isConnected "sendState()"
  let c := c.send (.double s._maxTime) rankReceiver
  let c := c.send (.int s._maxTimesteps) rankReceiver
  let c := c.send (.double s._timestepLength) rankReceiver
  let c := c.send (.double s._time) rankReceiver
  let c := c.send (.int s._timesteps) rankReceiver
  let c := c.send (.int s._checkpointTimestepInterval) rankReceiver
  let c := c.send (.double s._computedTimestepPart) rankReceiver
  let c := c.send (.bool s._isInitialized) rankReceiver
  let c := c.send (.bool s._isCouplingTimestepComplete) rankReceiver
  let c := c.send (.bool s._hasDataBeenExchanged) rankReceiver
  let c := c.send (.int (s._actions.length : Int)) rankReceiver
  let c := sendActions c rankReceiver s._actions
  let c := c.send (.int s._maxIterations) rankReceiver
  let c := c.send (.int s._iterations) rankReceiver
  let c := c.send (.int s._totalIterations) rankReceiver
  return c.finishSendPackage

/-- The loop `for (int i=0; i < actionsSize; i++)` of `receiveState`, with
`remaining` iterations to go. -/
def receiveActions (rankSender : Int) :
    Nat → List String → Communication → Result (List String × Communication)
  | 0, actions, c => .ok (actions, c)
  | remaining + 1, actions, c => do
    let (action, c) ← c.receiveString rankSender
    receiveActions rankSender remaining (setInsert action actions) c

/-- The method `receiveState(communication, rankSender)`. -/
def receiveState (s : BaseCouplingScheme) (communication : Communication) (rankSender : Int) :
    Result (BaseCouplingScheme × Communication) := do
  let c := communication.startReceivePackage rankSender
  assertion c.isConnected "receiveState()"
  let (maxTime, c) ← c.receiveDouble rankSender
  let (maxTimesteps, c) ← c.receiveInt rankSender
  let (timestepLength, c) ← c.receiveDouble rankSender
  let (time, c) ← c.receiveDouble rankSender
  let (timesteps, c) ← c.receiveInt rankSender
  let (checkpointTimestepInterval, c) ← c.receiveInt rankSender
  let (computedTimestepPart, c) ← c.receiveDouble rankSender
  let (isInitialized, c) ← c.receiveBool rankSender
  let (isCouplingTimestepComplete, c) ← c.receiveBool rankSender
  let (hasDataBeenExchanged, c) ← c.receiveBool rankSender
  let (actionsSize, c) ← c.receiveInt rankSender
  let (actions, c) ← receiveActions rankSender actionsSize.toNat [] c
  let (maxIterations, c) ← c.receiveInt rankSender
  let (subIteration, c) ← c.receiveInt rankSender
  let (totalIterations, c) ← c.receiveInt rankSender
  return ({ s with
    _maxTime := maxTime
    _maxTimesteps := maxTimesteps
    _timestepLength := timestepLength
    _time := time
    _timesteps := timesteps
    _checkpointTimestepInterval := checkpointTimestepInterval
    _computedTimestepPart := computedTimestepPart
    _isInitialized := isInitialized
    _isCouplingTimestepComplete := isCouplingTimestepComplete
    _hasDataBeenExchanged := hasDataBeenExchanged
    _actions := actions
    _maxIterations := maxIterations
    _iterations := subIteration
    _totalIterations := totalIterations }, c.finishReceivePackage)

/-! ## Exchange of coupling data -/

/-- The loop of `sendData` over `_sendData`: the channel afterwards and the
identifiers pushed to `sentDataIDs`. -/
def sendDataLoop : DataMap → Communication → List Int × Communication
  | [], c => ([], c)
  | (id, d) :: rest, c =>
    let size : Int := d.values.length
    let c := if size > 0 then c.send (.doubles d.values) 0 else c
    let (ids, c) := sendDataLoop rest c
    (id :: ids, c)

/-- The method `sendData(communication)`. -/
def sendData (s : BaseCouplingScheme) (communication : Communication) :
    Result (List Int × Communication) := do
  assertion communication.isConnected "sendData()"
  return sendDataLoop s._sendData communication

/-- The body of the loop of `receiveData`: a buffer that is not empty is
filled from the channel. -/
def receiveValues (d : CouplingData) (c : Communication) : Result (CouplingData × Communication) :=
  let size : Int := d.values.length
  if size > 0 then do
    let (xs, c) ← c.receiveDoubles d.values.length 0
    pure ({ d with values := xs }, c)
  else pure (d, c)

/-- The loop of `receiveData` over `_receiveData`: the map with the received
values, the identifiers pushed to `receivedDataIDs`, and the channel. -/
def receiveDataLoop : DataMap → Communication → Result (DataMap × List Int × Communication)
  | [], c => .ok ([], [], c)
  | (id, d) :: rest, c => do
    let (d, c) ← receiveValues d c
    let (rest, ids, c) ← receiveDataLoop rest c
    return ((id, d) :: rest, id :: ids, c)

/-- The method `receiveData(communication)`. -/
def receiveData (s : BaseCouplingScheme) (communication : Communication) :
    Result (BaseCouplingScheme × List Int × Communication) := do
  assertion communication.isConnected "receiveData()"
  let (data, ids, c) ← receiveDataLoop s._receiveData communication
  return ({ s with _receiveData := data }, ids, c)

/-- The method `getSendData(dataID)`; `none` is `NULL`. -/
def getSendData (s : BaseCouplingScheme) (dataID : Int) : Option CouplingData :=
  s._sendData.lookup dataID

/-- The method `getReceiveData(dataID)`; `none` is `NULL`. -/
def getReceiveData (s : BaseCouplingScheme) (dataID : Int) : Option CouplingData :=
  s._receiveData.lookup dataID

/-! ## Time -/

/-- The local `eps = std::pow(10.0, -1 * _validDigits)`. -/
def eps (k : Constants) (s : BaseCouplingScheme) : ℚ :=
  k.pow 10 (-1 * s._validDigits)

/-- The method `hasTimestepLength()`. -/
def hasTimestepLength (k : Constants) (s : BaseCouplingScheme) : Bool :=
  !tarch.la.equals s._timestepLength k.UNDEFINED_TIMESTEP_LENGTH k.NUMERICAL_ZERO_DIFFERENCE

/-- The method `getThisTimestepRemainder()`. -/
def getThisTimestepRemainder (k : Constants) (s : BaseCouplingScheme) : ℚ :=
  if !tarch.la.equals s._timestepLength k.UNDEFINED_TIMESTEP_LENGTH k.NUMERICAL_ZERO_DIFFERENCE
  then k.sub s._timestepLength s._computedTimestepPart
  else 0

/-- The method `isCouplingOngoing()`. -/
def isCouplingOngoing (k : Constants) (s : BaseCouplingScheme) : Bool :=
  let timeLeft := tarch.la.greater k s._maxTime s._time (s.eps k)
    || tarch.la.equals s._maxTime k.UNDEFINED_TIME k.NUMERICAL_ZERO_DIFFERENCE
  let timestepsLeft := decide (s._maxTimesteps > s._timesteps)
    || decide (s._maxTimesteps = k.UNDEFINED_TIMESTEPS)
  timeLeft && timestepsLeft

/-- The method `addComputedTime(timeToAdd)`. The message of its second check
is written without the two numbers the code prints in it. -/
def addComputedTime (k : Constants) (s : BaseCouplingScheme) (timeToAdd : ℚ) :
    Result BaseCouplingScheme := do
  preciceCheck (s.isCouplingOngoing k) "addComputedTime()"
    "Invalid call of addComputedTime() after simulation end!"
  let s := { s with _computedTimestepPart := k.add s._computedTimestepPart timeToAdd }
  let s := { s with _time := k.add s._time timeToAdd }
  let valid := tarch.la.greaterEquals (s.getThisTimestepRemainder k) 0 (s.eps k)
  preciceCheck valid "addComputedTime()"
    "The computed timestep length exceeds the maximum timestep limit for this time step!"
  return s

/-- The method `willDataBeExchanged(lastSolverTimestepLength)`. -/
def willDataBeExchanged (k : Constants) (s : BaseCouplingScheme)
    (lastSolverTimestepLength : ℚ) : Bool :=
  let remainder := k.sub (s.getThisTimestepRemainder k) lastSolverTimestepLength
  !tarch.la.greater k remainder 0 (s.eps k)

/-- The method `isActionRequired(actionName)`. -/
def isActionRequired (s : BaseCouplingScheme) (actionName : String) : Bool :=
  decide (setCount actionName s._actions > 0)

/-- The method `performedAction(actionName)`. -/
def performedAction (s : BaseCouplingScheme) (actionName : String) : BaseCouplingScheme :=
  { s with _actions := setErase actionName s._actions }

/-- The method `requireAction(actionName)`. -/
def requireAction (s : BaseCouplingScheme) (actionName : String) : BaseCouplingScheme :=
  { s with _actions := setInsert actionName s._actions }

/-- The loop of `checkCompletenessRequiredActions()`: the text of `stream`
after the actions have been written to it, a separator before each one that
finds the stream not empty. -/
def writeActions : List String → String → String
  | [], stream => stream
  | action :: actions, stream =>
    let stream := if !stream.isEmpty then stream ++ ", " else stream
    writeActions actions (stream ++ action)

/-- The method `checkCompletenessRequiredActions()`. -/
def checkCompletenessRequiredActions (s : BaseCouplingScheme) : Result Unit :=
  if !s._actions.isEmpty then
    preciceError "checkCompletenessRequiredActions()"
      ("Unfulfilled required actions: " ++ writeActions s._actions "" ++ "!")
  else .ok ()

/-- The method `finalize()`. -/
def finalize (k : Constants) (s : BaseCouplingScheme) : Result Unit := do
  s.checkCompletenessRequiredActions
  preciceCheck s._isInitialized "finalize()" "Called finalize() before initialize()!"
  preciceCheck (!s.isCouplingOngoing k) "finalize()"
    "Called finalize() while isCouplingOngoing() returns true!"

/-! ## Storage for old values -/

/-- The entry a `ConvergenceMeasure::data` pointer refers to; `none` when the
map has no such entry. -/
def deref (s : BaseCouplingScheme) : DataRef → Option CouplingData
  | .sendData dataID => s._sendData.lookup dataID
  | .receiveData dataID => s._receiveData.lookup dataID

/-- A map in which the entry with key `dataID` has been changed by `f`. -/
def updateEntry (dataID : Int) (f : CouplingData → CouplingData) : DataMap → DataMap
  | [] => []
  | (id, d) :: rest =>
    if id = dataID then (id, f d) :: rest else (id, d) :: updateEntry dataID f rest

/-- A write through a `ConvergenceMeasure::data` pointer. -/
def modify (s : BaseCouplingScheme) (ref : DataRef) (f : CouplingData → CouplingData) :
    BaseCouplingScheme :=
  match ref with
  | .sendData dataID => { s with _sendData := updateEntry dataID f s._sendData }
  | .receiveData dataID => { s with _receiveData := updateEntry dataID f s._receiveData }

/-- The method `oldValues.append(DataMatrix(values->size(), cols, 0.0))`. -/
def appendZeroColumns (cols : Nat) (d : CouplingData) : CouplingData :=
  { d with oldValues := d.oldValues ++ DataMatrix.filled d.values.length cols 0 }

/-- The method `setupConvergenceMeasures()`: the loop body for one measure. -/
def resolveMeasure (s : BaseCouplingScheme) (convMeasure : ConvergenceMeasure) :
    Result ConvergenceMeasure :=
  if (s.getSendData convMeasure.dataID).isSome then
    .ok { convMeasure with data := some (.sendData convMeasure.dataID) }
  else do
    assertion (s.getReceiveData convMeasure.dataID).isSome "setupConvergenceMeasures()"
    return { convMeasure with data := some (.receiveData convMeasure.dataID) }

/-- The method `setupConvergenceMeasures()`: its loop. -/
def resolveMeasures (s : BaseCouplingScheme) :
    List ConvergenceMeasure → Result (List ConvergenceMeasure)
  | [] => .ok []
  | convMeasure :: rest => do
    let convMeasure ← s.resolveMeasure convMeasure
    let rest ← resolveMeasures s rest
    return convMeasure :: rest

/-- The method `setupConvergenceMeasures()`. -/
def setupConvergenceMeasures (s : BaseCouplingScheme) : Result BaseCouplingScheme := do
  assertion (!s._doesFirstStep) "setupConvergenceMeasures()"
  preciceCheck (!s._convergenceMeasures.isEmpty) "setupConvergenceMeasures()"
    "At least one convergence measure has to be defined for an implicit coupling scheme!"
  let measures ← s.resolveMeasures s._convergenceMeasures
  return { s with _convergenceMeasures := measures }

/-- The method `setupDataMatrices(data)`: its first loop, over the convergence
measures. -/
def reserveConvergenceStorage (s : BaseCouplingScheme) :
    List ConvergenceMeasure → Result BaseCouplingScheme
  | [] => .ok s
  | convMeasure :: rest =>
    match convMeasure.data with
    | none => .error (.assertion "setupDataMatrices()")
    | some ref =>
      match s.deref ref with
      | none => .error (.assertion "setupDataMatrices()")
      | some d =>
        let s := if (d.oldValues.length : Int) < 1 then s.modify ref (appendZeroColumns 1) else s
        reserveConvergenceStorage s rest

/-- The method `setupDataMatrices(data)`: its second loop, over `data`. -/
def reserveExtrapolationStorage (extrapolationOrder : Int) : DataMap → Result DataMap
  | [] => .ok []
  | (id, d) :: rest => do
    let cols : Int := d.oldValues.length
    assertion (decide (cols ≤ 1)) "setupDataMatrices()"
    let d := appendZeroColumns (extrapolationOrder + 1 - cols).toNat d
    let rest ← reserveExtrapolationStorage extrapolationOrder rest
    return (id, d) :: rest

/-- The map an argument `DataMap& data` refers to. -/
inductive DataSide where
  | sendData
  | receiveData
  deriving DecidableEq, Repr

/-- The method `setupDataMatrices(data)`, for `data` one of the two maps of the
scheme. -/
def setupDataMatrices (s : BaseCouplingScheme) (data : DataSide) : Result BaseCouplingScheme := do
  let s ← s.reserveConvergenceStorage s._convergenceMeasures
  if s._extrapolationOrder > 0 then
    match data with
    | .sendData =>
      let m ← reserveExtrapolationStorage s._extrapolationOrder s._sendData
      return { s with _sendData := m }
    | .receiveData =>
      let m ← reserveExtrapolationStorage s._extrapolationOrder s._receiveData
      return { s with _receiveData := m }
  else return s

/-! ## Initialisation -/

/-- The method `initialize`, lines 586-589: on the side that does not do the
first step, convergence measures are wired and storage is reserved. -/
def initializeStorage (s : BaseCouplingScheme) : Result BaseCouplingScheme :=
  if !s._convergenceMeasures.isEmpty then do
    let s ← s.setupConvergenceMeasures
    s.setupDataMatrices .sendData
  else pure s

/-- The method `initialize`, lines 590-594: post-processing on the side that
does not do the first step. -/
def initializePostProcessing (s : BaseCouplingScheme) : Result BaseCouplingScheme :=
  match s._postProcessing with
  | some postProcessing => do
    preciceCheck (decide (postProcessing.getDataIDs.length = 1)) "initialize()"
      "For serial coupling, the number of coupling data vectors has to be 1"
    match postProcessing.initialize_ s._sendData with
    | some m => return { s with _sendData := m }
    | none => preciceError "PostProcessing::initialize()" "post-processing failed"
  | none => return s

/-- The method `initialize`, lines 596-601: post-processing on the side that
does the first step. Reading `*begin()` of an empty list of identifiers has no
defined outcome and ends the call. -/
def checkPostProcessing (s : BaseCouplingScheme) : Result BaseCouplingScheme :=
  match s._postProcessing with
  | some postProcessing =>
    match postProcessing.getDataIDs with
    | [] => .error (.assertion "initialize()")
    | dataID :: _ => do
      preciceCheck (s.getSendData dataID).isNone "initialize()"
        "In case of serial coupling, post-processing can be defined for data of second participant only!"
      return s
  | none => return s

/-- The first block of the method `initialize`, lines 585-601: wiring of
convergence measures and post-processing. -/
def initializeSetup (s : BaseCouplingScheme) : Result BaseCouplingScheme :=
  if !s._doesFirstStep then do
    let s ← s.initializeStorage
    s.initializePostProcessing
  else s.checkPostProcessing

/-- The loop of the method `initialize` over the send data. -/
def scanSendData (s : BaseCouplingScheme) : DataMap → Result BaseCouplingScheme
  | [] => .ok s
  | (_, d) :: rest =>
    if d.initialize_ then do
      preciceCheck (!s._doesFirstStep) "initialize()"
        "Only second participant can initialize data!"
      return { s with _hasToSendInitData := true }
    else scanSendData s rest

/-- The loop of the method `initialize` over the receive data. -/
def scanReceiveData (s : BaseCouplingScheme) : DataMap → Result BaseCouplingScheme
  | [] => .ok s
  | (_, d) :: rest =>
    if d.initialize_ then do
      preciceCheck s._doesFirstStep "initialize()"
        "Only first participant can receive initial data!"
      scanReceiveData { s with _hasToReceiveInitData := true } rest
    else scanReceiveData s rest

/-- The lines 634-640 of the method `initialize`: the timestep length is
received if this participant receives it. -/
def receiveTimestepLength (k : Constants) (s : BaseCouplingScheme) (c : Communication) :
    Result (BaseCouplingScheme × Communication) :=
  if s._participantReceivesDt then do
    let (dt, c) ← c.receiveDouble 0
    assertion (!tarch.la.equals dt k.UNDEFINED_TIMESTEP_LENGTH k.NUMERICAL_ZERO_DIFFERENCE)
      "initialize()"
    pure ({ s with _timestepLength := dt }, c)
  else pure (s, c)

/-- The receive package of the methods `initialize` and `initializeData`:
the timestep length, if this side receives it, and all receive data. -/
def receivePackage (k : Constants) (s : BaseCouplingScheme) (communication : Communication) :
    Result (BaseCouplingScheme × Communication) := do
  let c := communication.startReceivePackage 0
  let (s, c) ← s.receiveTimestepLength k c
  let (s, _, c) ← s.receiveData c
  let c := c.finishReceivePackage
  return ({ s with _hasDataBeenExchanged := true }, c)

end BaseCouplingScheme

/-- The lines 629-644 of the method `initialize`: the first receive, unless
this participant does the first step, has to send initial data, or the
coupling has ended. -/
def BaseCouplingScheme.firstReceive (k : Constants) (s : BaseCouplingScheme)
    (communication : Communication) : Result (BaseCouplingScheme × Communication) :=
  if !s._doesFirstStep && !s._hasToSendInitData && s.isCouplingOngoing k
  then s.receivePackage k communication
  else pure (s, communication)

/-- The method `initialize(startTime, startTimestep)`; `communication` is the
channel `getCommunication()`. The call `initializeTXTWriters()` only prepares
the iterations log and is left out. -/
def BaseCouplingScheme.initialize (k : Constants) (s : BaseCouplingScheme) (startTime : ℚ)
    (startTimestep : Int) (communication : Communication) :
    Result (BaseCouplingScheme × Communication) := do
  assertion (!s._isInitialized) "initialize()"
  assertion (tarch.la.greaterEquals startTime 0 k.NUMERICAL_ZERO_DIFFERENCE) "initialize()"
  assertion (decide (startTimestep ≥ 0)) "initialize()"
  assertion communication.isConnected "initialize()"
  preciceCheck (!s._sendData.isEmpty) "initialize()"
    "No send data configured! Use explicit scheme for one-way coupling."
  let s := { s with _time := startTime }
  let s := { s with _timesteps := startTimestep }
  let s ← s.initializeSetup
  let s := if !s._convergenceMeasures.isEmpty
    then s.requireAction k.actionWriteIterationCheckpoint else s
  let s ← s.scanSendData s._sendData
  let s ← s.scanReceiveData s._receiveData
  let (s, c) ← s.firstReceive k communication
  let s := if s._hasToSendInitData then s.requireAction k.actionWriteInitialData else s
  return ({ s with _isInitialized := true }, c)

/-! ## The state on the wire -/

/-- The values `sendState` writes, in the order of its `send` calls. -/
def BaseCouplingScheme.wireValues (s : BaseCouplingScheme) : List Msg :=
  [.double s._maxTime, .int s._maxTimesteps, .double s._timestepLength, .double s._time,
    .int s._timesteps, .int s._checkpointTimestepInterval, .double s._computedTimestepPart,
    .bool s._isInitialized, .bool s._isCouplingTimestepComplete, .bool s._hasDataBeenExchanged,
    .int (s._actions.length : Int)]
  ++ s._actions.map Msg.string
  ++ [.int s._maxIterations, .int s._iterations, .int s._totalIterations]

/-- The scheme-state bundle in the order in which the specification lists it:
"`time`, `timesteps`, `computedTimestepPart`, `timestepLength`,
`checkpointTimestepInterval`, `isInitialized`, `isCouplingTimestepComplete`,
`hasDataBeenExchanged`, the ActionRegistry contents, `maxIterations`,
`iterations`, `totalIterations`", the registry as its count followed by that
many tokens. -/
def BaseCouplingScheme.specBundle (s : BaseCouplingScheme) : List Msg :=
  [.double s._time, .int s._timesteps, .double s._computedTimestepPart,
    .double s._timestepLength, .int s._checkpointTimestepInterval,
    .bool s._isInitialized, .bool s._isCouplingTimestepComplete, .bool s._hasDataBeenExchanged,
    .int (s._actions.length : Int)]
  ++ s._actions.map Msg.string
  ++ [.int s._maxIterations, .int s._iterations, .int s._totalIterations]

/-! ## Concrete schemes and channels -/

/-- A connected channel on which nothing has happened. -/
def freshChannel : Communication where
  isConnected := true
  inbox := []
  log := []

/-- A connected channel whose peer has written `inbox`. -/
def channelWith (inbox : List Msg) : Communication where
  isConnected := true
  inbox := inbox
  log := []

/-- A scheme as the constructor leaves it for the second participant, with
fixed timestep length 1, one valid digit and no other bound. -/
def exampleScheme : BaseCouplingScheme where
  _maxTime := -1
  _maxTimesteps := -1
  _timestepLength := 1
  _doesFirstStep := false
  _validDigits := 1
  _time := 0
  _computedTimestepPart := 0
  _timesteps := 0
  _checkpointTimestepInterval := -1
  _isCouplingOngoing := true
  _isCouplingTimestepComplete := false
  _hasDataBeenExchanged := false
  _hasToReceiveInitData := false
  _hasToSendInitData := false
  _isInitialized := false
  _actions := []
  _sendData := []
  _receiveData := []
  _firstParticipant := "A"
  _secondParticipant := "B"
  _convergenceMeasures := []
  _postProcessing := none
  _extrapolationOrder := 0
  _maxIterations := -1
  _iterationToPlot := 0
  _timestepToPlot := 0
  _timeToPlot := 0
  _iterations := 0
  _totalIterations := 0
  _participantSetsDt := false
  _participantReceivesDt := false

/-- A scheme in the middle of a run, with two outstanding actions. -/
def runningScheme : BaseCouplingScheme :=
  { exampleScheme with
    _maxTime := 5
    _maxTimesteps := 10
    _time := 2
    _timesteps := 3
    _isInitialized := true
    _actions := ["a", "b"]
    _maxIterations := 7
    _iterations := 2
    _totalIterations := 9 }

/-- A scheme whose only send data, with identifier 7, has an empty buffer. -/
def emptyBufferScheme : BaseCouplingScheme :=
  { exampleScheme with _sendData := [(7, { values := [], oldValues := [], initialize_ := false })] }

/-- A sender with three send data, the second with an empty buffer. -/
def senderScheme : BaseCouplingScheme :=
  { exampleScheme with
    _sendData := [(1, { values := [1, 2], oldValues := [], initialize_ := false }),
                  (2, { values := [], oldValues := [], initialize_ := false }),
                  (5, { values := [3], oldValues := [], initialize_ := false })] }

/-- A receiver with three receive data of the sizes of `senderScheme`. -/
def receiverScheme : BaseCouplingScheme :=
  { exampleScheme with
    _doesFirstStep := true
    _receiveData := [(1, { values := [0, 0], oldValues := [], initialize_ := false }),
                     (2, { values := [], oldValues := [], initialize_ := false }),
                     (5, { values := [0], oldValues := [], initialize_ := false })] }

/-- The calls `send(raw(values), size, 0)` for the entries of a map with a
non-empty buffer, in iteration order. -/
def sendOps (m : DataMap) : List CommOp :=
  (m.filter (fun p => !p.2.values.isEmpty)).map (fun p => CommOp.send (.doubles p.2.values) 0)

/-- The `initialize` flags of the entries of a map, in iteration order. -/
def initializeFlags (m : DataMap) : List Bool :=
  m.map (fun p => p.2.initialize_)

/-- What the wiring steps of the method `initialize` leave as it was: the
role of the participant, the two initial-data flags of the scheme, the
`initialize` flags of the entries of both maps, and the post-processing. -/
structure SameRoles (s s' : BaseCouplingScheme) : Prop where
  doesFirstStep : s'._doesFirstStep = s._doesFirstStep
  hasToSendInitData : s'._hasToSendInitData = s._hasToSendInitData
  hasToReceiveInitData : s'._hasToReceiveInitData = s._hasToReceiveInitData
  sendFlags : initializeFlags s'._sendData = initializeFlags s._sendData
  receiveFlags : initializeFlags s'._receiveData = initializeFlags s._receiveData
  postProcessing : s'._postProcessing = s._postProcessing

/-- The first participant, with one send data and one receive data flagged
`initialize`. -/
def firstParticipantScheme : BaseCouplingScheme :=
  { exampleScheme with
    _doesFirstStep := true
    _sendData := [(1, { values := [1], oldValues := [], initialize_ := false })]
    _receiveData := [(2, { values := [0], oldValues := [], initialize_ := true })] }

/-- The second participant with the same maps: its receive data is flagged
`initialize`. -/
def secondParticipantScheme : BaseCouplingScheme :=
  { firstParticipantScheme with _doesFirstStep := false }

/-- The steps of `initialize` up to the first receive all succeeded, with the
schemes `s1` (after the wiring), `s2` (after the scan of the send data) and
`s3` (after the scan of the receive data). -/
def BaseCouplingScheme.InitializeScans (k : Constants) (s : BaseCouplingScheme) (startTime : ℚ)
    (startTimestep : Int) (s1 s2 s3 : BaseCouplingScheme) : Prop :=
  s._isInitialized = false ∧
  BaseCouplingScheme.initializeSetup { s with _time := startTime, _timesteps := startTimestep }
    = .ok s1 ∧
  BaseCouplingScheme.scanSendData
    (if !s1._convergenceMeasures.isEmpty
      then s1.requireAction k.actionWriteIterationCheckpoint else s1)
    (if !s1._convergenceMeasures.isEmpty
      then s1.requireAction k.actionWriteIterationCheckpoint else s1)._sendData = .ok s2 ∧
  s2.scanReceiveData s2._receiveData = .ok s3

/-! ## Construction -/

/-- The first constructor, `BaseCouplingScheme(maxTime, maxTimesteps,
timestepLength, validDigits)`. It leaves the members from
`_extrapolationOrder` to `_participantReceivesDt` without a value; the model
takes them from `unset`. -/
def BaseCouplingScheme.construct (k : Constants) (unset : BaseCouplingScheme) (maxTime : ℚ)
    (maxTimesteps : Int) (timestepLength : ℚ) (validDigits : Int) :
    Result BaseCouplingScheme := do
  preciceCheck (!(decide (maxTime ≠ k.UNDEFINED_TIME) && decide (maxTime < 0)))
    "BaseCouplingScheme()" "Maximum time has to be larger than zero!"
  preciceCheck (!(decide (maxTimesteps ≠ k.UNDEFINED_TIMESTEPS) && decide (maxTimesteps < 0)))
    "BaseCouplingScheme()" "Maximum timestep number has to be larger than zero!"
  preciceCheck (!(decide (timestepLength ≠ k.UNDEFINED_TIMESTEP_LENGTH)
      && decide (timestepLength < 0)))
    "BaseCouplingScheme()" "Timestep length has to be larger than zero!"
  preciceCheck (decide (validDigits ≥ 1) && decide (validDigits < 17))
    "BaseCouplingScheme()" "Valid digits of timestep length has to be between 1 and 16!"
  return { unset with
    _maxTime := maxTime
    _maxTimesteps := maxTimesteps
    _timestepLength := timestepLength
    _doesFirstStep := false
    _validDigits := validDigits
    _time := 0
    _computedTimestepPart := 0
    _timesteps := 0
    _checkpointTimestepInterval := -1
    _isCouplingOngoing := true
    _isCouplingTimestepComplete := false
    _hasDataBeenExchanged := false
    _hasToReceiveInitData := false
    _hasToSendInitData := false
    _isInitialized := false
    _actions := []
    _sendData := []
    _receiveData := []
    _firstParticipant := ""
    _secondParticipant := ""
    _convergenceMeasures := []
    _postProcessing := none }

/-- The member initializer list of the second constructor. -/
def BaseCouplingScheme.members (maxTime : ℚ) (maxTimesteps : Int) (timestepLength : ℚ)
    (validDigits : Int) (firstParticipant secondParticipant : String) (maxIterations : Int) :
    BaseCouplingScheme where
  _maxTime := maxTime
  _maxTimesteps := maxTimesteps
  _timestepLength := timestepLength
  _doesFirstStep := false
  _validDigits := validDigits
  _time := 0
  _computedTimestepPart := 0
  _timesteps := 0
  _checkpointTimestepInterval := -1
  _isCouplingOngoing := true
  _isCouplingTimestepComplete := false
  _hasDataBeenExchanged := false
  _hasToReceiveInitData := false
  _hasToSendInitData := false
  _isInitialized := false
  _actions := []
  _sendData := []
  _receiveData := []
  _firstParticipant := firstParticipant
  _secondParticipant := secondParticipant
  _convergenceMeasures := []
  _postProcessing := none
  _extrapolationOrder := 0
  _maxIterations := maxIterations
  _iterationToPlot := 0
  _timestepToPlot := 0
  _timeToPlot := 0
  _iterations := 0
  _totalIterations := 0
  _participantSetsDt := false
  _participantReceivesDt := false

/-- The lines 133-149 of the second constructor: the role of the local
participant and who sets the timestep length. -/
def BaseCouplingScheme.resolveParticipant (k : Constants) (s : BaseCouplingScheme)
    (localParticipant : String) (dtMethod : TimesteppingMethod) : Result BaseCouplingScheme :=
  if localParticipant = s._firstParticipant then
    let s := { s with _doesFirstStep := true }
    if dtMethod = .FIRST_PARTICIPANT_SETS_DT then
      let s := { s with _participantSetsDt := true }
      .ok { s with _timestepLength := k.UNDEFINED_TIMESTEP_LENGTH }
    else .ok s
  else if localParticipant = s._secondParticipant then
    if dtMethod = .FIRST_PARTICIPANT_SETS_DT then
      .ok { s with _participantReceivesDt := true }
    else .ok s
  else
    preciceError "initialize()"
      ("Name of local participant \"" ++ localParticipant
        ++ "\" does not match any participant specified for the coupling scheme!")

/-- The second constructor, `BaseCouplingScheme(maxTime, maxTimesteps,
timestepLength, validDigits, firstParticipant, secondParticipant,
localParticipant, communication, maxIterations, dtMethod)`. The argument
`communication` is a shared pointer, `none` when it is null; the closing
`assertion(_communication.use_count() > 0)` holds when it is not null. The
channel is not kept in the scheme: the methods that use it take it as an
argument. -/
def BaseCouplingScheme.constructParticipant (k : Constants) (maxTime : ℚ) (maxTimesteps : Int)
    (timestepLength : ℚ) (validDigits : Int) (firstParticipant secondParticipant : String)
    (localParticipant : String) (communication : Option Communication) (maxIterations : Int)
    (dtMethod : TimesteppingMethod) : Result BaseCouplingScheme := do
  let s := BaseCouplingScheme.members maxTime maxTimesteps timestepLength validDigits
    firstParticipant secondParticipant maxIterations
  preciceCheck (!(decide (maxTime ≠ k.UNDEFINED_TIME) && decide (maxTime < 0)))
    "BaseCouplingScheme()" "Maximum time has to be larger than zero!"
  preciceCheck (!(decide (maxTimesteps ≠ k.UNDEFINED_TIMESTEPS) && decide (maxTimesteps < 0)))
    "BaseCouplingScheme()" "Maximum timestep number has to be larger than zero!"
  preciceCheck (!(decide (timestepLength ≠ k.UNDEFINED_TIMESTEP_LENGTH)
      && decide (timestepLength < 0)))
    "BaseCouplingScheme()" "Timestep length has to be larger than zero!"
  preciceCheck (decide (validDigits ≥ 1) && decide (validDigits < 17))
    "BaseCouplingScheme()" "Valid digits of timestep length has to be between 1 and 16!"
  preciceCheck (decide (s._firstParticipant ≠ s._secondParticipant)) "ImplicitCouplingScheme()"
    "First participant and second participant must have different names! Called from BaseCoupling."
  (if dtMethod = .FIXED_DT then
    preciceCheck (s.hasTimestepLength k) "ImplicitCouplingScheme()"
      "Timestep length value has to be given when the fixed timestep length method is chosen for an implicit coupling scheme!"
  else pure ())
  let s ← s.resolveParticipant k localParticipant dtMethod
  preciceCheck (decide (maxIterations > 0) || decide (maxIterations = -1))
    "ImplicitCouplingState()" "Maximal iteration limit has to be larger than zero!"
  assertion communication.isSome "BaseCouplingScheme()"
  return s

/-! ## Registration of data -/

/-- Modelled from the spec: a data item of the data-model collaborator
(`mesh::Data`), which "exposes a stable integer identifier, a name (for
diagnostics), a mesh-name (for diagnostics), and a mutable numeric buffer". -/
structure Data where
  getID : Int
  getName : String
  meshName : String
  values : List ℚ
  deriving DecidableEq, Repr

/-- The call `utils::contained(id, map)`: the map has the key `id`. -/
def contained (id : Int) (m : DataMap) : Bool :=
  m.any (fun p => decide (p.1 = id))

/-- The method `std::map::insert(pair)`: entries stay in ascending order of
their keys, and a key that is there already is left alone. -/
def mapInsert (id : Int) (d : CouplingData) : DataMap → DataMap
  | [] => [(id, d)]
  | (i, e) :: rest =>
    if id < i then (id, d) :: (i, e) :: rest
    else if i < id then (i, e) :: mapInsert id d rest
    else (i, e) :: rest

/-- The constructor `CouplingData(values, initialize)`: no old values yet. -/
def CouplingData.new (values : List ℚ) (initialize_ : Bool) : CouplingData where
  values := values
  oldValues := []
  initialize_ := initialize_

/-- The method `addDataToSend(data, initialize)`: the scheme as the call leaves
it, and the failure with which it ends, if it ends with one. -/
def BaseCouplingScheme.addDataToSend (s : BaseCouplingScheme) (data : Data)
    (initialize_ : Bool) : BaseCouplingScheme × Option Failure :=
  let id := data.getID
  if !contained id s._sendData then
    let ptrCplData := CouplingData.new data.values initialize_
    ({ s with _sendData := mapInsert id ptrCplData s._sendData }, none)
  else
    (s, some (.error "addDataToSend()"
      ("Data \"" ++ data.getName ++ "\" of mesh \"" ++ data.meshName
        ++ "\" cannot be added twice for sending!")))

/-- The method `addDataToReceive(data, initialize)`: the scheme as the call
leaves it, and the failure with which it ends, if it ends with one. -/
def BaseCouplingScheme.addDataToReceive (s : BaseCouplingScheme) (data : Data)
    (initialize_ : Bool) : BaseCouplingScheme × Option Failure :=
  let id := data.getID
  if !contained id s._receiveData then
    let ptrCplData := CouplingData.new data.values initialize_
    ({ s with _receiveData := mapInsert id ptrCplData s._receiveData }, none)
  else
    (s, some (.error "addDataToReceive()"
      ("Data \"" ++ data.getName ++ "\" of mesh \"" ++ data.meshName
        ++ "\" cannot be added twice for receiving!")))

/-! ## Initial data -/

/-- The assignment `oldValues.column(0) = values`. -/
def DataMatrix.setColumn0 (m : DataMatrix) (v : List ℚ) : DataMatrix :=
  m.set 0 v

/-- The loop of the method `initializeData` over the send data, lines 692-700:
the initial values become column 0 of `oldValues`; the loop ends at the first
entry without columns. -/
def seedOldValues : DataMap → DataMap
  | [] => []
  | (id, d) :: rest =>
    if d.oldValues.length = 0 then (id, d) :: rest
    else
      let oldValues := DataMatrix.setColumn0 d.oldValues d.values
      (id, { d with oldValues := DataMatrix.shiftSetFirst oldValues d.values })
        :: seedOldValues rest

/-- The lines 672-687 of the method `initializeData`: the first participant
receives the initial data. -/
def BaseCouplingScheme.receiveInitData (k : Constants) (s : BaseCouplingScheme)
    (communication : Communication) : Result (BaseCouplingScheme × Communication) :=
  if s._hasToReceiveInitData && s.isCouplingOngoing k then do
    assertion s._doesFirstStep "initializeData()"
    s.receivePackage k communication
  else pure (s, communication)

/-- The lines 690-710 of the method `initializeData`: the second participant
sends the initial data and receives in return. -/
def BaseCouplingScheme.sendInitData (k : Constants) (s : BaseCouplingScheme)
    (communication : Communication) : Result (BaseCouplingScheme × Communication) :=
  if s._hasToSendInitData && s.isCouplingOngoing k then do
    assertion (!s._doesFirstStep) "initializeData()"
    let s := { s with _sendData := seedOldValues s._sendData }
    let (_, c) ← s.sendData communication
    let c := c.startReceivePackage 0
    let (s, _, c) ← s.receiveData c
    let c := c.finishReceivePackage
    return ({ s with _hasDataBeenExchanged := true }, c)
  else pure (s, communication)

/-- The method `initializeData()`; `communication` is the channel
`getCommunication()`. -/
def BaseCouplingScheme.initializeData (k : Constants) (s : BaseCouplingScheme)
    (communication : Communication) : Result (BaseCouplingScheme × Communication) := do
  preciceCheck s._isInitialized "initializeData()"
    "initializeData() can be called after initialize() only!"
  if !s._hasToSendInitData && !s._hasToReceiveInitData then
    return (s, communication)
  else do
    preciceCheck (!(s._hasToSendInitData && s.isActionRequired k.actionWriteInitialData))
      "initializeData()"
      "InitialData has to be written to preCICE before calling initializeData()"
    let s := { s with _hasDataBeenExchanged := false }
    let (s, c) ← s.receiveInitData k communication
    let (s, c) ← s.sendInitData k c
    let s := { s with _hasToSendInitData := false }
    let s := { s with _hasToReceiveInitData := false }
    return (s, c)

/-- The calls `receive(raw(values), size, 0)` that filled the non-empty
buffers of a map, in iteration order. -/
def receiveOps (m : DataMap) : List CommOp :=
  (m.filter (fun p => !p.2.values.isEmpty)).map (fun p => CommOp.receive (.doubles p.2.values) 0)

/-- What the steps of the method `initialize` before its first receive leave
as it was, besides what `SameRoles` lists. -/
structure SameControl (s s' : BaseCouplingScheme) : Prop where
  maxTime : s'._maxTime = s._maxTime
  maxTimesteps : s'._maxTimesteps = s._maxTimesteps
  validDigits : s'._validDigits = s._validDigits
  time : s'._time = s._time
  timesteps : s'._timesteps = s._timesteps
  timestepLength : s'._timestepLength = s._timestepLength
  participantReceivesDt : s'._participantReceivesDt = s._participantReceivesDt
  hasDataBeenExchanged : s'._hasDataBeenExchanged = s._hasDataBeenExchanged
  actions : s'._actions = s._actions
  measures : s'._convergenceMeasures.length = s._convergenceMeasures.length

/-- An initialized scheme on which the "write initial data" action is
outstanding although no initial data has to be sent or received. -/
def pendingActionScheme : BaseCouplingScheme :=
  { runningScheme with _actions := [exampleConstants.actionWriteInitialData] }

/-- An initialized second participant that has to send initial data and has
not written it yet. -/
def unwrittenDataScheme : BaseCouplingScheme :=
  { runningScheme with
    _hasToSendInitData := true
    _actions := [exampleConstants.actionWriteInitialData] }

/-- A second participant before `initialize`: extrapolation order 0, the send
data 1 (flagged `initialize`) and 2, one convergence measure on the data 2, and
nothing to receive. -/
def seedScheme : BaseCouplingScheme :=
  { exampleScheme with
    _sendData := [(1, { values := [1], oldValues := [], initialize_ := true }),
                  (2, { values := [2], oldValues := [], initialize_ := false })]
    _convergenceMeasures := [{ dataID := 2, data := none }] }

/-- The scheme `seedScheme` after `initialize(0, 0)`: the convergence measure
is wired to the send data 2, which got one column of zeros, and the two actions
are required. -/
def seedSchemeInitialized : BaseCouplingScheme :=
  { seedScheme with
    _sendData := [(1, { values := [1], oldValues := [], initialize_ := true }),
                  (2, { values := [2], oldValues := [[0]], initialize_ := false })]
    _convergenceMeasures := [{ dataID := 2, data := some (.sendData 2) }]
    _hasToSendInitData := true
    _isInitialized := true
    _actions := ["write-initial-data", "write-iteration-checkpoint"] }

/-- The scheme `seedSchemeInitialized` after the initial data has been written
and `initializeData()` has run. -/
def seedSchemeDone : BaseCouplingScheme :=
  { seedSchemeInitialized with
    _hasToSendInitData := false
    _hasDataBeenExchanged := true
    _actions := ["write-iteration-checkpoint"] }

/-- The channel after `initializeData()` on `seedSchemeInitialized`. -/
def seedChannelDone : Communication :=
  { freshChannel with
    log := [CommOp.send (.doubles [1]) 0, CommOp.send (.doubles [2]) 0,
            CommOp.startReceivePackage 0, CommOp.finishReceivePackage] }

/-- The scheme `seedSchemeInitialized` after
`performedAction(actionWriteInitialData())`. -/
def seedSchemeReady : BaseCouplingScheme :=
  { seedSchemeInitialized with _actions := ["write-iteration-checkpoint"] }

/-- The values read by the `receive` calls of a log, in order. -/
def receivedValues : List CommOp → List Msg
  | [] => []
  | .receive m _ :: ops => m :: receivedValues ops
  | _ :: ops => receivedValues ops

/-- The members on which `isCouplingOngoing()` depends are the same. -/
structure SameClock (s s' : BaseCouplingScheme) : Prop where
  maxTime : s'._maxTime = s._maxTime
  maxTimesteps : s'._maxTimesteps = s._maxTimesteps
  validDigits : s'._validDigits = s._validDigits
  time : s'._time = s._time
  timesteps : s'._timesteps = s._timesteps

/-- A first participant with one send data and one receive data, none flagged
`initialize`, and no bound on the run. -/
def plainFirstScheme : BaseCouplingScheme :=
  { exampleScheme with
    _doesFirstStep := true
    _sendData := [(1, { values := [1], oldValues := [], initialize_ := false })]
    _receiveData := [(2, { values := [0], oldValues := [], initialize_ := false })] }

/-- The second participant with the same maps. -/
def plainSecondScheme : BaseCouplingScheme :=
  { plainFirstScheme with _doesFirstStep := false }

/-! ## The length of the next timestep -/

/-- The value `std::numeric_limits<double>::max()`, the largest finite
double: `(2 - 2 ^ (-52)) * 2 ^ 1023`. -/
def numeric_limits_double_max : ℚ :=
  (2 ^ 53 - 1) * 2 ^ 971

/-- The method `getNextTimestepMaxLength()`. -/
def BaseCouplingScheme.getNextTimestepMaxLength (k : Constants) (s : BaseCouplingScheme) : ℚ :=
  if tarch.la.equals s._timestepLength k.UNDEFINED_TIMESTEP_LENGTH k.NUMERICAL_ZERO_DIFFERENCE then
    if tarch.la.equals s._maxTime k.UNDEFINED_TIME k.NUMERICAL_ZERO_DIFFERENCE then
      numeric_limits_double_max
    else
      k.sub s._maxTime s._time
  else k.sub s._timestepLength s._computedTimestepPart

/-! ## The extrapolation order and the history storage -/

/-- The method `setExtrapolationOrder(order)`. -/
def BaseCouplingScheme.setExtrapolationOrder (s : BaseCouplingScheme) (order : Int) :
    Result BaseCouplingScheme := do
  preciceCheck (decide (order = 0) || decide (order = 1) || decide (order = 2))
    "setExtrapolationOrder()" "Extrapolation order has to be  0, 1, or 2!"
  return { s with _extrapolationOrder := order }

/-- The map of the scheme `s` an argument `DataMap& data` refers to. -/
def BaseCouplingScheme.DataSide.entries (data : BaseCouplingScheme.DataSide)
    (s : BaseCouplingScheme) : DataMap :=
  match data with
  | .sendData => s._sendData
  | .receiveData => s._receiveData

/-- The pointer to the entry `dataID` of the map `data` refers to. -/
def BaseCouplingScheme.DataSide.ref (data : BaseCouplingScheme.DataSide) (dataID : Int) :
    DataRef :=
  match data with
  | .sendData => .sendData dataID
  | .receiveData => .receiveData dataID

/-- Some convergence measure of the list points to the entry `ref`. -/
def measuredBy (measures : List ConvergenceMeasure) (ref : DataRef) : Bool :=
  measures.any (fun convMeasure => decide (convMeasure.data = some ref))

/-- Every convergence measure of the scheme points to an entry of one of its
two maps, as the method `setupConvergenceMeasures` leaves them. -/
def BaseCouplingScheme.MeasuresResolved (s : BaseCouplingScheme) : Prop :=
  ∀ convMeasure ∈ s._convergenceMeasures,
    ∃ ref, convMeasure.data = some ref ∧ (s.deref ref).isSome = true

/-- A second participant with send data 1 and 2, none with old values, and one
convergence measure, which points to send data 2. -/
def historyScheme : BaseCouplingScheme :=
  { exampleScheme with
    _sendData := [(1, { values := [1], oldValues := [], initialize_ := false }),
                  (2, { values := [2, 3], oldValues := [], initialize_ := false })]
    _convergenceMeasures := [{ dataID := 2, data := some (.sendData 2) }] }

/-- The scheme `historyScheme` after `setupDataMatrices` for its send data:
send data 2 has one column of zeros, send data 1 still has none. -/
def historySchemeAfter : BaseCouplingScheme :=
  { historyScheme with
    _sendData := [(1, { values := [1], oldValues := [], initialize_ := false }),
                  (2, { values := [2, 3], oldValues := [[0, 0]], initialize_ := false })] }

/-- What the first loop of `setupDataMatrices` does to an entry of a map: it
leaves it alone, or it gives an entry without columns one column of zeros. -/
def Reserved (p p' : Int × CouplingData) : Prop :=
  p'.1 = p.1 ∧ p'.2.values = p.2.values ∧ p'.2.initialize_ = p.2.initialize_ ∧
  (p'.2.oldValues = p.2.oldValues ∨
    (p.2.oldValues = [] ∧ p'.2.oldValues = [List.replicate p.2.values.length 0]))

/-! ## Configuration -/

/-- The schemes the second constructor builds and the configuration calls
then change: `addDataToSend`, `addDataToReceive` and `setExtrapolationOrder`
of this file. The convergence measures and the post-processing are attached by
methods declared in the header; any value of these two members is allowed. -/
inductive BaseCouplingScheme.Configured (k : Constants) : BaseCouplingScheme → Prop where
  | built (maxTime : ℚ) (maxTimesteps : Int) (timestepLength : ℚ) (validDigits : Int)
      (firstParticipant secondParticipant localParticipant : String)
      (communication : Option Communication) (maxIterations : Int)
      (dtMethod : TimesteppingMethod) (s : BaseCouplingScheme) :
      BaseCouplingScheme.constructParticipant k maxTime maxTimesteps timestepLength validDigits
        firstParticipant secondParticipant localParticipant communication maxIterations dtMethod
        = .ok s →
      BaseCouplingScheme.Configured k s
  | sendAdded (s : BaseCouplingScheme) (data : Data) (flag : Bool) :
      BaseCouplingScheme.Configured k s →
      BaseCouplingScheme.Configured k (s.addDataToSend data flag).1
  | receiveAdded (s : BaseCouplingScheme) (data : Data) (flag : Bool) :
      BaseCouplingScheme.Configured k s →
      BaseCouplingScheme.Configured k (s.addDataToReceive data flag).1
  | orderSet (s s' : BaseCouplingScheme) (order : Int) :
      BaseCouplingScheme.Configured k s → s.setExtrapolationOrder order = .ok s' →
      BaseCouplingScheme.Configured k s'
  | measuresSet (s : BaseCouplingScheme) (measures : List ConvergenceMeasure) :
      BaseCouplingScheme.Configured k s →
      BaseCouplingScheme.Configured k { s with _convergenceMeasures := measures }
  | postProcessingSet (s : BaseCouplingScheme) (postProcessing : Option PostProcessing) :
      BaseCouplingScheme.Configured k s →
      BaseCouplingScheme.Configured k { s with _postProcessing := postProcessing }

/-! ## Concrete doubles and schemes for the time arithmetic -/

/-- The double nearest to 1/10, which is the double literal `0.1`. -/
def doubleTenth : ℚ :=
  3602879701896397 / 2 ^ 55

/-- A scheme without timestep length and without bounds, at time 2 and with
the computed part 2 of its timestep. -/
def driftScheme : BaseCouplingScheme :=
  { exampleScheme with _timestepLength := -1, _time := 2, _computedTimestepPart := 2 }

/-- A scheme with the timestep length `0.1` and one valid digit. -/
def tenthScheme : BaseCouplingScheme :=
  { exampleScheme with _timestepLength := doubleTenth }

/-- A scheme with the maximum time `0.1` and one valid digit, at time 0. -/
def tenthBoundScheme : BaseCouplingScheme :=
  { exampleScheme with _maxTime := doubleTenth }

/-- A scheme whose maximum time is not the sentinel -1 but within the
tolerance of it. -/
def nearSentinelScheme : BaseCouplingScheme :=
  { exampleScheme with _maxTime := -1 + 1 / 2 ^ 50 }

/-- A scheme with the timestep length 1 of which `0.1` has been computed. -/
def tenthPartScheme : BaseCouplingScheme :=
  { exampleScheme with _computedTimestepPart := doubleTenth }

theorem assertion_true (method : String) : assertion true method = .ok () := rfl

theorem assertion_false (method : String) :
    assertion false method = .error (.assertion method) := rfl

theorem preciceCheck_true (method message : String) :
    preciceCheck true method message = .ok () := rfl

theorem preciceCheck_false (method message : String) :
    preciceCheck false method message = .error (.error method message) := rfl

/-! ## Helper lemmas: the action set -/

theorem mem_setInsert (a t : String) (l : List String) :
    t ∈ setInsert a l ↔ t = a ∨ t ∈ l := by
  induction l with
  | nil => simp [setInsert]
  | cons b bs ih =>
    unfold setInsert
    split_ifs with h1 h2
    · simp
    · simp only [List.mem_cons, ih]
      tauto
    · have hab : a = b := le_antisymm (not_lt.mp h2) (not_lt.mp h1)
      subst hab
      simp

theorem mem_foldl_setInsert (l acc : List String) (t : String) :
    t ∈ l.foldl (fun acc a => setInsert a acc) acc ↔ t ∈ l ∨ t ∈ acc := by
  induction l generalizing acc with
  | nil => simp
  | cons a l ih =>
    simp only [List.foldl_cons, ih, mem_setInsert, List.mem_cons]
    tauto

/-! ## Helper lemmas: `sendState` and `receiveState` -/

namespace BaseCouplingScheme

theorem sendActions_eq (c : Communication) (r : Int) (l : List String) :
    sendActions c r l = { c with log := c.log ++ l.map (fun a => CommOp.send (.string a) r) } := by
  induction l generalizing c with
  | nil => simp [sendActions]
  | cons a l ih => simp [sendActions, ih, Communication.send]

theorem sendState_eq (s : BaseCouplingScheme) (c : Communication) (r : Int)
    (hc : c.isConnected = true) :
    s.sendState c r = .ok { c with
      log := c.log ++ ([CommOp.startSendPackage r]
        ++ s.wireValues.map (fun m => CommOp.send m r) ++ [CommOp.finishSendPackage]) } := by
  simp [sendState, sendActions_eq, Communication.send, Communication.startSendPackage,
    Communication.finishSendPackage, hc, assertion_true, wireValues, bind, Except.bind, pure,
    Except.pure]

theorem sentValues_append (l₁ l₂ : List CommOp) :
    sentValues (l₁ ++ l₂) = sentValues l₁ ++ sentValues l₂ := by
  induction l₁ with
  | nil => rfl
  | cons op l ih => cases op <;> simp [sentValues, ih]

theorem sentValues_map_send (ms : List Msg) (r : Int) :
    sentValues (ms.map (fun m => CommOp.send m r)) = ms := by
  induction ms with
  | nil => rfl
  | cons m ms ih => simp [sentValues, ih]

theorem receiveActions_eq (r : Int) (l acc : List String) (c : Communication) (rest : List Msg)
    (hin : c.inbox = l.map Msg.string ++ rest) :
    receiveActions r l.length acc c = .ok (l.foldl (fun acc a => setInsert a acc) acc,
      { c with inbox := rest,
               log := c.log ++ l.map (fun a => CommOp.receive (.string a) r) }) := by
  induction l generalizing acc c with
  | nil =>
    simp only [List.map_nil, List.nil_append] at hin
    simp [receiveActions, ← hin]
  | cons a l ih =>
    simp only [List.map_cons, List.cons_append] at hin
    simp only [List.length_cons, receiveActions, Communication.receiveString, hin, bind,
      Except.bind]
    rw [ih]
    · simp [Communication.pop]
    · simp [Communication.pop]

end BaseCouplingScheme

namespace BaseCouplingScheme

/-- Reading the values written from `a` into `b`: the state and the channel
afterwards, spelled out. -/
theorem receiveState_wireValues (a b : BaseCouplingScheme) (c : Communication) (r : Int)
    (rest : List Msg) (hc : c.isConnected = true) (hin : c.inbox = a.wireValues ++ rest) :
    ∃ log, b.receiveState c r = .ok ({ b with
      _maxTime := a._maxTime
      _maxTimesteps := a._maxTimesteps
      _timestepLength := a._timestepLength
      _time := a._time
      _timesteps := a._timesteps
      _checkpointTimestepInterval := a._checkpointTimestepInterval
      _computedTimestepPart := a._computedTimestepPart
      _isInitialized := a._isInitialized
      _isCouplingTimestepComplete := a._isCouplingTimestepComplete
      _hasDataBeenExchanged := a._hasDataBeenExchanged
      _actions := a._actions.foldl (fun acc t => setInsert t acc) []
      _maxIterations := a._maxIterations
      _iterations := a._iterations
      _totalIterations := a._totalIterations },
      { c with inbox := rest, log := log }) := by
  simp only [wireValues, List.cons_append, List.nil_append, List.append_assoc] at hin
  simp only [receiveState, Communication.startReceivePackage, hc, assertion_true,
    Communication.receiveDouble, Communication.receiveInt, Communication.receiveBool, hin,
    Communication.pop, bind, Except.bind, Int.toNat_ofNat]
  rw [receiveActions_eq r a._actions [] _
    (Msg.int a._maxIterations :: Msg.int a._iterations :: Msg.int a._totalIterations :: rest)
    (by simp)]
  simp [Communication.finishReceivePackage, pure, Except.pure]

end BaseCouplingScheme

/-! ## C1: the state round trip -/

/-- C1: when a receiving scheme `B` runs `receiveState` over exactly the values
that `sendState` wrote from a scheme `A` (followed by any further values
`rest`), the call succeeds, it leaves `B` with `time`, `timesteps`,
`computedTimestepPart`, `timestepLength`, `checkpointTimestepInterval`,
`isInitialized`, `isCouplingTimestepComplete`, `hasDataBeenExchanged`,
`maxIterations`, `iterations` and `totalIterations` equal to those of `A`, with
the same action tokens as `A` (as a set), and it consumes the values of the
package and no more (`rest` stays in the channel). -/
theorem C1_state_round_trip (A B : BaseCouplingScheme) (cA cA' cB : Communication)
    (rankReceiver rankSender : Int) (rest : List Msg)
    (hsend : A.sendState cA rankReceiver = .ok cA')
    (hB : cB.isConnected = true)
    (hin : cB.inbox = sentValues (cA'.log.drop cA.log.length) ++ rest) :
    ∃ B' cB', B.receiveState cB rankSender = .ok (B', cB') ∧
      cB'.inbox = rest ∧
      B'._time = A._time ∧
      B'._timesteps = A._timesteps ∧
      B'._computedTimestepPart = A._computedTimestepPart ∧
      B'._timestepLength = A._timestepLength ∧
      B'._checkpointTimestepInterval = A._checkpointTimestepInterval ∧
      B'._isInitialized = A._isInitialized ∧
      B'._isCouplingTimestepComplete = A._isCouplingTimestepComplete ∧
      B'._hasDataBeenExchanged = A._hasDataBeenExchanged ∧
      B'._maxIterations = A._maxIterations ∧
      B'._iterations = A._iterations ∧
      B'._totalIterations = A._totalIterations ∧
      (∀ t, t ∈ B'._actions ↔ t ∈ A._actions) ∧
      (∀ t, B'.isActionRequired t = A.isActionRequired t) := by
  have hA : cA.isConnected = true := by
    cases h : cA.isConnected with
    | true => rfl
    | false =>
      simp [BaseCouplingScheme.sendState, Communication.startSendPackage, h, assertion_false,
        bind, Except.bind] at hsend
  rw [BaseCouplingScheme.sendState_eq A cA rankReceiver hA] at hsend
  injection hsend with hsend
  subst hsend
  simp only [List.drop_left, BaseCouplingScheme.sentValues_append,
    BaseCouplingScheme.sentValues_map_send, sentValues, List.nil_append, List.append_nil] at hin
  obtain ⟨log, hrecv⟩ := BaseCouplingScheme.receiveState_wireValues A B cB rankSender rest hB hin
  have hmem : ∀ t, t ∈ A._actions.foldl (fun acc t => setInsert t acc) [] ↔ t ∈ A._actions := by
    intro t
    simp [mem_foldl_setInsert]
  refine ⟨_, _, hrecv, rfl, rfl, rfl, rfl, rfl, rfl, rfl, rfl, rfl, rfl, rfl, rfl, hmem, ?_⟩
  intro t
  simp only [BaseCouplingScheme.isActionRequired, setCount, List.count_pos_iff, gt_iff_lt]
  exact decide_eq_decide.mpr (hmem t)

/-- C1 at a concrete input: the state of `runningScheme`, sent over a fresh
channel, is read into `exampleScheme`. -/
theorem C1_state_round_trip_witness :
    runningScheme.sendState freshChannel 1 = .ok
      { freshChannel with log := [CommOp.startSendPackage 1]
          ++ runningScheme.wireValues.map (fun m => CommOp.send m 1)
          ++ [CommOp.finishSendPackage] } ∧
    (channelWith runningScheme.wireValues).isConnected = true ∧
    ∃ B' cB', exampleScheme.receiveState (channelWith runningScheme.wireValues) 0
        = .ok (B', cB') ∧
      cB'.inbox = [] ∧
      B'._time = 2 ∧ B'._timesteps = 3 ∧ B'._iterations = 2 ∧
      (∀ t, t ∈ B'._actions ↔ t ∈ ["a", "b"]) := by
  have hsend := BaseCouplingScheme.sendState_eq runningScheme freshChannel 1 rfl
  refine ⟨hsend, rfl, ?_⟩
  obtain ⟨B', cB', h, hin, ht, hn, _, _, _, _, _, _, _, hi, _, hact, _⟩ :=
    C1_state_round_trip runningScheme exampleScheme freshChannel _
      (channelWith runningScheme.wireValues) 1 0 [] hsend rfl
      (by
        simp only [freshChannel, List.nil_append, List.length_nil, List.drop_zero,
          BaseCouplingScheme.sentValues_append, BaseCouplingScheme.sentValues_map_send,
          sentValues, List.append_nil, channelWith, List.cons_append]
        rfl)
  exact ⟨B', cB', h, hin, ht, hn, hi, hact⟩

/-! ## C2: the order of the fields on the wire -/

/-- C2, refuted as stated: the values `sendState` writes for `runningScheme`
are not the bundle in the order of the specification. The code writes `maxTime`
(5) first, the listed order starts with `time` (2), and the code writes two
values more than the list has. -/
theorem C2_counterexample :
    ∃ c', runningScheme.sendState freshChannel 0 = .ok c' ∧
      sentValues c'.log ≠ runningScheme.specBundle ∧
      (sentValues c'.log).head? = some (Msg.double 5) ∧
      runningScheme.specBundle.head? = some (Msg.double 2) ∧
      (sentValues c'.log).length = runningScheme.specBundle.length + 2 := by
  refine ⟨_, BaseCouplingScheme.sendState_eq runningScheme freshChannel 0 rfl, ?_⟩
  have h : sentValues ({ freshChannel with
      log := freshChannel.log ++ ([CommOp.startSendPackage 0]
        ++ runningScheme.wireValues.map (fun m => CommOp.send m 0)
        ++ [CommOp.finishSendPackage]) } : Communication).log = runningScheme.wireValues := by
    simp only [freshChannel, List.nil_append, BaseCouplingScheme.sentValues_append,
      BaseCouplingScheme.sentValues_map_send, sentValues, List.append_nil, List.cons_append]
    rfl
  rw [h]
  refine ⟨?_, rfl, rfl, rfl⟩
  intro hEq
  have hlen := congrArg List.length hEq
  simp [BaseCouplingScheme.wireValues, BaseCouplingScheme.specBundle, runningScheme] at hlen

/-- C2, amended: between `startSendPackage` and `finishSendPackage`,
`sendState` writes `maxTime`, `maxTimesteps`, `timestepLength`, `time`,
`timesteps`, `checkpointTimestepInterval`, `computedTimestepPart`,
`isInitialized`, `isCouplingTimestepComplete`, `hasDataBeenExchanged`, the
action-token count followed by that many tokens, `maxIterations`, `iterations`,
`totalIterations`, in this order and nothing else; and `receiveState` reads the
fields in that same order: over these values it succeeds, stores every value in
the field it was written from, and leaves what follows them in the channel. -/
theorem C2_wire_field_order (s b : BaseCouplingScheme) (c cB : Communication)
    (rankReceiver rankSender : Int) (rest : List Msg)
    (hc : c.isConnected = true) (hB : cB.isConnected = true)
    (hin : cB.inbox = s.wireValues ++ rest) :
    s.wireValues =
      [Msg.double s._maxTime, Msg.int s._maxTimesteps, Msg.double s._timestepLength,
        Msg.double s._time, Msg.int s._timesteps, Msg.int s._checkpointTimestepInterval,
        Msg.double s._computedTimestepPart, Msg.bool s._isInitialized,
        Msg.bool s._isCouplingTimestepComplete, Msg.bool s._hasDataBeenExchanged,
        Msg.int (s._actions.length : Int)]
      ++ s._actions.map Msg.string
      ++ [Msg.int s._maxIterations, Msg.int s._iterations, Msg.int s._totalIterations] ∧
    (∃ c', s.sendState c rankReceiver = .ok c' ∧
      c'.log = c.log ++ [CommOp.startSendPackage rankReceiver]
        ++ s.wireValues.map (fun m => CommOp.send m rankReceiver)
        ++ [CommOp.finishSendPackage] ∧
      c'.inbox = c.inbox) ∧
    (∃ b' cB', b.receiveState cB rankSender = .ok (b', cB') ∧
      cB'.inbox = rest ∧
      b'._maxTime = s._maxTime ∧
      b'._maxTimesteps = s._maxTimesteps ∧
      b'._timestepLength = s._timestepLength ∧
      b'._time = s._time ∧
      b'._timesteps = s._timesteps ∧
      b'._checkpointTimestepInterval = s._checkpointTimestepInterval ∧
      b'._computedTimestepPart = s._computedTimestepPart ∧
      b'._isInitialized = s._isInitialized ∧
      b'._isCouplingTimestepComplete = s._isCouplingTimestepComplete ∧
      b'._hasDataBeenExchanged = s._hasDataBeenExchanged ∧
      (∀ t, t ∈ b'._actions ↔ t ∈ s._actions) ∧
      b'._maxIterations = s._maxIterations ∧
      b'._iterations = s._iterations ∧
      b'._totalIterations = s._totalIterations) := by
  refine ⟨rfl, ⟨_, BaseCouplingScheme.sendState_eq s c rankReceiver hc, ?_, rfl⟩, ?_⟩
  · simp
  · obtain ⟨log, hrecv⟩ := BaseCouplingScheme.receiveState_wireValues s b cB rankSender rest hB hin
    refine ⟨_, _, hrecv, rfl, rfl, rfl, rfl, rfl, rfl, rfl, rfl, rfl, rfl, rfl, ?_, rfl, rfl, rfl⟩
    intro t
    simp [mem_foldl_setInsert]

/-- C2 (amended) at a concrete input: the state of `runningScheme` on a fresh
channel, read back into `exampleScheme`. -/
theorem C2_wire_field_order_witness :
    freshChannel.isConnected = true ∧
    (channelWith (runningScheme.wireValues ++ [Msg.int 0])).isConnected = true ∧
    runningScheme.wireValues =
      [Msg.double 5, Msg.int 10, Msg.double 1, Msg.double 2, Msg.int 3, Msg.int (-1),
        Msg.double 0, Msg.bool true, Msg.bool false, Msg.bool false, Msg.int 2,
        Msg.string "a", Msg.string "b", Msg.int 7, Msg.int 2, Msg.int 9] ∧
    ∃ b' cB', exampleScheme.receiveState
        (channelWith (runningScheme.wireValues ++ [Msg.int 0])) 0 = .ok (b', cB') ∧
      cB'.inbox = [Msg.int 0] ∧ b'._maxTime = 5 ∧ b'._maxTimesteps = 10 := by
  obtain ⟨_, _, b', cB', h, hin, h1, h2, _⟩ :=
    C2_wire_field_order runningScheme exampleScheme freshChannel
      (channelWith (runningScheme.wireValues ++ [Msg.int 0])) 1 0 [Msg.int 0] rfl rfl rfl
  exact ⟨rfl, rfl, rfl, b', cB', h, hin, h1, h2⟩

/-! ## Helper lemmas: the arithmetic of doubles -/

theorem roundHalfEven_of_lt (q : ℚ) (n : Int) (h₁ : (n : ℚ) - 1 / 2 < q)
    (h₂ : q < n + 1 / 2) : roundHalfEven q = n := by
  unfold roundHalfEven
  by_cases hq : (n : ℚ) ≤ q
  · have hf : ⌊q⌋ = n := Int.floor_eq_iff.mpr ⟨hq, by linarith⟩
    rw [hf, if_pos (by linarith)]
  · have hf : ⌊q⌋ = n - 1 := by
      rw [Int.floor_eq_iff]
      push_cast
      constructor <;> linarith
    rw [hf, if_neg (by push_cast; linarith), if_pos (by push_cast; linarith)]
    ring

theorem binade_eq (q : ℚ) (e : Int) (hlo : (2 : ℚ) ^ e ≤ |q|) (hhi : |q| < (2 : ℚ) ^ (e + 1))
    (hmin : -1022 ≤ e) : binade q = e := by
  have hpos : 0 < |q| := lt_of_lt_of_le (by positivity) hlo
  have h1 : e ≤ Int.log 2 |q| :=
    (Int.zpow_le_iff_le_log (b := 2) (by norm_num) hpos (x := e)).mp (by exact_mod_cast hlo)
  have h2 : Int.log 2 |q| < e + 1 :=
    (Int.lt_zpow_iff_log_lt (b := 2) (by norm_num) hpos (x := e + 1)).mp (by exact_mod_cast hhi)
  unfold binade
  omega

/-- The double nearest to a number `q` of the binade `e`: `n` units in the
last place, for the integer `n` nearest to `q / 2 ^ (e - 52)`. -/
theorem roundToDouble_eq (q : ℚ) (e n : Int) (hlo : (2 : ℚ) ^ e ≤ |q|)
    (hhi : |q| < (2 : ℚ) ^ (e + 1)) (hmin : -1022 ≤ e)
    (h₁ : (n : ℚ) - 1 / 2 < q / 2 ^ (e - 52)) (h₂ : q / 2 ^ (e - 52) < n + 1 / 2) :
    roundToDouble q = n * 2 ^ (e - 52) := by
  unfold roundToDouble
  rw [binade_eq q e hlo hhi hmin, roundHalfEven_of_lt _ n h₁ h₂]

theorem roundToDouble_nonneg (q : ℚ) (hq : 0 ≤ q) : 0 ≤ roundToDouble q := by
  unfold roundToDouble
  apply mul_nonneg _ (by positivity)
  have h0 : (0 : ℚ) ≤ q / 2 ^ (binade q - 52) := div_nonneg hq (by positivity)
  have hf : 0 ≤ ⌊q / 2 ^ (binade q - 52)⌋ := Int.floor_nonneg.mpr h0
  unfold roundHalfEven
  split_ifs <;> exact_mod_cast (by omega)

/-- The double `std::pow(10.0, -1)` is the double nearest to 1/10, which is
larger than 1/10. -/
theorem pow_ten_neg_one : exampleConstants.pow 10 (-1) = doubleTenth := by
  show roundToDouble ((10 : ℚ) ^ (-1 : Int)) = 3602879701896397 / 2 ^ 55
  rw [roundToDouble_eq _ (-4) 7205759403792794 (by norm_num [abs_of_pos])
    (by norm_num [abs_of_pos]) (by norm_num) (by norm_num) (by norm_num)]
  norm_num

/-- Subtracting zero from the double 0.1 leaves it as it is. -/
theorem sub_tenth_zero : exampleConstants.sub doubleTenth 0 = doubleTenth := by
  show roundToDouble (3602879701896397 / 2 ^ 55 - 0) = 3602879701896397 / 2 ^ 55
  rw [roundToDouble_eq _ (-4) 7205759403792794 (by norm_num [abs_of_pos])
    (by norm_num [abs_of_pos]) (by norm_num) (by norm_num) (by norm_num)]
  norm_num

/-- The double sum of 2 and 2^-53 is 2. -/
theorem add_two_ulp : exampleConstants.add 2 (1 / 2 ^ 53) = 2 := by
  show roundToDouble (2 + 1 / 2 ^ 53) = 2
  rw [roundToDouble_eq _ 1 (2 ^ 52) (by norm_num [abs_of_pos]) (by norm_num [abs_of_pos])
    (by norm_num) (by norm_num) (by norm_num)]
  norm_num

/-- The double difference of 1 and the double 0.1 is the double 0.9, which is
not their difference. -/
theorem sub_one_tenth : exampleConstants.sub 1 doubleTenth = 8106479329266893 / 2 ^ 53 := by
  show roundToDouble (1 - 3602879701896397 / 2 ^ 55) = _
  rw [roundToDouble_eq _ (-1) 8106479329266893 (by norm_num [abs_of_pos])
    (by norm_num [abs_of_pos]) (by norm_num) (by norm_num) (by norm_num)]
  norm_num

theorem exampleConstants_pow_nonneg (n : Int) : 0 ≤ exampleConstants.pow 10 n :=
  roundToDouble_nonneg _ (by positivity)

/-! ## Helper lemmas: time -/

namespace BaseCouplingScheme

theorem eps_eq (k : Constants) (s : BaseCouplingScheme) :
    s.eps k = k.pow 10 (-s._validDigits) := by
  simp [eps]

/-- The outcome of `addComputedTime(timeToAdd)`. -/
theorem addComputedTime_eq (k : Constants) (s : BaseCouplingScheme) (timeToAdd : ℚ) :
    s.addComputedTime k timeToAdd =
      if s.isCouplingOngoing k = true then
        if ({ s with _computedTimestepPart := k.add s._computedTimestepPart timeToAdd }
            : BaseCouplingScheme).getThisTimestepRemainder k < -s.eps k then
          .error (.error "addComputedTime()"
            "The computed timestep length exceeds the maximum timestep limit for this time step!")
        else
          .ok { s with _computedTimestepPart := k.add s._computedTimestepPart timeToAdd,
                       _time := k.add s._time timeToAdd }
      else
        .error (.error "addComputedTime()"
          "Invalid call of addComputedTime() after simulation end!") := by
  unfold addComputedTime
  cases hon : s.isCouplingOngoing k with
  | false => simp [preciceCheck_false, bind, Except.bind]
  | true =>
    simp only [preciceCheck_true, bind, Except.bind, if_true]
    have heps : ∀ a b : ℚ,
        ({ s with _computedTimestepPart := a, _time := b } : BaseCouplingScheme).eps k = s.eps k :=
      fun _ _ => rfl
    have hrem : ∀ a b : ℚ,
        ({ s with _computedTimestepPart := a, _time := b } : BaseCouplingScheme).getThisTimestepRemainder k
        = ({ s with _computedTimestepPart := a } : BaseCouplingScheme).getThisTimestepRemainder k :=
      fun _ _ => rfl
    rw [heps, hrem]
    by_cases hlt : ({ s with _computedTimestepPart := k.add s._computedTimestepPart timeToAdd }
        : BaseCouplingScheme).getThisTimestepRemainder k < -s.eps k
    · have : tarch.la.greaterEquals (({ s with
          _computedTimestepPart := k.add s._computedTimestepPart timeToAdd }
          : BaseCouplingScheme).getThisTimestepRemainder k) 0 (s.eps k) = false := by
        simp [tarch.la.greaterEquals, hlt]
      simp [this, hlt, preciceCheck_false]
    · have : tarch.la.greaterEquals (({ s with
          _computedTimestepPart := k.add s._computedTimestepPart timeToAdd }
          : BaseCouplingScheme).getThisTimestepRemainder k) 0 (s.eps k) = true := by
        simp only [tarch.la.greaterEquals, sub_zero, ge_iff_le, decide_eq_true_eq]
        exact not_lt.mp hlt
      simp [this, hlt, preciceCheck_true, pure, Except.pure]

end BaseCouplingScheme

/-- With the sentinels -1 as bounds the coupling never ends. -/
theorem isCouplingOngoing_unbounded (s : BaseCouplingScheme) (h1 : s._maxTime = -1)
    (h2 : s._maxTimesteps = -1) : s.isCouplingOngoing exampleConstants = true := by
  simp only [BaseCouplingScheme.isCouplingOngoing, h1, h2, tarch.la.equals, exampleConstants]
  norm_num

/-! ## C3: `finalize` -/

/-- C3: `finalize` succeeds if and only if the scheme is initialized,
`isCouplingOngoing()` is false and the action set is empty; so it fails before
`initialize()`, fails while `isCouplingOngoing()` is true, and fails with a
non-empty action set even when the coupling has ended. -/
theorem C3_finalize_succeeds_iff (k : Constants) (s : BaseCouplingScheme) :
    (s.finalize k = .ok () ↔
      (s._isInitialized = true ∧ s.isCouplingOngoing k = false ∧ s._actions = [])) ∧
    (s._isInitialized = false → ∃ f, s.finalize k = .error f) ∧
    (s.isCouplingOngoing k = true → ∃ f, s.finalize k = .error f) ∧
    (s._actions ≠ [] → s.isCouplingOngoing k = false → ∃ f, s.finalize k = .error f) := by
  have key : s.finalize k = .ok () ↔
      (s._isInitialized = true ∧ s.isCouplingOngoing k = false ∧ s._actions = []) := by
    unfold BaseCouplingScheme.finalize BaseCouplingScheme.checkCompletenessRequiredActions
    cases hact : s._actions with
    | cons a l => simp [preciceError, bind, Except.bind]
    | nil =>
      cases hinit : s._isInitialized <;> cases hon : s.isCouplingOngoing k <;>
        simp [preciceCheck_true, preciceCheck_false, bind, Except.bind]
  have fails : ∀ r : Result Unit, r ≠ .ok () → ∃ f, r = .error f := by
    intro r hr
    cases r with
    | error f => exact ⟨f, rfl⟩
    | ok u => exact absurd rfl hr
  refine ⟨key, ?_, ?_, ?_⟩
  · intro h
    apply fails
    rw [Ne, key]
    simp [h]
  · intro h
    apply fails
    rw [Ne, key]
    simp [h]
  · intro h _
    apply fails
    rw [Ne, key]
    simp [h]

/-! ## C4: `addComputedTime` -/

theorem driftScheme_addComputedTime :
    driftScheme.addComputedTime exampleConstants (1 / 2 ^ 53) = .ok driftScheme := by
  have hrem : ∀ a : ℚ, ({ driftScheme with _computedTimestepPart := a }
      : BaseCouplingScheme).getThisTimestepRemainder exampleConstants = 0 := by
    intro a
    simp only [BaseCouplingScheme.getThisTimestepRemainder, tarch.la.equals, driftScheme,
      exampleConstants]
    norm_num
  have heps : 0 ≤ driftScheme.eps exampleConstants := exampleConstants_pow_nonneg _
  rw [BaseCouplingScheme.addComputedTime_eq, isCouplingOngoing_unbounded _ rfl rfl, if_pos rfl,
    hrem, if_neg (by linarith)]
  have h2 : driftScheme._computedTimestepPart = 2 := rfl
  have h3 : driftScheme._time = 2 := rfl
  rw [h2, h3, add_two_ulp]
  rfl

/-- C4, refuted as stated: in `driftScheme` the time and the computed part of
the timestep are 2. With the arithmetic of doubles `addComputedTime(2^-53)`
succeeds and leaves both at 2: neither is increased by exactly `dt`. -/
theorem C4_counterexample :
    driftScheme._time = 2 ∧ driftScheme._computedTimestepPart = 2 ∧
    ∃ s', driftScheme.addComputedTime exampleConstants (1 / 2 ^ 53) = .ok s' ∧
      s'._time = 2 ∧ s'._computedTimestepPart = 2 ∧
      s'._time ≠ driftScheme._time + 1 / 2 ^ 53 ∧
      s'._computedTimestepPart ≠ driftScheme._computedTimestepPart + 1 / 2 ^ 53 := by
  refine ⟨rfl, rfl, driftScheme, driftScheme_addComputedTime, rfl, rfl, ?_, ?_⟩
  · norm_num [driftScheme]
  · norm_num [driftScheme]

/-- C4, amended: `addComputedTime(dt)` fails if and only if
`isCouplingOngoing()` is false before the call or the remainder of the timestep
after adding `dt` (`getThisTimestepRemainder` computed with the double sum of
`computedTimestepPart` and `dt`) is less than `-eps`, where `eps` is the double
`std::pow(10.0, -validDigits)`; otherwise it succeeds, `time` and
`computedTimestepPart` each become the double sum of their value and `dt`, and
no other field of the scheme changes. -/
theorem C4_addComputedTime (k : Constants) (s : BaseCouplingScheme) (dt : ℚ) :
    s.eps k = k.pow 10 (-s._validDigits) ∧
    ((∃ f, s.addComputedTime k dt = .error f) ↔
      (s.isCouplingOngoing k = false ∨
        ({ s with _computedTimestepPart := k.add s._computedTimestepPart dt }
          : BaseCouplingScheme).getThisTimestepRemainder k < -s.eps k)) ∧
    (¬ (s.isCouplingOngoing k = false ∨
        ({ s with _computedTimestepPart := k.add s._computedTimestepPart dt }
          : BaseCouplingScheme).getThisTimestepRemainder k < -s.eps k) →
      s.addComputedTime k dt = .ok { s with
        _computedTimestepPart := k.add s._computedTimestepPart dt
        _time := k.add s._time dt }) := by
  refine ⟨s.eps_eq k, ?_, ?_⟩
  · rw [BaseCouplingScheme.addComputedTime_eq]
    cases hon : s.isCouplingOngoing k with
    | false => simp
    | true =>
      by_cases hlt : ({ s with _computedTimestepPart := k.add s._computedTimestepPart dt }
          : BaseCouplingScheme).getThisTimestepRemainder k < -s.eps k
      · simp [hlt]
      · simp [hlt]
  · intro h
    rw [BaseCouplingScheme.addComputedTime_eq]
    cases hon : s.isCouplingOngoing k with
    | false => simp [hon] at h
    | true =>
      by_cases hlt : ({ s with _computedTimestepPart := k.add s._computedTimestepPart dt }
          : BaseCouplingScheme).getThisTimestepRemainder k < -s.eps k
      · simp [hlt] at h
      · simp [hlt]

/-! ## C6: `willDataBeExchanged` -/

theorem tenthScheme_remainder :
    tenthScheme.getThisTimestepRemainder exampleConstants = doubleTenth := by
  have hdef : tarch.la.equals tenthScheme._timestepLength
      exampleConstants.UNDEFINED_TIMESTEP_LENGTH exampleConstants.NUMERICAL_ZERO_DIFFERENCE
      = false := by
    simp only [tarch.la.equals, tenthScheme, doubleTenth, exampleConstants]
    norm_num [abs_le]
  unfold BaseCouplingScheme.getThisTimestepRemainder
  rw [hdef]
  exact sub_tenth_zero

/-- C6, refuted as stated: in `tenthScheme` the timestep length is the double
`0.1` and nothing of it has been computed, so `getThisTimestepRemainder()` is
the double `0.1`, which is larger than 1/10. With one valid digit `eps` is the
double `std::pow(10.0, -1)`, the double `0.1` as well: `willDataBeExchanged(0)`
is true although `getThisTimestepRemainder() - 0 <= 10^-1` is false. -/
theorem C6_counterexample :
    tenthScheme._validDigits = 1 ∧
    tenthScheme.getThisTimestepRemainder exampleConstants = doubleTenth ∧
    tenthScheme.eps exampleConstants = doubleTenth ∧
    tenthScheme.willDataBeExchanged exampleConstants 0 = true ∧
    ¬ (tenthScheme.getThisTimestepRemainder exampleConstants - 0
        ≤ (10 : ℚ) ^ (-tenthScheme._validDigits)) := by
  have heps : tenthScheme.eps exampleConstants = doubleTenth := pow_ten_neg_one
  refine ⟨rfl, tenthScheme_remainder, heps, ?_, ?_⟩
  · unfold BaseCouplingScheme.willDataBeExchanged tarch.la.greater
    rw [tenthScheme_remainder, heps, sub_tenth_zero]
    simp [sub_tenth_zero]
  · rw [tenthScheme_remainder]
    norm_num [doubleTenth, tenthScheme, exampleScheme]

/-- C6, amended: `willDataBeExchanged(x)` is true exactly when the double
difference of `getThisTimestepRemainder()` and `x` (from which
`tarch::la::greater` subtracts 0.0, which leaves a double as it is) is at most
`eps`, the double `std::pow(10.0, -validDigits)`; and
`willDataBeExchanged(getThisTimestepRemainder())` is true, the double
difference of a double and itself being 0 and `eps` not negative. -/
theorem C6_willDataBeExchanged (k : Constants) (s : BaseCouplingScheme) (x : ℚ) :
    s.eps k = k.pow 10 (-s._validDigits) ∧
    (s.willDataBeExchanged k x = true ↔
      k.sub (k.sub (s.getThisTimestepRemainder k) x) 0 ≤ s.eps k) ∧
    (k.sub (k.sub (s.getThisTimestepRemainder k) x) 0 = k.sub (s.getThisTimestepRemainder k) x →
      (s.willDataBeExchanged k x = true ↔ k.sub (s.getThisTimestepRemainder k) x ≤ s.eps k)) ∧
    (k.sub (s.getThisTimestepRemainder k) (s.getThisTimestepRemainder k) = 0 → k.sub 0 0 = 0 →
      0 ≤ s.eps k → s.willDataBeExchanged k (s.getThisTimestepRemainder k) = true) := by
  have key : ∀ y, s.willDataBeExchanged k y = true ↔
      k.sub (k.sub (s.getThisTimestepRemainder k) y) 0 ≤ s.eps k := by
    intro y
    simp [BaseCouplingScheme.willDataBeExchanged, tarch.la.greater]
  refine ⟨s.eps_eq k, key x, fun h => ?_, fun h1 h2 h3 => ?_⟩
  · rw [key x, h]
  · rw [key, h1, h2]
    exact h3

/-! ## C7: `isCouplingOngoing` -/

/-- C7, refuted as stated, in two ways. In `tenthBoundScheme` the maximum time
is the double `0.1`, the time is 0 and there is one valid digit: `maxTime - time`
exceeds `10^-1`, the number of timesteps is unbounded, and yet
`isCouplingOngoing()` is false, because `eps` is the double `std::pow(10.0, -1)`,
the double `0.1` itself. In `nearSentinelScheme` the maximum time is not the
undefined sentinel and `maxTime - time` does not exceed `10^-1`, and yet
`isCouplingOngoing()` is true, because `tarch::la::equals` takes the maximum
time for the sentinel. -/
theorem C7_counterexample :
    (tenthBoundScheme.isCouplingOngoing exampleConstants = false ∧
      tenthBoundScheme._maxTime - tenthBoundScheme._time
        > (10 : ℚ) ^ (-tenthBoundScheme._validDigits) ∧
      tenthBoundScheme._maxTimesteps = exampleConstants.UNDEFINED_TIMESTEPS) ∧
    (nearSentinelScheme.isCouplingOngoing exampleConstants = true ∧
      nearSentinelScheme._maxTime ≠ exampleConstants.UNDEFINED_TIME ∧
      ¬ (nearSentinelScheme._maxTime - nearSentinelScheme._time
        > (10 : ℚ) ^ (-nearSentinelScheme._validDigits))) := by
  refine ⟨⟨?_, ?_, rfl⟩, ?_, ?_, ?_⟩
  · have heps : tenthBoundScheme.eps exampleConstants = doubleTenth := pow_ten_neg_one
    have hsub : exampleConstants.sub tenthBoundScheme._maxTime tenthBoundScheme._time
        = doubleTenth := sub_tenth_zero
    unfold BaseCouplingScheme.isCouplingOngoing tarch.la.greater
    rw [heps, hsub]
    simp only [tarch.la.equals, tenthBoundScheme, doubleTenth, exampleConstants]
    norm_num [abs_le]
  · norm_num [tenthBoundScheme, doubleTenth, exampleScheme]
  · unfold BaseCouplingScheme.isCouplingOngoing
    simp only [tarch.la.equals, nearSentinelScheme, exampleScheme, exampleConstants]
    norm_num [abs_le]
  · norm_num [nearSentinelScheme, exampleConstants]
  · norm_num [nearSentinelScheme, exampleScheme]

/-- C7, amended: `isCouplingOngoing()` is true if and only if (`maxTime` is
the undefined sentinel up to the tolerance of `tarch::la::equals`, or the
double difference of `maxTime` and `time` exceeds `eps`, the double
`std::pow(10.0, -validDigits)`) and (`maxTimesteps` is the undefined sentinel
or `maxTimesteps > timesteps`). -/
theorem C7_isCouplingOngoing (k : Constants) (s : BaseCouplingScheme) :
    s.eps k = k.pow 10 (-s._validDigits) ∧
    (tarch.la.equals s._maxTime k.UNDEFINED_TIME k.NUMERICAL_ZERO_DIFFERENCE = true ↔
      |k.UNDEFINED_TIME - s._maxTime| ≤ k.NUMERICAL_ZERO_DIFFERENCE) ∧
    (s.isCouplingOngoing k = true ↔
      ((tarch.la.equals s._maxTime k.UNDEFINED_TIME k.NUMERICAL_ZERO_DIFFERENCE = true ∨
          k.sub s._maxTime s._time > s.eps k) ∧
        (s._maxTimesteps = k.UNDEFINED_TIMESTEPS ∨ s._maxTimesteps > s._timesteps))) := by
  refine ⟨s.eps_eq k, by simp [tarch.la.equals], ?_⟩
  simp only [BaseCouplingScheme.isCouplingOngoing, tarch.la.greater, gt_iff_lt,
    Bool.and_eq_true, Bool.or_eq_true, decide_eq_true_eq]
  tauto

/-! ## C5: sub-steps that fill the timestep -/

namespace BaseCouplingScheme

/-- With a timestep length, the remainder is the double difference. -/
theorem getThisTimestepRemainder_of_length (k : Constants) (s : BaseCouplingScheme)
    (h : tarch.la.equals s._timestepLength k.UNDEFINED_TIMESTEP_LENGTH
      k.NUMERICAL_ZERO_DIFFERENCE = false) :
    s.getThisTimestepRemainder k = k.sub s._timestepLength s._computedTimestepPart := by
  unfold getThisTimestepRemainder
  rw [h]
  rfl

/-- A failing `addComputedTime`, put together from its parts. -/
theorem addComputedTime_fails (k : Constants) (s : BaseCouplingScheme) (dt b r : ℚ)
    (hpart : k.add s._computedTimestepPart dt = b)
    (hrem : ({ s with _computedTimestepPart := b } : BaseCouplingScheme).getThisTimestepRemainder k
      = r) (hr : r < -s.eps k) :
    ∃ f, s.addComputedTime k dt = .error f := by
  rw [addComputedTime_eq, hpart, hrem, if_pos hr]
  split_ifs <;> exact ⟨_, rfl⟩

end BaseCouplingScheme

namespace BaseCouplingScheme

theorem sendDataLoop_eq (m : DataMap) (c : Communication) :
    sendDataLoop m c = (m.map Prod.fst, { c with log := c.log ++ sendOps m }) := by
  induction m generalizing c with
  | nil => simp [sendDataLoop, sendOps]
  | cons p m ih =>
    obtain ⟨id, d⟩ := p
    cases hv : d.values with
    | nil => simp [sendDataLoop, sendOps, ih, hv]
    | cons x xs =>
      have hpos : (0 : Int) < (xs.length : Int) + 1 := by positivity
      simp [sendDataLoop, sendOps, ih, hv, Communication.send, hpos]

theorem sendData_eq (s : BaseCouplingScheme) (c : Communication) (hc : c.isConnected = true) :
    s.sendData c = .ok (s._sendData.map Prod.fst, { c with log := c.log ++ sendOps s._sendData }) := by
  simp [sendData, hc, assertion_true, sendDataLoop_eq, bind, Except.bind, pure, Except.pure]

theorem sendData_isConnected (s : BaseCouplingScheme) (c c' : Communication) (ids : List Int)
    (h : s.sendData c = .ok (ids, c')) : c.isConnected = true := by
  cases hc : c.isConnected with
  | true => rfl
  | false => simp [sendData, hc, assertion_false, bind, Except.bind] at h

theorem sentValues_sendOps (m : DataMap) :
    sentValues (sendOps m)
      = (m.filter (fun p => !p.2.values.isEmpty)).map (fun p => Msg.doubles p.2.values) := by
  unfold sendOps
  induction m.filter (fun p => !p.2.values.isEmpty) with
  | nil => rfl
  | cons p l ih => simp [sentValues, ih]

/-- The loop of `receiveData` over the values a peer wrote from a map with
buffers of the same sizes. -/
theorem receiveDataLoop_eq (ms mr : DataMap) (c : Communication) (rest : List Msg)
    (hlen : List.Forall₂ (fun p q => p.2.values.length = q.2.values.length) ms mr)
    (hin : c.inbox = sentValues (sendOps ms) ++ rest) :
    ∃ mr' c', receiveDataLoop mr c = .ok (mr', mr.map Prod.fst, c') ∧
      c'.inbox = rest ∧ c'.isConnected = c.isConnected ∧
      mr'.map (fun q => q.2.values) = ms.map (fun p => p.2.values) ∧
      mr'.map Prod.fst = mr.map Prod.fst := by
  induction hlen generalizing c with
  | nil =>
    refine ⟨[], c, rfl, ?_, rfl, rfl, rfl⟩
    simpa [sendOps, sentValues] using hin
  | @cons p q ms mr hpq _ ih =>
    obtain ⟨i, d⟩ := p
    obtain ⟨j, e⟩ := q
    simp only at hpq
    cases hv : d.values with
    | nil =>
      have he : e.values = [] := by
        rw [hv] at hpq
        exact List.length_eq_zero.mp hpq.symm
      have hin' : c.inbox = sentValues (sendOps ms) ++ rest := by
        simpa [sendOps, hv] using hin
      obtain ⟨mr', c', h, h1, h2, h3, h4⟩ := ih c hin'
      refine ⟨(j, e) :: mr', c', ?_, h1, h2, ?_, ?_⟩
      · simp [receiveDataLoop, receiveValues, he, h, bind, Except.bind, pure, Except.pure]
      · simp [h3, he, hv]
      · simp [h4]
    | cons x xs =>
      have hin' : c.inbox = Msg.doubles (x :: xs) :: (sentValues (sendOps ms) ++ rest) := by
        simpa [sendOps, hv, sentValues] using hin
      have hel : e.values.length = xs.length + 1 := by
        rw [hv] at hpq
        simpa using hpq.symm
      have hpos : (0 : Int) < (xs.length : Int) + 1 := by positivity
      obtain ⟨mr', c', h, h1, h2, h3, h4⟩ :=
        ih (c.pop (.doubles (x :: xs)) (sentValues (sendOps ms) ++ rest) 0) rfl
      refine ⟨(j, { e with values := x :: xs }) :: mr', c', ?_, h1, h2, ?_, ?_⟩
      · simp [receiveDataLoop, receiveValues, hel, hpos, Communication.receiveDoubles, hin', h, bind,
          Except.bind, pure, Except.pure]
      · simp [h3, hv]
      · simp [h4]

end BaseCouplingScheme

/-- C8, refuted as stated: the only send data of `emptyBufferScheme`, with
identifier 7, has an empty buffer; `sendData` writes nothing, and yet the
identifier 7 is in the list it returns. -/
theorem C8_counterexample :
    emptyBufferScheme._sendData.map (fun p => (p.1, p.2.values)) = [(7, [])] ∧
    ∃ ids c', emptyBufferScheme.sendData freshChannel = .ok (ids, c') ∧
      sentValues c'.log = [] ∧ 7 ∈ ids := by
  refine ⟨rfl, _, _, BaseCouplingScheme.sendData_eq emptyBufferScheme freshChannel rfl, ?_, ?_⟩
  · simp [BaseCouplingScheme.sentValues_append, BaseCouplingScheme.sentValues_sendOps,
      emptyBufferScheme, freshChannel, sentValues]
  · simp [emptyBufferScheme]

/-- C8, amended: on a connected channel `sendData` writes the raw contents of
exactly the entries of the send map whose buffer is non-empty, in the iteration
order of the map, and nothing else, and it returns the ordered list of the
identifiers of all entries of the send map, those with an empty buffer
included. -/
theorem C8_sendData (s : BaseCouplingScheme) (c : Communication)
    (hc : c.isConnected = true) :
    ∃ ids c', s.sendData c = .ok (ids, c') ∧
      c'.log = c.log ++ (s._sendData.filter (fun p => !p.2.values.isEmpty)).map
        (fun p => CommOp.send (.doubles p.2.values) 0) ∧
      c'.inbox = c.inbox ∧
      ids = s._sendData.map Prod.fst := by
  exact ⟨_, _, BaseCouplingScheme.sendData_eq s c hc, rfl, rfl, rfl⟩

/-- C8 (amended) at a concrete input: `senderScheme`, whose second entry has an
empty buffer. -/
theorem C8_sendData_witness :
    freshChannel.isConnected = true ∧
    ∃ c', senderScheme.sendData freshChannel = .ok ([1, 2, 5], c') ∧
      c'.log = [CommOp.send (.doubles [1, 2]) 0, CommOp.send (.doubles [3]) 0] := by
  obtain ⟨ids, c', h, hlog, _, hids⟩ := C8_sendData senderScheme freshChannel rfl
  refine ⟨rfl, c', ?_, ?_⟩
  · rw [h, hids]
    rfl
  · rw [hlog]
    simp [senderScheme, freshChannel, exampleScheme]

/-! ## C9: the exchange is symmetric -/

/-- C9: when the entries of the sender's send map and of the receiver's receive
map, taken in iteration order, have pairwise equal buffer lengths, and the
receiver runs `receiveData` over exactly the values the sender's `sendData`
wrote (followed by any further values `rest`), then `receiveData` succeeds,
consumes every one of these values and no more, leaves each receive buffer
equal to the send buffer at the same position, and returns a list of
identifiers of the same length as the list `sendData` returned. -/
theorem C9_exchange_symmetric (sender receiver : BaseCouplingScheme)
    (cS cS' cR : Communication) (sentDataIDs : List Int) (rest : List Msg)
    (hlen : List.Forall₂ (fun p q => p.2.values.length = q.2.values.length)
      sender._sendData receiver._receiveData)
    (hsend : sender.sendData cS = .ok (sentDataIDs, cS'))
    (hR : cR.isConnected = true)
    (hin : cR.inbox = sentValues (cS'.log.drop cS.log.length) ++ rest) :
    ∃ receiver' receivedDataIDs cR',
      receiver.receiveData cR = .ok (receiver', receivedDataIDs, cR') ∧
      cR'.inbox = rest ∧
      receiver'._receiveData.map (fun q => q.2.values)
        = sender._sendData.map (fun p => p.2.values) ∧
      receiver'._receiveData.map Prod.fst = receiver._receiveData.map Prod.fst ∧
      receivedDataIDs.length = sentDataIDs.length := by
  have hS := BaseCouplingScheme.sendData_isConnected sender cS cS' sentDataIDs hsend
  rw [BaseCouplingScheme.sendData_eq sender cS hS] at hsend
  injection hsend with hsend
  injection hsend with hids hc
  subst hids hc
  simp only [List.drop_left] at hin
  obtain ⟨mr', c', h, h1, _, h3, h4⟩ :=
    BaseCouplingScheme.receiveDataLoop_eq sender._sendData receiver._receiveData cR rest hlen hin
  refine ⟨{ receiver with _receiveData := mr' }, receiver._receiveData.map Prod.fst, c', ?_, h1,
    h3, h4, ?_⟩
  · simp [BaseCouplingScheme.receiveData, hR, assertion_true, h, bind, Except.bind, pure,
      Except.pure]
  · simp [hlen.length_eq]

/-- C9 at a concrete input: `receiverScheme` reads what `senderScheme` wrote. -/
theorem C9_exchange_symmetric_witness :
    List.Forall₂ (fun p q => p.2.values.length = q.2.values.length)
      senderScheme._sendData receiverScheme._receiveData ∧
    senderScheme.sendData freshChannel
      = .ok ([1, 2, 5], { freshChannel with log := sendOps senderScheme._sendData }) ∧
    (channelWith [Msg.doubles [1, 2], Msg.doubles [3]]).isConnected = true ∧
    ∃ receiver' receivedDataIDs cR',
      receiverScheme.receiveData (channelWith [Msg.doubles [1, 2], Msg.doubles [3]])
        = .ok (receiver', receivedDataIDs, cR') ∧
      cR'.inbox = [] ∧
      receiver'._receiveData.map (fun q => q.2.values) = [[1, 2], [], [3]] ∧
      receivedDataIDs.length = 3 := by
  have hlen : List.Forall₂ (fun p q => p.2.values.length = q.2.values.length)
      senderScheme._sendData receiverScheme._receiveData := by
    simp [senderScheme, receiverScheme, exampleScheme]
  have hsend : senderScheme.sendData freshChannel
      = .ok ([1, 2, 5], { freshChannel with log := sendOps senderScheme._sendData }) := by
    rw [BaseCouplingScheme.sendData_eq senderScheme freshChannel rfl]
    rfl
  obtain ⟨receiver', ids, cR', h, h1, h2, _, h4⟩ :=
    C9_exchange_symmetric senderScheme receiverScheme freshChannel _
      (channelWith [Msg.doubles [1, 2], Msg.doubles [3]]) [1, 2, 5] [] hlen hsend rfl
      (by simp [freshChannel, BaseCouplingScheme.sentValues_sendOps, senderScheme,
            exampleScheme, channelWith])
  exact ⟨hlen, hsend, rfl, receiver', ids, cR', h, h1, h2, h4⟩

/-! ## Helper lemmas: the wiring steps of `initialize` -/

namespace BaseCouplingScheme

theorem sameRoles_refl (s : BaseCouplingScheme) : SameRoles s s :=
  ⟨rfl, rfl, rfl, rfl, rfl, rfl⟩

theorem sameRoles_trans {s₁ s₂ s₃ : BaseCouplingScheme} (h₁ : SameRoles s₁ s₂)
    (h₂ : SameRoles s₂ s₃) : SameRoles s₁ s₃ :=
  ⟨h₂.doesFirstStep.trans h₁.doesFirstStep,
    h₂.hasToSendInitData.trans h₁.hasToSendInitData,
    h₂.hasToReceiveInitData.trans h₁.hasToReceiveInitData,
    h₂.sendFlags.trans h₁.sendFlags,
    h₂.receiveFlags.trans h₁.receiveFlags,
    h₂.postProcessing.trans h₁.postProcessing⟩

theorem initializeFlags_updateEntry (dataID : Int) (f : CouplingData → CouplingData)
    (hf : ∀ d, (f d).initialize_ = d.initialize_) (m : DataMap) :
    initializeFlags (updateEntry dataID f m) = initializeFlags m := by
  induction m with
  | nil => rfl
  | cons p m ih =>
    obtain ⟨id, d⟩ := p
    unfold updateEntry
    split_ifs with h
    · simp [initializeFlags, hf]
    · simp only [initializeFlags, List.map_cons] at ih ⊢
      rw [ih]

theorem sameRoles_modify (s : BaseCouplingScheme) (ref : DataRef)
    (f : CouplingData → CouplingData) (hf : ∀ d, (f d).initialize_ = d.initialize_) :
    SameRoles s (s.modify ref f) := by
  cases ref with
  | sendData dataID =>
    exact ⟨rfl, rfl, rfl, initializeFlags_updateEntry dataID f hf s._sendData, rfl, rfl⟩
  | receiveData dataID =>
    exact ⟨rfl, rfl, rfl, rfl, initializeFlags_updateEntry dataID f hf s._receiveData, rfl⟩

theorem reserveConvergenceStorage_spec (ms : List ConvergenceMeasure) (s : BaseCouplingScheme) :
    (∀ s', s.reserveConvergenceStorage ms = .ok s' →
      SameRoles s s' ∧ s'._extrapolationOrder = s._extrapolationOrder) ∧
    (∀ f, s.reserveConvergenceStorage ms = .error f → f ≠ Failure.receive) := by
  induction ms generalizing s with
  | nil =>
    constructor
    · intro s' h
      simp only [reserveConvergenceStorage] at h
      injection h with h
      subst h
      exact ⟨sameRoles_refl s, rfl⟩
    · intro f h
      simp [reserveConvergenceStorage] at h
  | cons m ms ih =>
    unfold reserveConvergenceStorage
    cases hd : m.data with
    | none =>
      constructor
      · intro s' h
        simp at h
      · intro f h
        simp only at h
        injection h with h
        subst h
        simp
    | some ref =>
      simp only
      cases hr : s.deref ref with
      | none =>
        simp only
        constructor
        · intro s' h
          simp at h
        · intro f h
          injection h with h
          subst h
          simp
      | some d =>
        simp only
        obtain ⟨h1, h2⟩ := ih (if (d.oldValues.length : Int) < 1
          then s.modify ref (appendZeroColumns 1) else s)
        refine ⟨?_, h2⟩
        intro s' h
        obtain ⟨hs, he⟩ := h1 s' h
        split_ifs at hs he with hcols
        · refine ⟨sameRoles_trans (sameRoles_modify s ref (appendZeroColumns 1) (fun _ => rfl)) hs,
            ?_⟩
          rw [he]
          cases ref <;> rfl
        · exact ⟨hs, he⟩

theorem reserveExtrapolationStorage_spec (order : Int) (m : DataMap) :
    (∀ m', reserveExtrapolationStorage order m = .ok m' →
      initializeFlags m' = initializeFlags m) ∧
    (∀ f, reserveExtrapolationStorage order m = .error f → f ≠ Failure.receive) := by
  induction m with
  | nil =>
    constructor
    · intro m' h
      simp only [reserveExtrapolationStorage] at h
      injection h with h
      subst h
      rfl
    · intro f h
      simp [reserveExtrapolationStorage] at h
  | cons p m ih =>
    obtain ⟨id, d⟩ := p
    obtain ⟨ih1, ih2⟩ := ih
    unfold reserveExtrapolationStorage
    by_cases hcols : (d.oldValues.length : Int) ≤ 1
    · simp only [hcols, decide_True, assertion_true, bind, Except.bind]
      cases hrest : reserveExtrapolationStorage order m with
      | error f =>
        constructor
        · intro m' h
          simp at h
        · intro f' h
          simp only at h
          injection h with h
          subst h
          exact ih2 f hrest
      | ok rest =>
        constructor
        · intro m' h
          simp only [pure, Except.pure] at h
          injection h with h
          subst h
          have := ih1 rest hrest
          simp only [initializeFlags, List.map_cons] at this ⊢
          rw [this]
          rfl
        · intro f h
          simp [pure, Except.pure] at h
    · simp only [hcols, decide_False, assertion_false, bind, Except.bind]
      constructor
      · intro m' h
        simp at h
      · intro f h
        injection h with h
        subst h
        simp

end BaseCouplingScheme

namespace BaseCouplingScheme

theorem resolveMeasures_error (s : BaseCouplingScheme) (ms : List ConvergenceMeasure) :
    ∀ f, s.resolveMeasures ms = .error f → f ≠ Failure.receive := by
  induction ms with
  | nil =>
    intro f h
    simp [resolveMeasures] at h
  | cons m ms ih =>
    intro f h
    simp only [resolveMeasures, resolveMeasure, bind, Except.bind] at h
    split_ifs at h with hsend
    · cases hrest : s.resolveMeasures ms with
      | error f' =>
        rw [hrest] at h
        injection h with h
        subst h
        exact ih f' hrest
      | ok rest =>
        rw [hrest] at h
        simp [pure, Except.pure] at h
    · cases hrecv : (s.getReceiveData m.dataID).isSome with
      | false =>
        rw [hrecv, assertion_false] at h
        injection h with h
        subst h
        simp
      | true =>
        rw [hrecv, assertion_true] at h
        simp only [pure, Except.pure] at h
        cases hrest : s.resolveMeasures ms with
        | error f' =>
          rw [hrest] at h
          injection h with h
          subst h
          exact ih f' hrest
        | ok rest =>
          rw [hrest] at h
          simp at h

theorem setupConvergenceMeasures_spec (s : BaseCouplingScheme) :
    (∀ s', s.setupConvergenceMeasures = .ok s' →
      SameRoles s s' ∧ s'._extrapolationOrder = s._extrapolationOrder) ∧
    (∀ f, s.setupConvergenceMeasures = .error f → f ≠ Failure.receive) := by
  unfold setupConvergenceMeasures
  cases hfs : s._doesFirstStep with
  | true =>
    simp [assertion_false, bind, Except.bind]
  | false =>
    cases hcm : s._convergenceMeasures.isEmpty with
    | true => simp [assertion_true, preciceCheck_false, bind, Except.bind]
    | false =>
      simp only [Bool.not_false, assertion_true, preciceCheck_true, bind, Except.bind]
      cases hres : s.resolveMeasures s._convergenceMeasures with
      | error f =>
        constructor
        · intro s' h
          simp at h
        · intro f' h
          injection h with h
          subst h
          exact resolveMeasures_error s _ f hres
      | ok ms =>
        constructor
        · intro s' h
          simp only [pure, Except.pure] at h
          injection h with h
          subst h
          exact ⟨⟨hfs.symm, rfl, rfl, rfl, rfl, rfl⟩, rfl⟩
        · intro f h
          simp [pure, Except.pure] at h

theorem setupDataMatrices_spec (s : BaseCouplingScheme) (data : DataSide) :
    (∀ s', s.setupDataMatrices data = .ok s' → SameRoles s s') ∧
    (∀ f, s.setupDataMatrices data = .error f → f ≠ Failure.receive) := by
  unfold setupDataMatrices
  obtain ⟨h1, h2⟩ := reserveConvergenceStorage_spec s._convergenceMeasures s
  cases hres : s.reserveConvergenceStorage s._convergenceMeasures with
  | error f =>
    simp only [bind, Except.bind]
    constructor
    · intro s' h
      simp at h
    · intro f' h
      injection h with h
      subst h
      exact h2 f hres
  | ok s1 =>
    obtain ⟨hs1, _⟩ := h1 s1 hres
    simp only [bind, Except.bind]
    split_ifs with hord
    · cases data with
      | sendData =>
        obtain ⟨g1, g2⟩ := reserveExtrapolationStorage_spec s1._extrapolationOrder s1._sendData
        simp only
        cases hm : reserveExtrapolationStorage s1._extrapolationOrder s1._sendData with
        | error f =>
          constructor
          · intro s' h
            simp at h
          · intro f' h
            injection h with h
            subst h
            exact g2 f hm
        | ok m =>
          constructor
          · intro s' h
            simp only [pure, Except.pure] at h
            injection h with h
            subst h
            exact sameRoles_trans hs1 ⟨rfl, rfl, rfl, g1 m hm, rfl, rfl⟩
          · intro f h
            simp [pure, Except.pure] at h
      | receiveData =>
        obtain ⟨g1, g2⟩ := reserveExtrapolationStorage_spec s1._extrapolationOrder s1._receiveData
        simp only
        cases hm : reserveExtrapolationStorage s1._extrapolationOrder s1._receiveData with
        | error f =>
          constructor
          · intro s' h
            simp at h
          · intro f' h
            injection h with h
            subst h
            exact g2 f hm
        | ok m =>
          constructor
          · intro s' h
            simp only [pure, Except.pure] at h
            injection h with h
            subst h
            exact sameRoles_trans hs1 ⟨rfl, rfl, rfl, rfl, g1 m hm, rfl⟩
          · intro f h
            simp [pure, Except.pure] at h
    · constructor
      · intro s' h
        simp only [pure, Except.pure] at h
        injection h with h
        subst h
        exact hs1
      · intro f h
        simp [pure, Except.pure] at h

end BaseCouplingScheme

/-! ## Helper lemmas: sequencing of calls -/

theorem bind_eq_ok {α β : Type} (x : Result α) (g : α → Result β) (b : β) :
    (x >>= g) = .ok b ↔ ∃ a, x = .ok a ∧ g a = .ok b := by
  cases x with
  | error f => simp [bind, Except.bind]
  | ok a => simp [bind, Except.bind]

theorem bind_eq_error {α β : Type} (x : Result α) (g : α → Result β) (f : Failure) :
    (x >>= g) = .error f ↔ x = .error f ∨ ∃ a, x = .ok a ∧ g a = .error f := by
  cases x with
  | error f' => simp [bind, Except.bind]
  | ok a => simp [bind, Except.bind]

theorem preciceCheck_eq_ok (condition : Bool) (method message : String) :
    preciceCheck condition method message = .ok () ↔ condition = true := by
  cases condition <;> simp [preciceCheck]

theorem preciceCheck_eq_error (condition : Bool) (method message : String) (f : Failure) :
    preciceCheck condition method message = .error f ↔
      condition = false ∧ f = .error method message := by
  cases condition <;> simp [preciceCheck, eq_comm]

theorem assertion_eq_ok (condition : Bool) (method : String) :
    assertion condition method = .ok () ↔ condition = true := by
  cases condition <;> simp [assertion]

theorem assertion_eq_error (condition : Bool) (method : String) (f : Failure) :
    assertion condition method = .error f ↔ condition = false ∧ f = .assertion method := by
  cases condition <;> simp [assertion, eq_comm]

namespace BaseCouplingScheme

theorem initializeStorage_spec (s : BaseCouplingScheme) :
    (∀ s', s.initializeStorage = .ok s' → SameRoles s s') ∧
    (∀ f, s.initializeStorage = .error f → f ≠ Failure.receive) := by
  unfold initializeStorage
  split_ifs with hcm
  · constructor
    · intro s' h
      obtain ⟨s1, h1, h2⟩ := (bind_eq_ok _ _ _).mp h
      exact sameRoles_trans ((setupConvergenceMeasures_spec s).1 s1 h1).1
        ((setupDataMatrices_spec s1 .sendData).1 s' h2)
    · intro f h
      rcases (bind_eq_error _ _ _).mp h with h1 | ⟨s1, _, h2⟩
      · exact (setupConvergenceMeasures_spec s).2 f h1
      · exact (setupDataMatrices_spec s1 .sendData).2 f h2
  · constructor
    · intro s' h
      injection h with h
      subst h
      exact sameRoles_refl s
    · intro f h
      simp [pure, Except.pure] at h

theorem initializePostProcessing_spec (s : BaseCouplingScheme) :
    (∀ s', s.initializePostProcessing = .ok s' →
      s'._doesFirstStep = s._doesFirstStep ∧
      s'._hasToSendInitData = s._hasToSendInitData ∧
      s'._hasToReceiveInitData = s._hasToReceiveInitData ∧
      s'._receiveData = s._receiveData ∧
      s'._convergenceMeasures = s._convergenceMeasures ∧
      (s._postProcessing = none → s' = s)) ∧
    (∀ f, s.initializePostProcessing = .error f → f ≠ Failure.receive) := by
  unfold initializePostProcessing
  cases hpp : s._postProcessing with
  | none =>
    constructor
    · intro s' h
      simp only [pure, Except.pure] at h
      injection h with h
      subst h
      exact ⟨rfl, rfl, rfl, rfl, rfl, fun _ => rfl⟩
    · intro f h
      simp [pure, Except.pure] at h
  | some pp =>
    simp only
    constructor
    · intro s' h
      obtain ⟨_, _, h2⟩ := (bind_eq_ok _ _ _).mp h
      cases hm : pp.initialize_ s._sendData with
      | none => simp [hm, preciceError] at h2
      | some m =>
        simp only [hm, pure, Except.pure] at h2
        injection h2 with h2
        subst h2
        exact ⟨rfl, rfl, rfl, rfl, rfl, fun h => by simp at h⟩
    · intro f h
      rcases (bind_eq_error _ _ _).mp h with h1 | ⟨_, _, h2⟩
      · rw [(preciceCheck_eq_error _ _ _ _).mp h1 |>.2]
        simp
      · cases hm : pp.initialize_ s._sendData with
        | none =>
          simp only [hm, preciceError] at h2
          injection h2 with h2
          subst h2
          simp
        | some m => simp [hm, pure, Except.pure] at h2

theorem checkPostProcessing_spec (s : BaseCouplingScheme) :
    (∀ s', s.checkPostProcessing = .ok s' → s' = s) ∧
    (∀ f, s.checkPostProcessing = .error f → f ≠ Failure.receive) := by
  unfold checkPostProcessing
  cases hpp : s._postProcessing with
  | none => simp [pure, Except.pure, eq_comm]
  | some pp =>
    simp only
    cases hids : pp.getDataIDs with
    | nil => simp
    | cons dataID rest =>
      simp only
      constructor
      · intro s' h
        obtain ⟨_, _, h2⟩ := (bind_eq_ok _ _ _).mp h
        simp only [pure, Except.pure] at h2
        injection h2 with h2
        exact h2.symm
      · intro f h
        rcases (bind_eq_error _ _ _).mp h with h1 | ⟨_, _, h2⟩
        · rw [(preciceCheck_eq_error _ _ _ _).mp h1 |>.2]
          simp
        · simp [pure, Except.pure] at h2

/-- What the first block of `initialize` leaves as it was. -/
theorem initializeSetup_spec (s : BaseCouplingScheme) :
    (∀ s', s.initializeSetup = .ok s' →
      s'._doesFirstStep = s._doesFirstStep ∧
      s'._hasToSendInitData = s._hasToSendInitData ∧
      s'._hasToReceiveInitData = s._hasToReceiveInitData ∧
      initializeFlags s'._receiveData = initializeFlags s._receiveData ∧
      (s._doesFirstStep = true → s'._sendData = s._sendData) ∧
      (s._postProcessing = none →
        initializeFlags s'._sendData = initializeFlags s._sendData)) ∧
    (∀ f, s.initializeSetup = .error f → f ≠ Failure.receive) := by
  unfold initializeSetup
  cases hfs : s._doesFirstStep with
  | true =>
    simp only [Bool.not_true, Bool.false_eq_true, if_false]
    obtain ⟨h1, h2⟩ := checkPostProcessing_spec s
    refine ⟨?_, h2⟩
    intro s' h
    have := h1 s' h
    subst this
    exact ⟨hfs, rfl, rfl, rfl, fun _ => rfl, fun _ => rfl⟩
  | false =>
    simp only [Bool.not_false, if_true]
    constructor
    · intro s' h
      obtain ⟨s1, h1, h2⟩ := (bind_eq_ok _ _ _).mp h
      have r1 := (initializeStorage_spec s).1 s1 h1
      obtain ⟨a, b, c, d, _, e⟩ := (initializePostProcessing_spec s1).1 s' h2
      refine ⟨?_, b.trans r1.hasToSendInitData, c.trans r1.hasToReceiveInitData, ?_, ?_, ?_⟩
      · rw [a, r1.doesFirstStep, hfs]
      · rw [d, r1.receiveFlags]
      · intro h
        simp at h
      · intro hpp
        rw [e (r1.postProcessing.trans hpp), r1.sendFlags]
    · intro f h
      rcases (bind_eq_error _ _ _).mp h with h1 | ⟨s1, _, h2⟩
      · exact (initializeStorage_spec s).2 f h1
      · exact (initializePostProcessing_spec s1).2 f h2

end BaseCouplingScheme

/-! ## Helper lemmas: the scans of `initialize` and the receive package -/

namespace BaseCouplingScheme

theorem scanSendData_spec (s : BaseCouplingScheme) (m : DataMap) :
    (∀ s', s.scanSendData m = .ok s' →
      (true ∈ initializeFlags m → s' = { s with _hasToSendInitData := true }) ∧
      (true ∉ initializeFlags m → s' = s)) ∧
    (∀ f, s.scanSendData m = .error f → f ≠ Failure.receive) ∧
    (s._doesFirstStep = true → true ∈ initializeFlags m → ∃ f, s.scanSendData m = .error f) := by
  induction m with
  | nil =>
    refine ⟨?_, ?_, ?_⟩
    · intro s' h
      simp only [scanSendData] at h
      injection h with h
      exact ⟨fun hm => by simp [initializeFlags] at hm, fun _ => h.symm⟩
    · intro f h
      simp [scanSendData] at h
    · intro _ hm
      simp [initializeFlags] at hm
  | cons p m ih =>
    obtain ⟨id, d⟩ := p
    obtain ⟨ih1, ih2, ih3⟩ := ih
    unfold scanSendData
    cases hd : d.initialize_ with
    | false =>
      simp only [Bool.false_eq_true, if_false]
      have hmem : true ∈ initializeFlags ((id, d) :: m) ↔ true ∈ initializeFlags m := by
        simp [initializeFlags, hd]
      rw [hmem]
      exact ⟨ih1, ih2, ih3⟩
    | true =>
      simp only [if_true]
      have hmem : true ∈ initializeFlags ((id, d) :: m) := by
        simp [initializeFlags, hd]
      refine ⟨?_, ?_, ?_⟩
      · intro s' h
        obtain ⟨_, _, h2⟩ := (bind_eq_ok _ _ _).mp h
        simp only [pure, Except.pure] at h2
        injection h2 with h2
        exact ⟨fun _ => h2.symm, fun hn => absurd hmem hn⟩
      · intro f h
        rcases (bind_eq_error _ _ _).mp h with h1 | ⟨_, _, h2⟩
        · rw [(preciceCheck_eq_error _ _ _ _).mp h1 |>.2]
          simp
        · simp [pure, Except.pure] at h2
      · intro hfs _
        simp [hfs, preciceCheck_false, bind, Except.bind]

theorem scanReceiveData_spec (m : DataMap) (s : BaseCouplingScheme) :
    (∀ s', s.scanReceiveData m = .ok s' →
      (true ∈ initializeFlags m → s' = { s with _hasToReceiveInitData := true }) ∧
      (true ∉ initializeFlags m → s' = s)) ∧
    (∀ f, s.scanReceiveData m = .error f → f ≠ Failure.receive) ∧
    (s._doesFirstStep = false → true ∈ initializeFlags m →
      ∃ f, s.scanReceiveData m = .error f) := by
  induction m generalizing s with
  | nil =>
    refine ⟨?_, ?_, ?_⟩
    · intro s' h
      simp only [scanReceiveData] at h
      injection h with h
      exact ⟨fun hm => by simp [initializeFlags] at hm, fun _ => h.symm⟩
    · intro f h
      simp [scanReceiveData] at h
    · intro _ hm
      simp [initializeFlags] at hm
  | cons p m ih =>
    obtain ⟨id, d⟩ := p
    unfold scanReceiveData
    cases hd : d.initialize_ with
    | false =>
      simp only [Bool.false_eq_true, if_false]
      have hmem : true ∈ initializeFlags ((id, d) :: m) ↔ true ∈ initializeFlags m := by
        simp [initializeFlags, hd]
      rw [hmem]
      exact ih s
    | true =>
      simp only [if_true]
      have hmem : true ∈ initializeFlags ((id, d) :: m) := by
        simp [initializeFlags, hd]
      obtain ⟨ih1, ih2, _⟩ := ih { s with _hasToReceiveInitData := true }
      refine ⟨?_, ?_, ?_⟩
      · intro s' h
        obtain ⟨_, _, h2⟩ := (bind_eq_ok _ _ _).mp h
        obtain ⟨g1, g2⟩ := ih1 s' h2
        refine ⟨fun _ => ?_, fun hn => absurd hmem hn⟩
        by_cases hm : true ∈ initializeFlags m
        · exact g1 hm
        · exact g2 hm
      · intro f h
        rcases (bind_eq_error _ _ _).mp h with h1 | ⟨_, _, h2⟩
        · rw [(preciceCheck_eq_error _ _ _ _).mp h1 |>.2]
          simp
        · exact ih2 f h2
      · intro hfs _
        simp [hfs, preciceCheck_false, bind, Except.bind]

theorem receiveDataLoop_flags (m : DataMap) (c : Communication) :
    ∀ m' ids c', receiveDataLoop m c = .ok (m', ids, c') →
      initializeFlags m' = initializeFlags m := by
  induction m generalizing c with
  | nil =>
    intro m' ids c' h
    simp only [receiveDataLoop] at h
    injection h with h
    injection h with h _
    subst h
    rfl
  | cons p m ih =>
    obtain ⟨id, d⟩ := p
    intro m' ids c' h
    unfold receiveDataLoop at h
    obtain ⟨⟨d1, c1⟩, h1, h2⟩ := (bind_eq_ok _ _ _).mp h
    obtain ⟨⟨rest, ids1, c2⟩, h3, h4⟩ := (bind_eq_ok _ _ _).mp h2
    simp only [pure, Except.pure] at h4
    injection h4 with h4
    injection h4 with hm _
    subst hm
    have hd : d1.initialize_ = d.initialize_ := by
      unfold receiveValues at h1
      dsimp only at h1
      split_ifs at h1
      · obtain ⟨⟨xs, c3⟩, _, h6⟩ := (bind_eq_ok _ _ _).mp h1
        simp only [pure, Except.pure] at h6
        injection h6 with h6
        injection h6 with h6 _
        subst h6
        rfl
      · simp only [pure, Except.pure] at h1
        injection h1 with h1
        injection h1 with h1 _
        subst h1
        rfl
    have := ih c1 rest ids1 c2 h3
    simp only [initializeFlags, List.map_cons] at this ⊢
    rw [this, hd]

theorem receiveData_spec (s : BaseCouplingScheme) (c : Communication) :
    ∀ s' ids c', s.receiveData c = .ok (s', ids, c') →
      SameRoles s s' ∧ s'._sendData = s._sendData ∧ s'._actions = s._actions := by
  intro s' ids c' h
  unfold receiveData at h
  obtain ⟨_, _, h2⟩ := (bind_eq_ok _ _ _).mp h
  obtain ⟨⟨data, ids1, c1⟩, h3, h4⟩ := (bind_eq_ok _ _ _).mp h2
  simp only [pure, Except.pure] at h4
  injection h4 with h4
  injection h4 with h4 _
  subst h4
  exact ⟨⟨rfl, rfl, rfl, rfl, receiveDataLoop_flags _ _ _ _ _ h3, rfl⟩, rfl, rfl⟩

theorem receivePackage_spec (k : Constants) (s : BaseCouplingScheme) (c : Communication) :
    ∀ s' c', s.receivePackage k c = .ok (s', c') →
      SameRoles s s' ∧ s'._sendData = s._sendData ∧ s'._actions = s._actions := by
  intro s' c' h
  unfold receivePackage at h
  obtain ⟨⟨s1, c1⟩, h1, h2⟩ := (bind_eq_ok _ _ _).mp h
  obtain ⟨⟨s2, ids, c2⟩, h3, h4⟩ := (bind_eq_ok _ _ _).mp h2
  simp only [pure, Except.pure] at h4
  injection h4 with h4
  injection h4 with h4 _
  subst h4
  obtain ⟨r2, d2, a2⟩ := receiveData_spec s1 c1 s2 ids c2 h3
  have r1 : SameRoles s s1 ∧ s1._sendData = s._sendData ∧ s1._actions = s._actions := by
    unfold receiveTimestepLength at h1
    split_ifs at h1
    · obtain ⟨⟨dt, c3⟩, _, h6⟩ := (bind_eq_ok _ _ _).mp h1
      obtain ⟨_, _, h8⟩ := (bind_eq_ok _ _ _).mp h6
      simp only [pure, Except.pure] at h8
      injection h8 with h8
      injection h8 with h8 _
      subst h8
      exact ⟨⟨rfl, rfl, rfl, rfl, rfl, rfl⟩, rfl, rfl⟩
    · simp only [pure, Except.pure] at h1
      injection h1 with h1
      injection h1 with h1 _
      subst h1
      exact ⟨sameRoles_refl s, rfl, rfl⟩
  exact ⟨sameRoles_trans r1.1 (sameRoles_trans r2 ⟨rfl, rfl, rfl, rfl, rfl, rfl⟩),
    d2.trans r1.2.1, a2.trans r1.2.2⟩

end BaseCouplingScheme

/-! ## Helper lemmas: the steps of `initialize` -/

theorem BaseCouplingScheme.initialize_ok (k : Constants) (s : BaseCouplingScheme) (startTime : ℚ)
    (startTimestep : Int) (c : Communication) (s' : BaseCouplingScheme) (c' : Communication)
    (h : BaseCouplingScheme.initialize k s startTime startTimestep c = .ok (s', c')) :
    ∃ s1 s2 s3 s4, BaseCouplingScheme.InitializeScans k s startTime startTimestep s1 s2 s3 ∧
      s3.firstReceive k c = .ok (s4, c') ∧
      s' = { (if s4._hasToSendInitData
              then s4.requireAction k.actionWriteInitialData else s4) with
             _isInitialized := true } := by
  unfold BaseCouplingScheme.initialize at h
  obtain ⟨_, a1, h⟩ := (bind_eq_ok _ _ _).mp h
  obtain ⟨_, _, h⟩ := (bind_eq_ok _ _ _).mp h
  obtain ⟨_, _, h⟩ := (bind_eq_ok _ _ _).mp h
  obtain ⟨_, _, h⟩ := (bind_eq_ok _ _ _).mp h
  obtain ⟨_, _, h⟩ := (bind_eq_ok _ _ _).mp h
  obtain ⟨s1, h1, h⟩ := (bind_eq_ok _ _ _).mp h
  obtain ⟨s2, h2, h⟩ := (bind_eq_ok _ _ _).mp h
  obtain ⟨s3, h3, h⟩ := (bind_eq_ok _ _ _).mp h
  obtain ⟨⟨s4, c4⟩, h4, h⟩ := (bind_eq_ok _ _ _).mp h
  simp only [pure, Except.pure] at h
  injection h with h
  injection h with hs hc
  subst hc
  have hinit : s._isInitialized = false := by
    simpa using (assertion_eq_ok _ _).mp a1
  exact ⟨s1, s2, s3, s4, ⟨hinit, h1, h2, h3⟩, h4, hs.symm⟩

theorem BaseCouplingScheme.initialize_error (k : Constants) (s : BaseCouplingScheme)
    (startTime : ℚ) (startTimestep : Int) (c : Communication) (f : Failure)
    (h : BaseCouplingScheme.initialize k s startTime startTimestep c = .error f) :
    f ≠ Failure.receive ∨
      ∃ s1 s2 s3, BaseCouplingScheme.InitializeScans k s startTime startTimestep s1 s2 s3 := by
  unfold BaseCouplingScheme.initialize at h
  rcases (bind_eq_error _ _ _).mp h with h | ⟨_, a1, h⟩
  · rw [(assertion_eq_error _ _ _).mp h |>.2]; simp
  rcases (bind_eq_error _ _ _).mp h with h | ⟨_, _, h⟩
  · rw [(assertion_eq_error _ _ _).mp h |>.2]; simp
  rcases (bind_eq_error _ _ _).mp h with h | ⟨_, _, h⟩
  · rw [(assertion_eq_error _ _ _).mp h |>.2]; simp
  rcases (bind_eq_error _ _ _).mp h with h | ⟨_, _, h⟩
  · rw [(assertion_eq_error _ _ _).mp h |>.2]; simp
  rcases (bind_eq_error _ _ _).mp h with h | ⟨_, _, h⟩
  · rw [(preciceCheck_eq_error _ _ _ _).mp h |>.2]; simp
  rcases (bind_eq_error _ _ _).mp h with h | ⟨s1, h1, h⟩
  · exact Or.inl ((BaseCouplingScheme.initializeSetup_spec _).2 f h)
  rcases (bind_eq_error _ _ _).mp h with h | ⟨s2, h2, h⟩
  · exact Or.inl ((BaseCouplingScheme.scanSendData_spec _ _).2.1 f h)
  rcases (bind_eq_error _ _ _).mp h with h | ⟨s3, h3, h⟩
  · exact Or.inl ((BaseCouplingScheme.scanReceiveData_spec _ _).2.1 f h)
  have hinit : s._isInitialized = false := by
    simpa using (assertion_eq_ok _ _).mp a1
  exact Or.inr ⟨s1, s2, s3, hinit, h1, h2, h3⟩

theorem mem_initializeFlags (m : DataMap) :
    true ∈ initializeFlags m ↔ ∃ p ∈ m, p.2.initialize_ = true := by
  simp [initializeFlags]

/-- What is known once the scans of `initialize` have succeeded. -/
theorem BaseCouplingScheme.initializeScans_spec (k : Constants) (s : BaseCouplingScheme)
    (startTime : ℚ) (startTimestep : Int) (s1 s2 s3 : BaseCouplingScheme)
    (h : BaseCouplingScheme.InitializeScans k s startTime startTimestep s1 s2 s3) :
    s3._doesFirstStep = s._doesFirstStep ∧
    (s3._hasToSendInitData = true ↔
      s._hasToSendInitData = true ∨ true ∈ initializeFlags s3._sendData) ∧
    (s3._hasToReceiveInitData = true ↔
      s._hasToReceiveInitData = true ∨ true ∈ initializeFlags s3._receiveData) ∧
    initializeFlags s3._receiveData = initializeFlags s._receiveData ∧
    (s._doesFirstStep = true → s3._sendData = s._sendData) ∧
    (s._postProcessing = none → initializeFlags s3._sendData = initializeFlags s._sendData) ∧
    (true ∈ initializeFlags s3._sendData → s._doesFirstStep = false) ∧
    (true ∈ initializeFlags s3._receiveData → s._doesFirstStep = true) := by
  obtain ⟨_, h1, h2, h3⟩ := h
  obtain ⟨a1, a2, a3, a4, a5, a6⟩ := (BaseCouplingScheme.initializeSetup_spec _).1 s1 h1
  simp only at a1 a2 a3 a4 a5 a6
  -- the scheme after the checkpoint action has been required
  generalize hs1' : (if !s1._convergenceMeasures.isEmpty
      then s1.requireAction k.actionWriteIterationCheckpoint else s1) = s1' at h2
  have b : s1'._doesFirstStep = s1._doesFirstStep ∧
      s1'._hasToSendInitData = s1._hasToSendInitData ∧
      s1'._hasToReceiveInitData = s1._hasToReceiveInitData ∧
      s1'._sendData = s1._sendData ∧ s1'._receiveData = s1._receiveData := by
    rw [← hs1']
    split_ifs <;> exact ⟨rfl, rfl, rfl, rfl, rfl⟩
  obtain ⟨b1, b2, b3, b4, b5⟩ := b
  have hsend_spec := BaseCouplingScheme.scanSendData_spec s1' s1'._sendData
  obtain ⟨c1, c2⟩ := hsend_spec.1 s2 h2
  have c3 := hsend_spec.2.2
  have hrecv_spec := BaseCouplingScheme.scanReceiveData_spec s2._receiveData s2
  obtain ⟨d1, d2⟩ := hrecv_spec.1 s3 h3
  have d3 := hrecv_spec.2.2
  -- the fields of `s2` and `s3`
  have e2 : s2._doesFirstStep = s1'._doesFirstStep ∧ s2._sendData = s1'._sendData ∧
      s2._receiveData = s1'._receiveData ∧
      s2._hasToReceiveInitData = s1'._hasToReceiveInitData ∧
      (s2._hasToSendInitData = true ↔
        s1'._hasToSendInitData = true ∨ true ∈ initializeFlags s1'._sendData) := by
    by_cases hm : true ∈ initializeFlags s1'._sendData
    · rw [c1 hm]
      simp [hm]
    · rw [c2 hm]
      simp [hm]
  obtain ⟨e21, e22, e23, e24, e25⟩ := e2
  have e3 : s3._doesFirstStep = s2._doesFirstStep ∧ s3._sendData = s2._sendData ∧
      s3._receiveData = s2._receiveData ∧
      s3._hasToSendInitData = s2._hasToSendInitData ∧
      (s3._hasToReceiveInitData = true ↔
        s2._hasToReceiveInitData = true ∨ true ∈ initializeFlags s2._receiveData) := by
    by_cases hm : true ∈ initializeFlags s2._receiveData
    · rw [d1 hm]
      simp [hm]
    · rw [d2 hm]
      simp [hm]
  obtain ⟨e31, e32, e33, e34, e35⟩ := e3
  have hfs : s3._doesFirstStep = s._doesFirstStep := by rw [e31, e21, b1, a1]
  have hsend : s3._sendData = s1._sendData := by rw [e32, e22, b4]
  have hrecv : s3._receiveData = s1._receiveData := by rw [e33, e23, b5]
  refine ⟨hfs, ?_, ?_, ?_, ?_, ?_, ?_, ?_⟩
  · rw [e34, e25, b2, a2, hsend, b4]
  · rw [e35, e24, b3, a3, hrecv, e23, b5]
  · rw [hrecv, a4]
  · intro h
    rw [hsend, a5 h]
  · intro h
    rw [hsend, a6 h]
  · intro hm
    rw [hsend, ← b4] at hm
    cases hd : s._doesFirstStep with
    | false => rfl
    | true =>
      obtain ⟨f, hf⟩ := c3 (by rw [b1, a1, hd]) hm
      rw [hf] at h2
      simp at h2
  · intro hm
    rw [hrecv, ← b5, ← e23] at hm
    cases hd : s._doesFirstStep with
    | true => rfl
    | false =>
      obtain ⟨f, hf⟩ := d3 (by rw [e21, b1, a1, hd]) hm
      rw [hf] at h3
      simp at h3

theorem BaseCouplingScheme.firstReceive_spec (k : Constants) (s : BaseCouplingScheme)
    (c : Communication) (s' : BaseCouplingScheme) (c' : Communication)
    (h : s.firstReceive k c = .ok (s', c')) :
    SameRoles s s' ∧ s'._sendData = s._sendData ∧ s'._actions = s._actions := by
  unfold BaseCouplingScheme.firstReceive at h
  split_ifs at h
  · exact BaseCouplingScheme.receivePackage_spec k s c s' c' h
  · simp only [pure, Except.pure] at h
    injection h with h
    injection h with h _
    subst h
    exact ⟨sameRoles_refl s, rfl, rfl⟩

/-! ## C10: the roles of initial data -/

/-- C10: `initialize` enforces the initial-data roles. It fails if the local
participant does the first step and some send-map entry is flagged
`initialize`, and it fails if the local participant does not do the first step
and some receive-map entry is flagged `initialize` (in both cases by a check,
before anything is read from the channel). Whenever it succeeds on a scheme
whose two flags are unset, as the constructor leaves them, `hasToSendInitData`
is true iff some send-map entry is flagged `initialize` and
`hasToReceiveInitData` is true iff some receive-map entry is flagged
`initialize`; the flags of the receive map are those before the call, and so
are those of the send map when no post-processing is attached. -/
theorem C10_initialize_roles (k : Constants) (s : BaseCouplingScheme) (startTime : ℚ)
    (startTimestep : Int) (c : Communication) :
    (s._doesFirstStep = true → (∃ p ∈ s._sendData, p.2.initialize_ = true) →
      ∃ f, BaseCouplingScheme.initialize k s startTime startTimestep c = .error f ∧
        f ≠ Failure.receive) ∧
    (s._doesFirstStep = false → (∃ p ∈ s._receiveData, p.2.initialize_ = true) →
      ∃ f, BaseCouplingScheme.initialize k s startTime startTimestep c = .error f ∧
        f ≠ Failure.receive) ∧
    (∀ s' c', s._hasToSendInitData = false → s._hasToReceiveInitData = false →
      BaseCouplingScheme.initialize k s startTime startTimestep c = .ok (s', c') →
      (s'._hasToSendInitData = true ↔ ∃ p ∈ s'._sendData, p.2.initialize_ = true) ∧
      (s'._hasToReceiveInitData = true ↔ ∃ p ∈ s'._receiveData, p.2.initialize_ = true) ∧
      initializeFlags s'._receiveData = initializeFlags s._receiveData ∧
      (s._postProcessing = none → initializeFlags s'._sendData = initializeFlags s._sendData)) := by
  -- a run that gets past the scans contradicts a flag on the wrong side
  have past : ∀ s1 s2 s3, BaseCouplingScheme.InitializeScans k s startTime startTimestep s1 s2 s3 →
      ¬ (s._doesFirstStep = true ∧ ∃ p ∈ s._sendData, p.2.initialize_ = true) ∧
      ¬ (s._doesFirstStep = false ∧ ∃ p ∈ s._receiveData, p.2.initialize_ = true) := by
    intro s1 s2 s3 hscan
    obtain ⟨_, _, _, g4, g5, _, g7, g8⟩ :=
      BaseCouplingScheme.initializeScans_spec k s startTime startTimestep s1 s2 s3 hscan
    constructor
    · rintro ⟨hfs, hflag⟩
      rw [← mem_initializeFlags, ← g5 hfs] at hflag
      rw [g7 hflag] at hfs
      exact Bool.false_ne_true hfs
    · rintro ⟨hfs, hflag⟩
      rw [← mem_initializeFlags, ← g4] at hflag
      rw [g8 hflag] at hfs
      exact Bool.false_ne_true hfs.symm
  have fails : (s._doesFirstStep = true ∧ ∃ p ∈ s._sendData, p.2.initialize_ = true) ∨
      (s._doesFirstStep = false ∧ ∃ p ∈ s._receiveData, p.2.initialize_ = true) →
      ∃ f, BaseCouplingScheme.initialize k s startTime startTimestep c = .error f ∧
        f ≠ Failure.receive := by
    intro hbad
    cases hres : BaseCouplingScheme.initialize k s startTime startTimestep c with
    | error f =>
      refine ⟨f, rfl, ?_⟩
      rcases BaseCouplingScheme.initialize_error k s startTime startTimestep c f hres with
        hf | ⟨s1, s2, s3, hscan⟩
      · exact hf
      · obtain ⟨n1, n2⟩ := past s1 s2 s3 hscan
        rcases hbad with hbad | hbad
        · exact absurd hbad n1
        · exact absurd hbad n2
    | ok r =>
      obtain ⟨s', c'⟩ := r
      obtain ⟨s1, s2, s3, _, hscan, _⟩ :=
        BaseCouplingScheme.initialize_ok k s startTime startTimestep c s' c' hres
      obtain ⟨n1, n2⟩ := past s1 s2 s3 hscan
      rcases hbad with hbad | hbad
      · exact absurd hbad n1
      · exact absurd hbad n2
  refine ⟨fun h1 h2 => fails (Or.inl ⟨h1, h2⟩), fun h1 h2 => fails (Or.inr ⟨h1, h2⟩), ?_⟩
  intro s' c' hsend hrecv hres
  obtain ⟨s1, s2, s3, s4, hscan, h4, hs'⟩ :=
    BaseCouplingScheme.initialize_ok k s startTime startTimestep c s' c' hres
  obtain ⟨_, g2, g3, g4, _, g6, _, _⟩ :=
    BaseCouplingScheme.initializeScans_spec k s startTime startTimestep s1 s2 s3 hscan
  obtain ⟨r, hsd, _⟩ := BaseCouplingScheme.firstReceive_spec k s3 c s4 c' h4
  have e : s'._hasToSendInitData = s4._hasToSendInitData ∧
      s'._hasToReceiveInitData = s4._hasToReceiveInitData ∧
      s'._sendData = s4._sendData ∧ s'._receiveData = s4._receiveData := by
    rw [hs']
    split_ifs <;> exact ⟨rfl, rfl, rfl, rfl⟩
  obtain ⟨e1, e2, e3, e4⟩ := e
  refine ⟨?_, ?_, ?_, ?_⟩
  · rw [← mem_initializeFlags, e1, e3, hsd, r.hasToSendInitData, g2, hsend]
    simp
  · rw [← mem_initializeFlags, e2, e4, r.receiveFlags, r.hasToReceiveInitData, g3, hrecv]
    simp
  · rw [e4, r.receiveFlags, g4]
  · intro hpp
    rw [e3, hsd, g6 hpp]

/-- C10 at concrete inputs: with a receive data flagged `initialize`,
`initialize` fails for the second participant and succeeds for the first,
setting `hasToReceiveInitData`. -/
theorem C10_initialize_roles_witness :
    (∃ f, BaseCouplingScheme.initialize exampleConstants secondParticipantScheme 0 0 freshChannel
        = .error f ∧ f ≠ Failure.receive) ∧
    (∃ s', BaseCouplingScheme.initialize exampleConstants firstParticipantScheme 0 0 freshChannel
        = .ok (s', freshChannel) ∧
      s'._hasToReceiveInitData = true ∧ s'._hasToSendInitData = false) := by
  constructor
  · exact (C10_initialize_roles exampleConstants secondParticipantScheme 0 0 freshChannel).2.1
      rfl ⟨_, List.mem_singleton.mpr rfl, rfl⟩
  · have hrun : BaseCouplingScheme.initialize exampleConstants firstParticipantScheme 0 0
        freshChannel = .ok ({ firstParticipantScheme with
          _hasToReceiveInitData := true, _isInitialized := true }, freshChannel) := by
      have hge : tarch.la.greaterEquals 0 0 exampleConstants.NUMERICAL_ZERO_DIFFERENCE = true := by
        norm_num [tarch.la.greaterEquals, exampleConstants]
      simp only [hge, BaseCouplingScheme.initialize, assertion_true, bind, Except.bind]
      rfl
    obtain ⟨h1, h2, _⟩ :=
      (C10_initialize_roles exampleConstants firstParticipantScheme 0 0 freshChannel).2.2
        _ _ rfl rfl hrun
    refine ⟨_, hrun, h2.mpr ⟨_, List.mem_singleton.mpr rfl, rfl⟩, ?_⟩
    rfl

/-! ## C20: the action registry -/

theorem isActionRequired_iff (s : BaseCouplingScheme) (t : String) :
    s.isActionRequired t = true ↔ t ∈ s._actions := by
  simp [BaseCouplingScheme.isActionRequired, setCount, List.count_pos_iff]

theorem mem_setErase (a u : String) (l : List String) :
    u ∈ setErase a l ↔ u ∈ l ∧ u ≠ a := by
  simp [setErase]

theorem setErase_of_not_mem (a : String) (l : List String) (h : a ∉ l) :
    setErase a l = l := by
  unfold setErase
  rw [List.filter_eq_self]
  intro b hb
  simp only [ne_eq, decide_eq_true_eq]
  rintro rfl
  exact h hb

/-- Inserting a string that a strictly ascending list holds leaves the list as
it is. -/
theorem setInsert_of_mem (a : String) (l : List String) (hs : List.Sorted (· < ·) l)
    (h : a ∈ l) : setInsert a l = l := by
  induction l with
  | nil => simp at h
  | cons b bs ih =>
    obtain ⟨hb, hbs⟩ := List.sorted_cons.mp hs
    unfold setInsert
    split_ifs with h1 h2
    · rcases List.mem_cons.mp h with rfl | hmem
      · exact absurd h1 (lt_irrefl _)
      · exact absurd h1 (not_lt.mpr (hb a hmem).le)
    · rcases List.mem_cons.mp h with rfl | hmem
      · exact absurd h2 (lt_irrefl _)
      · rw [ih hbs hmem]
    · rfl

/-- C20: the action registry has set semantics. For all tokens `t` and `u`:
after `requireAction(t)`, `isActionRequired(t)` is true; after
`performedAction(t)`, `isActionRequired(t)` is false; neither call changes
`isActionRequired(u)` for `u != t`; requiring a token that is required already
leaves the set as it is (the same tokens are required, and the ascending list
that holds a `std::set` is the same list); acknowledging a token that is not
required leaves the set as it is; and `checkCompletenessRequiredActions` fails
if and only if the set is non-empty. -/
theorem C20_action_registry (s : BaseCouplingScheme) (t u : String) :
    (s.requireAction t).isActionRequired t = true ∧
    (s.performedAction t).isActionRequired t = false ∧
    (u ≠ t → (s.requireAction t).isActionRequired u = s.isActionRequired u) ∧
    (u ≠ t → (s.performedAction t).isActionRequired u = s.isActionRequired u) ∧
    (s.isActionRequired t = true →
      ∀ v, (s.requireAction t).isActionRequired v = s.isActionRequired v) ∧
    (s.isActionRequired t = true → List.Sorted (· < ·) s._actions → s.requireAction t = s) ∧
    (s.isActionRequired t = false → s.performedAction t = s) ∧
    ((∃ f, s.checkCompletenessRequiredActions = .error f) ↔ s._actions ≠ []) := by
  have hreq : ∀ v, (s.requireAction t).isActionRequired v = true ↔ v = t ∨ v ∈ s._actions := by
    intro v
    rw [isActionRequired_iff]
    exact mem_setInsert t v s._actions
  have hper : ∀ v, (s.performedAction t).isActionRequired v = true ↔ v ∈ s._actions ∧ v ≠ t := by
    intro v
    rw [isActionRequired_iff]
    exact mem_setErase t v s._actions
  have hbool : ∀ a b : Bool, (a = true ↔ b = true) → a = b := by
    intro a b h
    cases a <;> cases b <;> simp_all
  refine ⟨?_, ?_, ?_, ?_, ?_, ?_, ?_, ?_⟩
  · exact (hreq t).mpr (Or.inl rfl)
  · cases h : (s.performedAction t).isActionRequired t with
    | false => rfl
    | true => exact absurd rfl ((hper t).mp h).2
  · intro hu
    apply hbool
    rw [hreq u, isActionRequired_iff]
    simp [hu]
  · intro hu
    apply hbool
    rw [hper u, isActionRequired_iff]
    simp [hu]
  · intro ht v
    apply hbool
    rw [hreq v, isActionRequired_iff]
    have := (isActionRequired_iff s t).mp ht
    constructor
    · rintro (rfl | h)
      · exact this
      · exact h
    · exact Or.inr
  · intro ht hs
    have := (isActionRequired_iff s t).mp ht
    simp only [BaseCouplingScheme.requireAction, setInsert_of_mem t s._actions hs this]
  · intro ht
    have hn : t ∉ s._actions := by
      intro hm
      rw [(isActionRequired_iff s t).mpr hm] at ht
      exact Bool.noConfusion ht
    simp only [BaseCouplingScheme.performedAction, setErase_of_not_mem t s._actions hn]
  · unfold BaseCouplingScheme.checkCompletenessRequiredActions
    cases h : s._actions with
    | nil => simp
    | cons a l => simp [preciceError]

/-! ## C19: registration of data -/

theorem contained_iff (id : Int) (m : DataMap) :
    contained id m = true ↔ id ∈ m.map Prod.fst := by
  induction m with
  | nil => simp [contained]
  | cons p m ih =>
    simp only [contained, List.any_cons, Bool.or_eq_true, decide_eq_true_eq, List.map_cons,
      List.mem_cons] at ih ⊢
    rw [ih]
    constructor
    · rintro (h | h)
      · exact Or.inl h.symm
      · exact Or.inr h
    · rintro (h | h)
      · exact Or.inl h.symm
      · exact Or.inr h

theorem mem_keys_mapInsert (id j : Int) (d : CouplingData) (m : DataMap) :
    j ∈ (mapInsert id d m).map Prod.fst ↔ j = id ∨ j ∈ m.map Prod.fst := by
  induction m with
  | nil => simp [mapInsert]
  | cons p m ih =>
    obtain ⟨i, e⟩ := p
    unfold mapInsert
    split_ifs with h1 h2
    · simp
    · simp only [List.map_cons, List.mem_cons, ih]
      tauto
    · have hid : id = i := le_antisymm (not_lt.mp h2) (not_lt.mp h1)
      subst hid
      simp

theorem length_mapInsert (id : Int) (d : CouplingData) (m : DataMap)
    (h : id ∉ m.map Prod.fst) : (mapInsert id d m).length = m.length + 1 := by
  induction m with
  | nil => simp [mapInsert]
  | cons p m ih =>
    obtain ⟨i, e⟩ := p
    simp only [List.map_cons, List.mem_cons, not_or] at h
    unfold mapInsert
    split_ifs with h1 h2
    · simp
    · simp [ih h.2]
    · exact absurd (le_antisymm (not_lt.mp h2) (not_lt.mp h1)) h.1

theorem lookup_mapInsert_self (id : Int) (d : CouplingData) (m : DataMap)
    (h : id ∉ m.map Prod.fst) : (mapInsert id d m).lookup id = some d := by
  induction m with
  | nil => simp [mapInsert, List.lookup]
  | cons p m ih =>
    obtain ⟨i, e⟩ := p
    simp only [List.map_cons, List.mem_cons, not_or] at h
    unfold mapInsert
    split_ifs with h1 h2
    · simp [List.lookup]
    · have hne : (id == i) = false := by simpa using h.1
      simp [List.lookup, hne, ih h.2]
    · exact absurd (le_antisymm (not_lt.mp h2) (not_lt.mp h1)) h.1

theorem lookup_mapInsert_other (id j : Int) (d : CouplingData) (m : DataMap) (hj : j ≠ id) :
    (mapInsert id d m).lookup j = m.lookup j := by
  induction m with
  | nil =>
    have hne : (j == id) = false := by simpa using hj
    simp [mapInsert, List.lookup, hne]
  | cons p m ih =>
    obtain ⟨i, e⟩ := p
    unfold mapInsert
    split_ifs with h1 h2
    · have hne : (j == id) = false := by simpa using hj
      simp [List.lookup, hne]
    · cases hji : (j == i) with
      | true => simp [List.lookup, hji]
      | false => simp [List.lookup, hji, ih]
    · rfl

/-- The outcome of `addDataToSend`, by whether the key is there already. -/
theorem BaseCouplingScheme.addDataToSend_eq (s : BaseCouplingScheme) (data : Data)
    (flag : Bool) :
    s.addDataToSend data flag =
      if data.getID ∈ s._sendData.map Prod.fst then
        (s, some (.error "addDataToSend()"
          ("Data \"" ++ data.getName ++ "\" of mesh \"" ++ data.meshName
            ++ "\" cannot be added twice for sending!")))
      else
        ({ s with _sendData := mapInsert data.getID (CouplingData.new data.values flag) s._sendData },
          none) := by
  unfold BaseCouplingScheme.addDataToSend
  by_cases h : data.getID ∈ s._sendData.map Prod.fst
  · simp [(contained_iff _ _).mpr h, h]
  · have hc : contained data.getID s._sendData = false := by
      cases hcc : contained data.getID s._sendData with
      | false => rfl
      | true => exact absurd ((contained_iff _ _).mp hcc) h
    simp [hc, h]

/-- The outcome of `addDataToReceive`, by whether the key is there already. -/
theorem BaseCouplingScheme.addDataToReceive_eq (s : BaseCouplingScheme) (data : Data)
    (flag : Bool) :
    s.addDataToReceive data flag =
      if data.getID ∈ s._receiveData.map Prod.fst then
        (s, some (.error "addDataToReceive()"
          ("Data \"" ++ data.getName ++ "\" of mesh \"" ++ data.meshName
            ++ "\" cannot be added twice for receiving!")))
      else
        ({ s with _receiveData := mapInsert data.getID (CouplingData.new data.values flag) s._receiveData },
          none) := by
  unfold BaseCouplingScheme.addDataToReceive
  by_cases h : data.getID ∈ s._receiveData.map Prod.fst
  · simp [(contained_iff _ _).mpr h, h]
  · have hc : contained data.getID s._receiveData = false := by
      cases hcc : contained data.getID s._receiveData with
      | false => rfl
      | true => exact absurd ((contained_iff _ _).mp hcc) h
    simp [hc, h]

/-- C19: the data maps never accept a duplicate. `addDataToSend(data)` fails if
and only if the identifier of `data` is a key of the send map already, and
`addDataToReceive(data)` fails if and only if it is a key of the receive map
already. A call that fails leaves the scheme, and so both maps, as it was. A
call that succeeds adds exactly the one key to its own map (the new entry holds
the values of `data`, the flag and no old values; every other key keeps its
entry; the map has one entry more) and leaves the other map and all other
members as they were. So the same identifier can be registered once in each
map. -/
theorem C19_no_duplicate_data (s : BaseCouplingScheme) (data : Data) (flag flag' : Bool) :
    ((s.addDataToSend data flag).2.isSome = true ↔ data.getID ∈ s._sendData.map Prod.fst) ∧
    ((s.addDataToReceive data flag).2.isSome = true ↔
      data.getID ∈ s._receiveData.map Prod.fst) ∧
    ((s.addDataToSend data flag).2.isSome = true → (s.addDataToSend data flag).1 = s) ∧
    ((s.addDataToReceive data flag).2.isSome = true → (s.addDataToReceive data flag).1 = s) ∧
    ((s.addDataToSend data flag).2 = none →
      (s.addDataToSend data flag).1
        = { s with _sendData := (s.addDataToSend data flag).1._sendData } ∧
      (∀ j, j ∈ (s.addDataToSend data flag).1._sendData.map Prod.fst ↔
        j = data.getID ∨ j ∈ s._sendData.map Prod.fst) ∧
      (s.addDataToSend data flag).1._sendData.length = s._sendData.length + 1 ∧
      (s.addDataToSend data flag).1.getSendData data.getID
        = some { values := data.values, oldValues := [], initialize_ := flag } ∧
      (∀ j, j ≠ data.getID →
        (s.addDataToSend data flag).1.getSendData j = s.getSendData j)) ∧
    ((s.addDataToReceive data flag).2 = none →
      (s.addDataToReceive data flag).1
        = { s with _receiveData := (s.addDataToReceive data flag).1._receiveData } ∧
      (∀ j, j ∈ (s.addDataToReceive data flag).1._receiveData.map Prod.fst ↔
        j = data.getID ∨ j ∈ s._receiveData.map Prod.fst) ∧
      (s.addDataToReceive data flag).1._receiveData.length = s._receiveData.length + 1 ∧
      (s.addDataToReceive data flag).1.getReceiveData data.getID
        = some { values := data.values, oldValues := [], initialize_ := flag } ∧
      (∀ j, j ≠ data.getID →
        (s.addDataToReceive data flag).1.getReceiveData j = s.getReceiveData j)) ∧
    (data.getID ∉ s._sendData.map Prod.fst → data.getID ∉ s._receiveData.map Prod.fst →
      ((s.addDataToSend data flag).1.addDataToReceive data flag').2 = none ∧
      ((s.addDataToReceive data flag).1.addDataToSend data flag').2 = none) := by
  have send_eq := BaseCouplingScheme.addDataToSend_eq s data flag
  have recv_eq := BaseCouplingScheme.addDataToReceive_eq s data flag
  have send_fail : (s.addDataToSend data flag).2.isSome = true ↔
      data.getID ∈ s._sendData.map Prod.fst := by
    rw [send_eq]
    split_ifs with h <;> simp [h]
  have recv_fail : (s.addDataToReceive data flag).2.isSome = true ↔
      data.getID ∈ s._receiveData.map Prod.fst := by
    rw [recv_eq]
    split_ifs with h <;> simp [h]
  refine ⟨send_fail, recv_fail, ?_, ?_, ?_, ?_, ?_⟩
  · intro h
    rw [send_eq, if_pos (send_fail.mp h)]
  · intro h
    rw [recv_eq, if_pos (recv_fail.mp h)]
  · intro h
    have hn : data.getID ∉ s._sendData.map Prod.fst := by
      intro hm
      rw [send_eq, if_pos hm] at h
      simp at h
    rw [send_eq, if_neg hn]
    exact ⟨rfl, fun j => mem_keys_mapInsert _ j _ _, length_mapInsert _ _ _ hn,
      lookup_mapInsert_self _ _ _ hn, fun j hj => lookup_mapInsert_other _ j _ _ hj⟩
  · intro h
    have hn : data.getID ∉ s._receiveData.map Prod.fst := by
      intro hm
      rw [recv_eq, if_pos hm] at h
      simp at h
    rw [recv_eq, if_neg hn]
    exact ⟨rfl, fun j => mem_keys_mapInsert _ j _ _, length_mapInsert _ _ _ hn,
      lookup_mapInsert_self _ _ _ hn, fun j hj => lookup_mapInsert_other _ j _ _ hj⟩
  · intro hns hnr
    constructor
    · rw [BaseCouplingScheme.addDataToReceive_eq, send_eq, if_neg hns, if_neg hnr]
    · rw [BaseCouplingScheme.addDataToSend_eq, recv_eq, if_neg hnr, if_neg hns]

/-! ## C16, C17 and C18: construction -/

/-- The four checks both constructors start with. -/
theorem basicChecks_iff (k : Constants) (maxTime : ℚ) (maxTimesteps : Int) (timestepLength : ℚ)
    (validDigits : Int) :
    ((!(decide (maxTime ≠ k.UNDEFINED_TIME) && decide (maxTime < 0))) = true ∧
      (!(decide (maxTimesteps ≠ k.UNDEFINED_TIMESTEPS) && decide (maxTimesteps < 0))) = true ∧
      (!(decide (timestepLength ≠ k.UNDEFINED_TIMESTEP_LENGTH)
        && decide (timestepLength < 0))) = true ∧
      (decide (validDigits ≥ 1) && decide (validDigits < 17)) = true) ↔
    ((maxTime = k.UNDEFINED_TIME ∨ 0 ≤ maxTime) ∧
      (maxTimesteps = k.UNDEFINED_TIMESTEPS ∨ 0 ≤ maxTimesteps) ∧
      (timestepLength = k.UNDEFINED_TIMESTEP_LENGTH ∨ 0 ≤ timestepLength) ∧
      1 ≤ validDigits ∧ validDigits ≤ 16) := by
  simp only [Bool.not_eq_true', Bool.and_eq_false_iff, decide_eq_false_iff_not, ne_eq,
    not_not, not_lt, Bool.and_eq_true, decide_eq_true_eq, ge_iff_le]
  constructor
  · rintro ⟨h1, h2, h3, h4, h5⟩
    exact ⟨h1, h2, h3, h4, by omega⟩
  · rintro ⟨h1, h2, h3, h4, h5⟩
    exact ⟨h1, h2, h3, h4, by omega⟩

/-- C16: the constructor `BaseCouplingScheme(maxTime, maxTimesteps,
timestepLength, validDigits)` succeeds if and only if each of `maxTime`,
`maxTimesteps` and `timestepLength` is either its "undefined" sentinel or
non-negative and `1 <= validDigits <= 16`; a negative bound that is not the
sentinel, and a `validDigits` outside [1,16], make it fail. -/
theorem C16_construction_bounds (k : Constants) (unset : BaseCouplingScheme) (maxTime : ℚ)
    (maxTimesteps : Int) (timestepLength : ℚ) (validDigits : Int) :
    ((∃ s, BaseCouplingScheme.construct k unset maxTime maxTimesteps timestepLength validDigits
        = .ok s) ↔
      ((maxTime = k.UNDEFINED_TIME ∨ 0 ≤ maxTime) ∧
        (maxTimesteps = k.UNDEFINED_TIMESTEPS ∨ 0 ≤ maxTimesteps) ∧
        (timestepLength = k.UNDEFINED_TIMESTEP_LENGTH ∨ 0 ≤ timestepLength) ∧
        1 ≤ validDigits ∧ validDigits ≤ 16)) ∧
    ((∃ f, BaseCouplingScheme.construct k unset maxTime maxTimesteps timestepLength validDigits
        = .error f) ↔
      ((maxTime ≠ k.UNDEFINED_TIME ∧ maxTime < 0) ∨
        (maxTimesteps ≠ k.UNDEFINED_TIMESTEPS ∧ maxTimesteps < 0) ∨
        (timestepLength ≠ k.UNDEFINED_TIMESTEP_LENGTH ∧ timestepLength < 0) ∨
        validDigits < 1 ∨ 16 < validDigits)) := by
  have hb := basicChecks_iff k maxTime maxTimesteps timestepLength validDigits
  have key : (∃ s, BaseCouplingScheme.construct k unset maxTime maxTimesteps timestepLength
      validDigits = .ok s) ↔
      ((maxTime = k.UNDEFINED_TIME ∨ 0 ≤ maxTime) ∧
        (maxTimesteps = k.UNDEFINED_TIMESTEPS ∨ 0 ≤ maxTimesteps) ∧
        (timestepLength = k.UNDEFINED_TIMESTEP_LENGTH ∨ 0 ≤ timestepLength) ∧
        1 ≤ validDigits ∧ validDigits ≤ 16) := by
    rw [← hb]
    unfold BaseCouplingScheme.construct
    constructor
    · rintro ⟨s, h⟩
      obtain ⟨_, c1, h⟩ := (bind_eq_ok _ _ _).mp h
      obtain ⟨_, c2, h⟩ := (bind_eq_ok _ _ _).mp h
      obtain ⟨_, c3, h⟩ := (bind_eq_ok _ _ _).mp h
      obtain ⟨_, c4, h⟩ := (bind_eq_ok _ _ _).mp h
      exact ⟨(preciceCheck_eq_ok _ _ _).mp c1, (preciceCheck_eq_ok _ _ _).mp c2,
        (preciceCheck_eq_ok _ _ _).mp c3, (preciceCheck_eq_ok _ _ _).mp c4⟩
    · rintro ⟨c1, c2, c3, c4⟩
      simp only [c1, c2, c3, c4, preciceCheck_true, bind, Except.bind, pure, Except.pure]
      exact ⟨_, rfl⟩
  refine ⟨key, ?_⟩
  have hcases : (∃ f, BaseCouplingScheme.construct k unset maxTime maxTimesteps timestepLength
      validDigits = .error f) ↔ ¬ ∃ s, BaseCouplingScheme.construct k unset maxTime maxTimesteps
      timestepLength validDigits = .ok s := by
    cases BaseCouplingScheme.construct k unset maxTime maxTimesteps timestepLength validDigits with
    | error f => simp
    | ok s => simp
  rw [hcases, key]
  constructor
  · intro h
    by_contra hn
    apply h
    simp only [not_or, not_and, not_lt, ne_eq] at hn
    obtain ⟨n1, n2, n3, n4, n5⟩ := hn
    refine ⟨?_, ?_, ?_, n4, n5⟩
    · by_cases e : maxTime = k.UNDEFINED_TIME
      · exact Or.inl e
      · exact Or.inr (n1 e)
    · by_cases e : maxTimesteps = k.UNDEFINED_TIMESTEPS
      · exact Or.inl e
      · exact Or.inr (n2 e)
    · by_cases e : timestepLength = k.UNDEFINED_TIMESTEP_LENGTH
      · exact Or.inl e
      · exact Or.inr (n3 e)
  · rintro h ⟨g1, g2, g3, g4, g5⟩
    rcases h with ⟨a, b⟩ | ⟨a, b⟩ | ⟨a, b⟩ | a | a
    · rcases g1 with g | g
      · exact a g
      · exact absurd b (not_lt.mpr g)
    · rcases g2 with g | g
      · exact a g
      · exact absurd b (not_lt.mpr g)
    · rcases g3 with g | g
      · exact a g
      · exact absurd b (not_lt.mpr g)
    · omega
    · omega

theorem preciceCheck_ok_unit (condition : Bool) (method message : String) (u : Unit) :
    preciceCheck condition method message = .ok u ↔ condition = true := by
  cases condition <;> simp [preciceCheck]

/-- When the second constructor succeeds, and with which scheme. -/
theorem BaseCouplingScheme.constructParticipant_ok_iff (k : Constants) (maxTime : ℚ)
    (maxTimesteps : Int) (timestepLength : ℚ) (validDigits : Int)
    (firstParticipant secondParticipant localParticipant : String)
    (communication : Option Communication)
    (maxIterations : Int) (dtMethod : TimesteppingMethod) (s : BaseCouplingScheme) :
    BaseCouplingScheme.constructParticipant k maxTime maxTimesteps timestepLength validDigits
        firstParticipant secondParticipant localParticipant communication maxIterations dtMethod
      = .ok s ↔
    (((maxTime = k.UNDEFINED_TIME ∨ 0 ≤ maxTime) ∧
        (maxTimesteps = k.UNDEFINED_TIMESTEPS ∨ 0 ≤ maxTimesteps) ∧
        (timestepLength = k.UNDEFINED_TIMESTEP_LENGTH ∨ 0 ≤ timestepLength) ∧
        1 ≤ validDigits ∧ validDigits ≤ 16) ∧
      firstParticipant ≠ secondParticipant ∧
      (dtMethod = .FIXED_DT →
        tarch.la.equals timestepLength k.UNDEFINED_TIMESTEP_LENGTH k.NUMERICAL_ZERO_DIFFERENCE
          = false) ∧
      BaseCouplingScheme.resolveParticipant k
        (BaseCouplingScheme.members maxTime maxTimesteps timestepLength validDigits
          firstParticipant secondParticipant maxIterations) localParticipant dtMethod = .ok s ∧
      (0 < maxIterations ∨ maxIterations = -1) ∧
      communication.isSome = true) := by
  rw [← basicChecks_iff]
  unfold BaseCouplingScheme.constructParticipant
  simp only [bind_eq_ok]
  have hfixed : (∃ a : Unit, (if dtMethod = TimesteppingMethod.FIXED_DT then
        preciceCheck (BaseCouplingScheme.hasTimestepLength k
          (BaseCouplingScheme.members maxTime maxTimesteps timestepLength validDigits
            firstParticipant secondParticipant maxIterations)) "ImplicitCouplingScheme()"
          "Timestep length value has to be given when the fixed timestep length method is chosen for an implicit coupling scheme!"
        else pure ()) = Except.ok a) ↔
      (dtMethod = .FIXED_DT →
        tarch.la.equals timestepLength k.UNDEFINED_TIMESTEP_LENGTH k.NUMERICAL_ZERO_DIFFERENCE
          = false) := by
    split_ifs with hm
    · simp [preciceCheck_ok_unit, BaseCouplingScheme.hasTimestepLength,
        BaseCouplingScheme.members, hm]
    · simp [hm, pure, Except.pure]
  constructor
  · rintro ⟨_, c1, _, c2, _, c3, _, c4, _, c5, u, c6, s1, c7, _, c8, v, c10, c9⟩
    simp only [pure, Except.pure] at c9
    injection c9 with c9
    subst c9
    cases v
    rw [preciceCheck_ok_unit] at c1 c2 c3 c4 c5 c8
    refine ⟨⟨c1, c2, c3, c4⟩, ?_, hfixed.mp ⟨u, c6⟩, c7, ?_, (assertion_eq_ok _ _).mp c10⟩
    · simpa [BaseCouplingScheme.members] using c5
    · simpa using c8
  · rintro ⟨⟨c1, c2, c3, c4⟩, c5, c6, c7, c8, c10⟩
    obtain ⟨u, hu⟩ := hfixed.mpr c6
    refine ⟨(), (preciceCheck_ok_unit _ _ _ _).mpr c1, (), (preciceCheck_ok_unit _ _ _ _).mpr c2,
      (), (preciceCheck_ok_unit _ _ _ _).mpr c3, (), (preciceCheck_ok_unit _ _ _ _).mpr c4,
      (), (preciceCheck_ok_unit _ _ _ _).mpr ?_, u, hu, s, c7,
      (), (preciceCheck_ok_unit _ _ _ _).mpr ?_, (), (assertion_eq_ok _ _).mpr c10, rfl⟩
    · simpa [BaseCouplingScheme.members] using c5
    · simpa using c8

/-- The scheme `resolveParticipant` returns. -/
theorem BaseCouplingScheme.resolveParticipant_ok (k : Constants) (s s' : BaseCouplingScheme)
    (localParticipant : String) (dtMethod : TimesteppingMethod)
    (h : s.resolveParticipant k localParticipant dtMethod = .ok s') :
    (localParticipant = s._firstParticipant ∨ localParticipant = s._secondParticipant) ∧
    s' = (if localParticipant = s._firstParticipant then
        if dtMethod = .FIRST_PARTICIPANT_SETS_DT then
          { s with _doesFirstStep := true, _participantSetsDt := true,
                   _timestepLength := k.UNDEFINED_TIMESTEP_LENGTH }
        else { s with _doesFirstStep := true }
      else if dtMethod = .FIRST_PARTICIPANT_SETS_DT then { s with _participantReceivesDt := true }
      else s) := by
  unfold BaseCouplingScheme.resolveParticipant at h
  by_cases h1 : localParticipant = s._firstParticipant
  · by_cases h2 : dtMethod = TimesteppingMethod.FIRST_PARTICIPANT_SETS_DT
    · rw [if_pos h1] at h
      simp only [if_pos h2] at h
      injection h with h
      rw [if_pos h1, if_pos h2]
      exact ⟨Or.inl h1, h.symm⟩
    · rw [if_pos h1] at h
      simp only [if_neg h2] at h
      injection h with h
      rw [if_pos h1, if_neg h2]
      exact ⟨Or.inl h1, h.symm⟩
  · rw [if_neg h1] at h
    by_cases h3 : localParticipant = s._secondParticipant
    · by_cases h2 : dtMethod = TimesteppingMethod.FIRST_PARTICIPANT_SETS_DT
      · rw [if_pos h3, if_pos h2] at h
        injection h with h
        rw [if_neg h1, if_pos h2]
        exact ⟨Or.inr h3, h.symm⟩
      · rw [if_pos h3, if_neg h2] at h
        injection h with h
        rw [if_neg h1, if_neg h2]
        exact ⟨Or.inr h3, h.symm⟩
    · rw [if_neg h3] at h
      simp [preciceError] at h

/-- The first or second participant is always resolved. -/
theorem BaseCouplingScheme.resolveParticipant_isOk (k : Constants) (s : BaseCouplingScheme)
    (localParticipant : String) (dtMethod : TimesteppingMethod)
    (h : localParticipant = s._firstParticipant ∨ localParticipant = s._secondParticipant) :
    ∃ s', s.resolveParticipant k localParticipant dtMethod = .ok s' := by
  unfold BaseCouplingScheme.resolveParticipant
  split_ifs with h1 h2 h3 h4
  · exact ⟨_, rfl⟩
  · exact ⟨_, rfl⟩
  · exact ⟨_, rfl⟩
  · exact ⟨_, rfl⟩
  · rcases h with h | h
    · exact absurd h h1
    · exact absurd h h3

/-- The first participant "A" of a coupling of "A" and "B" in which the first
participant sets the timestep length, as the second constructor builds it. -/
theorem constructParticipant_example :
    BaseCouplingScheme.constructParticipant exampleConstants (-1) 10 1 8 "A" "B" "A"
      (some freshChannel) (-1) .FIRST_PARTICIPANT_SETS_DT
    = .ok { BaseCouplingScheme.members (-1) 10 1 8 "A" "B" (-1) with
        _doesFirstStep := true, _participantSetsDt := true, _timestepLength := -1 } := by
  rw [BaseCouplingScheme.constructParticipant_ok_iff]
  refine ⟨⟨Or.inl rfl, Or.inr (by norm_num), Or.inr (by norm_num), by norm_num, by norm_num⟩,
    (by decide), (fun e => by cases e), ?_, Or.inr rfl, rfl⟩
  simp [BaseCouplingScheme.resolveParticipant, BaseCouplingScheme.members, exampleConstants]

/-- Where the second constructor succeeds with a channel, it fails with a null
channel, in its closing assertion. -/
theorem BaseCouplingScheme.constructParticipant_null (k : Constants) (maxTime : ℚ)
    (maxTimesteps : Int) (timestepLength : ℚ) (validDigits : Int)
    (firstParticipant secondParticipant localParticipant : String) (c : Communication)
    (maxIterations : Int) (dtMethod : TimesteppingMethod) (s : BaseCouplingScheme)
    (h : BaseCouplingScheme.constructParticipant k maxTime maxTimesteps timestepLength
      validDigits firstParticipant secondParticipant localParticipant (some c) maxIterations
      dtMethod = .ok s) :
    BaseCouplingScheme.constructParticipant k maxTime maxTimesteps timestepLength
      validDigits firstParticipant secondParticipant localParticipant none maxIterations dtMethod
      = .error (.assertion "BaseCouplingScheme()") := by
  unfold BaseCouplingScheme.constructParticipant at h ⊢
  obtain ⟨u1, c1, h⟩ := (bind_eq_ok _ _ _).mp h
  obtain ⟨u2, c2, h⟩ := (bind_eq_ok _ _ _).mp h
  obtain ⟨u3, c3, h⟩ := (bind_eq_ok _ _ _).mp h
  obtain ⟨u4, c4, h⟩ := (bind_eq_ok _ _ _).mp h
  obtain ⟨u5, c5, h⟩ := (bind_eq_ok _ _ _).mp h
  obtain ⟨u6, c6, h⟩ := (bind_eq_ok _ _ _).mp h
  obtain ⟨s1, c7, h⟩ := (bind_eq_ok _ _ _).mp h
  obtain ⟨u8, c8, h⟩ := (bind_eq_ok _ _ _).mp h
  rw [c1]
  simp only [bind, Except.bind]
  rw [c2]
  simp only
  rw [c3]
  simp only
  rw [c4]
  simp only
  rw [c5]
  simp only
  rw [c6]
  simp only
  rw [c7]
  simp only
  rw [c8]
  rfl

/-- C17, refuted as stated: the bounds and the valid digits pass the basic
checks, the participant names "A" and "B" differ, the method is not the
fixed-timestep-length one, the local participant is "A" and `maxIterations`
is -1. With a channel the constructor succeeds; with a null channel it fails,
in its closing `assertion(_communication.use_count() > 0)`. -/
theorem C17_counterexample :
    (((-1 : ℚ) = exampleConstants.UNDEFINED_TIME ∨ (0 : ℚ) ≤ -1) ∧
      ((10 : Int) = exampleConstants.UNDEFINED_TIMESTEPS ∨ (0 : Int) ≤ 10) ∧
      ((1 : ℚ) = exampleConstants.UNDEFINED_TIMESTEP_LENGTH ∨ (0 : ℚ) ≤ 1) ∧
      (1 : Int) ≤ 8 ∧ (8 : Int) ≤ 16) ∧
    ¬ (("A" : String) = "B" ∨
      (TimesteppingMethod.FIRST_PARTICIPANT_SETS_DT = TimesteppingMethod.FIXED_DT ∧
        tarch.la.equals 1 exampleConstants.UNDEFINED_TIMESTEP_LENGTH
          exampleConstants.NUMERICAL_ZERO_DIFFERENCE = true) ∨
      (("A" : String) ≠ "A" ∧ ("A" : String) ≠ "B") ∨
      ¬ ((-1 : Int) = -1 ∨ (0 : Int) < -1)) ∧
    (∃ s, BaseCouplingScheme.constructParticipant exampleConstants (-1) 10 1 8 "A" "B" "A"
      (some freshChannel) (-1) .FIRST_PARTICIPANT_SETS_DT = .ok s) ∧
    BaseCouplingScheme.constructParticipant exampleConstants (-1) 10 1 8 "A" "B" "A"
      none (-1) .FIRST_PARTICIPANT_SETS_DT = .error (.assertion "BaseCouplingScheme()") := by
  have hne : ("A" : String) ≠ "B" := by decide
  have hm : TimesteppingMethod.FIRST_PARTICIPANT_SETS_DT ≠ TimesteppingMethod.FIXED_DT := by
    intro e
    cases e
  refine ⟨⟨Or.inl rfl, Or.inr (by norm_num), Or.inr (by norm_num), by norm_num, by norm_num⟩,
    ?_, ⟨_, constructParticipant_example⟩, ?_⟩
  · rintro (h | ⟨h, _⟩ | ⟨h, _⟩ | h)
    · exact hne h
    · exact hm h
    · exact h rfl
    · exact h (Or.inl rfl)
  · exact BaseCouplingScheme.constructParticipant_null _ _ _ _ _ _ _ _ _ _ _ _
      constructParticipant_example

/-- C17, amended: given bounds and `validDigits` that pass the basic checks,
the participant constructor fails if and only if the first and second
participant names are equal, or the fixed-timestep-length method is selected
while `timestepLength` is the undefined sentinel (as tested by
`hasTimestepLength()`), or the local participant name equals neither configured
name, or `maxIterations` is neither -1 nor a positive integer, or the channel
is a null pointer. With a tolerance that is not negative and a sentinel that is
negative beyond it, the test of `hasTimestepLength()` is equality with the
sentinel. -/
theorem C17_participant_construction (k : Constants) (maxTime : ℚ) (maxTimesteps : Int)
    (timestepLength : ℚ) (validDigits : Int)
    (firstParticipant secondParticipant localParticipant : String)
    (communication : Option Communication)
    (maxIterations : Int) (dtMethod : TimesteppingMethod)
    (hbasic : (maxTime = k.UNDEFINED_TIME ∨ 0 ≤ maxTime) ∧
      (maxTimesteps = k.UNDEFINED_TIMESTEPS ∨ 0 ≤ maxTimesteps) ∧
      (timestepLength = k.UNDEFINED_TIMESTEP_LENGTH ∨ 0 ≤ timestepLength) ∧
      1 ≤ validDigits ∧ validDigits ≤ 16) :
    ((∃ f, BaseCouplingScheme.constructParticipant k maxTime maxTimesteps timestepLength
        validDigits firstParticipant secondParticipant localParticipant communication
        maxIterations dtMethod = .error f) ↔
      (firstParticipant = secondParticipant ∨
        (dtMethod = .FIXED_DT ∧
          tarch.la.equals timestepLength k.UNDEFINED_TIMESTEP_LENGTH k.NUMERICAL_ZERO_DIFFERENCE
            = true) ∨
        (localParticipant ≠ firstParticipant ∧ localParticipant ≠ secondParticipant) ∨
        ¬ (maxIterations = -1 ∨ 0 < maxIterations) ∨
        communication = none)) ∧
    (0 ≤ k.NUMERICAL_ZERO_DIFFERENCE →
      k.UNDEFINED_TIMESTEP_LENGTH < -k.NUMERICAL_ZERO_DIFFERENCE →
      (tarch.la.equals timestepLength k.UNDEFINED_TIMESTEP_LENGTH k.NUMERICAL_ZERO_DIFFERENCE
          = true ↔ timestepLength = k.UNDEFINED_TIMESTEP_LENGTH)) := by
  constructor
  · have hcases : (∃ f, BaseCouplingScheme.constructParticipant k maxTime maxTimesteps
        timestepLength validDigits firstParticipant secondParticipant localParticipant
        communication maxIterations dtMethod = .error f) ↔
        ¬ ∃ s, BaseCouplingScheme.constructParticipant k maxTime maxTimesteps timestepLength
          validDigits firstParticipant secondParticipant localParticipant communication
          maxIterations dtMethod = .ok s := by
      cases BaseCouplingScheme.constructParticipant k maxTime maxTimesteps timestepLength
        validDigits firstParticipant secondParticipant localParticipant communication
        maxIterations dtMethod with
      | error f => simp
      | ok s => simp
    have hok : (∃ s, BaseCouplingScheme.constructParticipant k maxTime maxTimesteps
        timestepLength validDigits firstParticipant secondParticipant localParticipant
        communication maxIterations dtMethod = .ok s) ↔
        (firstParticipant ≠ secondParticipant ∧
          (dtMethod = .FIXED_DT → tarch.la.equals timestepLength k.UNDEFINED_TIMESTEP_LENGTH
            k.NUMERICAL_ZERO_DIFFERENCE = false) ∧
          (localParticipant = firstParticipant ∨ localParticipant = secondParticipant) ∧
          (0 < maxIterations ∨ maxIterations = -1) ∧
          ¬ communication = none) := by
      have hsome : communication.isSome = true ↔ ¬ communication = none := by
        cases communication <;> simp
      simp only [BaseCouplingScheme.constructParticipant_ok_iff, hsome]
      constructor
      · rintro ⟨s, _, c1, c2, c3, c4, c5⟩
        exact ⟨c1, c2, (BaseCouplingScheme.resolveParticipant_ok k _ s _ _ c3).1, c4, c5⟩
      · rintro ⟨c1, c2, c3, c4, c5⟩
        obtain ⟨s, hs⟩ := BaseCouplingScheme.resolveParticipant_isOk k
          (BaseCouplingScheme.members maxTime maxTimesteps timestepLength validDigits
            firstParticipant secondParticipant maxIterations) localParticipant dtMethod c3
        exact ⟨s, hbasic, c1, c2, hs, c4, c5⟩
    rw [hcases, hok]
    generalize tarch.la.equals timestepLength k.UNDEFINED_TIMESTEP_LENGTH
      k.NUMERICAL_ZERO_DIFFERENCE = e
    have he : e = false ↔ ¬ e = true := by cases e <;> simp
    rw [he]
    simp only [ne_eq]
    generalize (e = true) = E
    generalize (firstParticipant = secondParticipant) = A
    generalize (dtMethod = TimesteppingMethod.FIXED_DT) = F
    generalize (localParticipant = firstParticipant) = L1
    generalize (localParticipant = secondParticipant) = L2
    generalize (0 < maxIterations) = M1
    generalize (maxIterations = -1) = M2
    generalize (communication = none) = N
    by_cases hA : A <;> by_cases hF : F <;> by_cases hE : E <;> by_cases hL1 : L1 <;>
      by_cases hL2 : L2 <;> by_cases hM1 : M1 <;> by_cases hM2 : M2 <;> by_cases hN : N <;>
      simp only [hA, hF, hE, hL1, hL2, hM1, hM2, hN, ne_eq, not_true_eq_false,
        not_false_eq_true, and_true, and_false, true_and, false_and, or_true, or_false, true_or,
        false_or, imp_self, implies_true, not_true, not_false_iff, true_implies, false_implies,
        imp_false]
  · intro htol hneg
    simp only [tarch.la.equals, decide_eq_true_eq]
    constructor
    · intro h
      rcases hbasic.2.2.1 with e | e
      · exact e
      · have := (abs_le.mp h).1
        linarith
    · intro h
      rw [h, sub_self, abs_zero]
      exact htol

/-- C17 at a concrete input: the bounds pass the basic checks and the
participant names are equal. -/
theorem C17_participant_construction_witness :
    (((-1 : ℚ) = exampleConstants.UNDEFINED_TIME ∨ (0 : ℚ) ≤ -1) ∧
      ((10 : Int) = exampleConstants.UNDEFINED_TIMESTEPS ∨ (0 : Int) ≤ 10) ∧
      ((1 : ℚ) = exampleConstants.UNDEFINED_TIMESTEP_LENGTH ∨ (0 : ℚ) ≤ 1) ∧
      (1 : Int) ≤ 8 ∧ (8 : Int) ≤ 16) ∧
    ∃ f, BaseCouplingScheme.constructParticipant exampleConstants (-1) 10 1 8 "A" "A" "A"
      (some freshChannel) (-1) .FIXED_DT = .error f := by
  have hbasic : ((-1 : ℚ) = exampleConstants.UNDEFINED_TIME ∨ (0 : ℚ) ≤ -1) ∧
      ((10 : Int) = exampleConstants.UNDEFINED_TIMESTEPS ∨ (0 : Int) ≤ 10) ∧
      ((1 : ℚ) = exampleConstants.UNDEFINED_TIMESTEP_LENGTH ∨ (0 : ℚ) ≤ 1) ∧
      (1 : Int) ≤ 8 ∧ (8 : Int) ≤ 16 := by
    refine ⟨Or.inl rfl, Or.inr (by norm_num), Or.inr (by norm_num), by norm_num, by norm_num⟩
  exact ⟨hbasic, ((C17_participant_construction exampleConstants (-1) 10 1 8 "A" "A" "A"
    (some freshChannel) (-1) .FIXED_DT hbasic).1).mpr (Or.inl rfl)⟩

/-- C18: after every successful participant construction, `participantSetsDt`
and `participantReceivesDt` are never both true; under the
first-participant-sets-dt method the first participant has `participantSetsDt`
true with `timestepLength` reset to the undefined sentinel (so
`hasTimestepLength()` is false, the tolerance of `tarch::la` not being
negative) and the second participant has `participantReceivesDt` true; under any
other method both flags are false; and `doesFirstStep` is true exactly when the
local name equals the first participant's name. -/
theorem C18_timestep_policy (k : Constants) (maxTime : ℚ) (maxTimesteps : Int)
    (timestepLength : ℚ) (validDigits : Int)
    (firstParticipant secondParticipant localParticipant : String)
    (communication : Option Communication)
    (maxIterations : Int) (dtMethod : TimesteppingMethod) (s : BaseCouplingScheme)
    (h : BaseCouplingScheme.constructParticipant k maxTime maxTimesteps timestepLength
      validDigits firstParticipant secondParticipant localParticipant communication
      maxIterations dtMethod = .ok s) :
    ¬ (s._participantSetsDt = true ∧ s._participantReceivesDt = true) ∧
    (dtMethod = .FIRST_PARTICIPANT_SETS_DT → localParticipant = firstParticipant →
      s._participantSetsDt = true ∧ s._participantReceivesDt = false ∧
      s._timestepLength = k.UNDEFINED_TIMESTEP_LENGTH ∧
      (0 ≤ k.NUMERICAL_ZERO_DIFFERENCE → s.hasTimestepLength k = false)) ∧
    (dtMethod = .FIRST_PARTICIPANT_SETS_DT → localParticipant = secondParticipant →
      s._participantReceivesDt = true ∧ s._participantSetsDt = false) ∧
    (dtMethod ≠ .FIRST_PARTICIPANT_SETS_DT →
      s._participantSetsDt = false ∧ s._participantReceivesDt = false) ∧
    (s._doesFirstStep = true ↔ localParticipant = firstParticipant) := by
  obtain ⟨_, hne, _, hres, _⟩ := (BaseCouplingScheme.constructParticipant_ok_iff k maxTime
    maxTimesteps timestepLength validDigits firstParticipant secondParticipant localParticipant
    communication maxIterations dtMethod s).mp h
  obtain ⟨_, hs⟩ := BaseCouplingScheme.resolveParticipant_ok k _ s _ _ hres
  simp only [BaseCouplingScheme.members] at hs
  by_cases h1 : localParticipant = firstParticipant
  · have h2 : localParticipant ≠ secondParticipant := fun e => hne (h1.symm.trans e)
    by_cases hm : dtMethod = TimesteppingMethod.FIRST_PARTICIPANT_SETS_DT
    · rw [if_pos h1, if_pos hm] at hs
      subst hs
      refine ⟨by simp, fun _ _ => ⟨rfl, rfl, rfl, fun htol => ?_⟩, fun _ e => absurd e h2,
        fun e => absurd hm e, by simp [h1]⟩
      simp [BaseCouplingScheme.hasTimestepLength, tarch.la.equals, htol]
    · rw [if_pos h1, if_neg hm] at hs
      subst hs
      exact ⟨by simp, fun e => absurd e hm, fun e => absurd e hm, fun _ => ⟨rfl, rfl⟩,
        by simp [h1]⟩
  · by_cases hm : dtMethod = TimesteppingMethod.FIRST_PARTICIPANT_SETS_DT
    · rw [if_neg h1, if_pos hm] at hs
      subst hs
      exact ⟨by simp, fun _ e => absurd e h1, fun _ _ => ⟨rfl, rfl⟩, fun e => absurd hm e,
        by simp [h1]⟩
    · rw [if_neg h1, if_neg hm] at hs
      subst hs
      exact ⟨by simp, fun e => absurd e hm, fun e => absurd e hm, fun _ => ⟨rfl, rfl⟩,
        by simp [h1]⟩

/-- C18 at a concrete input: the first participant "A" under the
first-participant-sets-dt method. -/
theorem C18_timestep_policy_witness :
    BaseCouplingScheme.constructParticipant exampleConstants (-1) 10 1 8 "A" "B" "A"
      (some freshChannel) (-1) .FIRST_PARTICIPANT_SETS_DT
    = .ok { BaseCouplingScheme.members (-1) 10 1 8 "A" "B" (-1) with
        _doesFirstStep := true, _participantSetsDt := true, _timestepLength := -1 } ∧
    BaseCouplingScheme.hasTimestepLength exampleConstants
      { BaseCouplingScheme.members (-1) 10 1 8 "A" "B" (-1) with
        _doesFirstStep := true, _participantSetsDt := true, _timestepLength := -1 } = false := by
  refine ⟨constructParticipant_example, ?_⟩
  exact (C18_timestep_policy exampleConstants (-1) 10 1 8 "A" "B" "A" (some freshChannel) (-1)
    .FIRST_PARTICIPANT_SETS_DT _ constructParticipant_example).2.1 rfl rfl |>.2.2.2
      (by norm_num [exampleConstants])

/-! ## C13 and C14: `initializeData` out of order, and with nothing to do -/

/-- With no initial data to send or to receive, `initializeData` returns at
once. -/
theorem BaseCouplingScheme.initializeData_skip (k : Constants) (s : BaseCouplingScheme)
    (c : Communication) (hinit : s._isInitialized = true)
    (hsend : s._hasToSendInitData = false) (hrecv : s._hasToReceiveInitData = false) :
    s.initializeData k c = .ok (s, c) := by
  simp [BaseCouplingScheme.initializeData, hinit, hsend, hrecv, preciceCheck_true, bind,
    Except.bind, pure, Except.pure]

/-- C13, refuted as stated: on `pendingActionScheme`, which is initialized, the
"write initial data" action is outstanding, and yet `initializeData` succeeds:
no initial data has to be sent or received, and the call returns before the
action is looked at. -/
theorem C13_counterexample :
    pendingActionScheme._isInitialized = true ∧
    pendingActionScheme.isActionRequired exampleConstants.actionWriteInitialData = true ∧
    pendingActionScheme.initializeData exampleConstants freshChannel
      = .ok (pendingActionScheme, freshChannel) := by
  refine ⟨rfl, ?_, BaseCouplingScheme.initializeData_skip _ _ _ rfl rfl rfl⟩
  rw [isActionRequired_iff]
  simp [pendingActionScheme]

/-- C13, amended: `initializeData` fails, by a check, whenever the scheme is not
initialized, and whenever an initial-data send is pending (`hasToSendInitData`)
and the "write initial data" action is still outstanding at the time of the
call. -/
theorem C13_initializeData_out_of_order (k : Constants) (s : BaseCouplingScheme)
    (c : Communication) :
    (s._isInitialized = false →
      ∃ method message, s.initializeData k c = .error (.error method message)) ∧
    (s._hasToSendInitData = true → s.isActionRequired k.actionWriteInitialData = true →
      ∃ method message, s.initializeData k c = .error (.error method message)) := by
  have notInit : s._isInitialized = false →
      s.initializeData k c = .error (.error "initializeData()"
        "initializeData() can be called after initialize() only!") := by
    intro hinit
    simp [BaseCouplingScheme.initializeData, hinit, preciceCheck_false, bind, Except.bind]
  constructor
  · intro hinit
    exact ⟨_, _, notInit hinit⟩
  · intro hsend hact
    cases hinit : s._isInitialized with
    | false => exact ⟨_, _, notInit hinit⟩
    | true =>
      refine ⟨"initializeData()",
        "InitialData has to be written to preCICE before calling initializeData()", ?_⟩
      simp [BaseCouplingScheme.initializeData, hinit, hsend, hact, preciceCheck_true,
        preciceCheck_false, bind, Except.bind]

/-- C13 (amended) at concrete inputs: `exampleScheme` is not initialized, and
`unwrittenDataScheme` has to send initial data that has not been written. -/
theorem C13_initializeData_out_of_order_witness :
    (exampleScheme._isInitialized = false ∧
      ∃ method message, exampleScheme.initializeData exampleConstants freshChannel
        = .error (.error method message)) ∧
    (unwrittenDataScheme._isInitialized = true ∧
      unwrittenDataScheme._hasToSendInitData = true ∧
      unwrittenDataScheme.isActionRequired exampleConstants.actionWriteInitialData = true ∧
      ∃ method message, unwrittenDataScheme.initializeData exampleConstants freshChannel
        = .error (.error method message)) := by
  have hact : unwrittenDataScheme.isActionRequired exampleConstants.actionWriteInitialData
      = true := by
    rw [isActionRequired_iff]
    simp [unwrittenDataScheme]
  exact ⟨⟨rfl, (C13_initializeData_out_of_order exampleConstants exampleScheme freshChannel).1 rfl⟩,
    rfl, rfl, hact,
    (C13_initializeData_out_of_order exampleConstants unwrittenDataScheme freshChannel).2 rfl hact⟩

/-- C14: for an initialized scheme in which neither `hasToSendInitData` nor
`hasToReceiveInitData` is set, `initializeData` is a no-op: it succeeds, makes
no call on the channel (the channel, with its log and its unread values, is as
before), and leaves every member of the scheme as it was. -/
theorem C14_initializeData_noop (k : Constants) (s : BaseCouplingScheme) (c : Communication)
    (hinit : s._isInitialized = true) (hsend : s._hasToSendInitData = false)
    (hrecv : s._hasToReceiveInitData = false) :
    s.initializeData k c = .ok (s, c) :=
  BaseCouplingScheme.initializeData_skip k s c hinit hsend hrecv

/-- C14 at a concrete input: `runningScheme` is initialized and has no initial
data to exchange. -/
theorem C14_initializeData_noop_witness :
    runningScheme._isInitialized = true ∧ runningScheme._hasToSendInitData = false ∧
    runningScheme._hasToReceiveInitData = false ∧
    runningScheme.initializeData exampleConstants (channelWith [Msg.int 3])
      = .ok (runningScheme, channelWith [Msg.int 3]) :=
  ⟨rfl, rfl, rfl,
    C14_initializeData_noop exampleConstants runningScheme (channelWith [Msg.int 3]) rfl rfl rfl⟩

/-! ## C15: the initial values as history seed -/

theorem writeInitialData_lt :
    ("write-initial-data" : String) < "write-iteration-checkpoint" := by
  rw [String.lt_iff_toList_lt]
  decide

/-- The converse of `initialize_ok`: a run put together from its steps. -/
theorem BaseCouplingScheme.initialize_of_steps (k : Constants) (s : BaseCouplingScheme)
    (startTime : ℚ) (startTimestep : Int) (c : Communication)
    (s1 s2 s3 s4 : BaseCouplingScheme) (c4 : Communication)
    (hscan : BaseCouplingScheme.InitializeScans k s startTime startTimestep s1 s2 s3)
    (htime : tarch.la.greaterEquals startTime 0 k.NUMERICAL_ZERO_DIFFERENCE = true)
    (hstep : 0 ≤ startTimestep) (hc : c.isConnected = true) (hdata : s._sendData ≠ [])
    (h4 : s3.firstReceive k c = .ok (s4, c4)) :
    BaseCouplingScheme.initialize k s startTime startTimestep c
      = .ok ({ (if s4._hasToSendInitData
              then s4.requireAction k.actionWriteInitialData else s4) with
             _isInitialized := true }, c4) := by
  obtain ⟨hinit, h1, h2, h3⟩ := hscan
  have hne : s._sendData.isEmpty = false := by
    cases hd : s._sendData with
    | nil => exact absurd hd hdata
    | cons p m => rfl
  have a1 : assertion (!s._isInitialized) "initialize()" = .ok () := by
    rw [hinit]
    rfl
  have a3 : assertion (decide (startTimestep ≥ 0)) "initialize()" = .ok () := by
    simp [hstep, assertion_true]
  have a5 : preciceCheck (!s._sendData.isEmpty) "initialize()"
      "No send data configured! Use explicit scheme for one-way coupling." = .ok () := by
    rw [hne]
    rfl
  simp only [a1, htime, a3, hc, a5, BaseCouplingScheme.initialize, assertion_true, bind,
    Except.bind, h1, h2, h3, h4, pure, Except.pure]

/-- A run of `initializeData` that exchanges data, put together from its
steps. -/
theorem BaseCouplingScheme.initializeData_of_steps (k : Constants) (s : BaseCouplingScheme)
    (c : Communication) (s1 s2 : BaseCouplingScheme) (c1 c2 : Communication)
    (hinit : s._isInitialized = true)
    (hflags : (!s._hasToSendInitData && !s._hasToReceiveInitData) = false)
    (hcheck : (!(s._hasToSendInitData && s.isActionRequired k.actionWriteInitialData)) = true)
    (h1 : BaseCouplingScheme.receiveInitData k { s with _hasDataBeenExchanged := false } c
      = .ok (s1, c1))
    (h2 : s1.sendInitData k c1 = .ok (s2, c2)) :
    s.initializeData k c
      = .ok ({ s2 with _hasToSendInitData := false, _hasToReceiveInitData := false }, c2) := by
  have a1 : preciceCheck s._isInitialized "initializeData()"
      "initializeData() can be called after initialize() only!" = .ok () := by
    rw [hinit]
    rfl
  have a2 : preciceCheck (!(s._hasToSendInitData && s.isActionRequired k.actionWriteInitialData))
      "initializeData()"
      "InitialData has to be written to preCICE before calling initializeData()" = .ok () := by
    rw [hcheck]
    rfl
  simp only [BaseCouplingScheme.initializeData, a1, a2, hflags, bind, Except.bind, h1, h2, pure,
    Except.pure, Bool.false_eq_true, if_false]

theorem seedScheme_initialized :
    BaseCouplingScheme.initialize exampleConstants seedScheme 0 0 freshChannel
      = .ok (seedSchemeInitialized, freshChannel) := by
  have hge : tarch.la.greaterEquals 0 0 exampleConstants.NUMERICAL_ZERO_DIFFERENCE = true := by
    norm_num [tarch.la.greaterEquals, exampleConstants]
  rw [BaseCouplingScheme.initialize_of_steps exampleConstants seedScheme 0 0 freshChannel
    { seedSchemeInitialized with _hasToSendInitData := false, _isInitialized := false, _actions := [] }
    { seedSchemeInitialized with _isInitialized := false, _actions := ["write-iteration-checkpoint"] }
    _ _ freshChannel ⟨rfl, rfl, rfl, rfl⟩ hge le_rfl rfl (by simp [seedScheme]) rfl]
  simp only [BaseCouplingScheme.requireAction, setInsert, writeInitialData_lt, if_true,
    exampleConstants, seedSchemeInitialized]

theorem seedSchemeReady_eq :
    seedSchemeInitialized.performedAction exampleConstants.actionWriteInitialData
      = seedSchemeReady := by
  simp [BaseCouplingScheme.performedAction, setErase, seedSchemeInitialized, exampleConstants,
    seedSchemeReady]

theorem seedSchemeReady_initializeData :
    BaseCouplingScheme.initializeData exampleConstants seedSchemeReady freshChannel
      = .ok (seedSchemeDone, seedChannelDone) := by
  have h2 : BaseCouplingScheme.sendInitData exampleConstants
      { seedSchemeReady with _hasDataBeenExchanged := false } freshChannel
      = .ok ({ seedSchemeReady with _hasDataBeenExchanged := true }, seedChannelDone) := by
    unfold BaseCouplingScheme.sendInitData
    rw [isCouplingOngoing_unbounded _ rfl rfl]
    rfl
  rw [BaseCouplingScheme.initializeData_of_steps exampleConstants seedSchemeReady freshChannel
    _ _ _ _ rfl rfl rfl rfl h2]
  rfl

/-- C15, the code at the failing input. The second participant `seedScheme`
has the send data 1 (flagged `initialize`) and 2 and a convergence measure on
the data 2. `initialize(0, 0)` gives the data 2 one column of old values and
none to the data 1. Once the initial data is written, the scheme is
initialized, has to send initial data, has the action acknowledged and is
ongoing; `initializeData()` succeeds and sends the values [1] and [2]. The
loop over the send data ends at the data 1, which has no column, so the data 2
keeps the column of zeros: column 0 of its `oldValues` is [0], its values are
[2]. -/
theorem C15_code_at_failing_input :
    BaseCouplingScheme.initialize exampleConstants seedScheme 0 0 freshChannel
      = .ok (seedSchemeInitialized, freshChannel) ∧
    seedSchemeInitialized.performedAction exampleConstants.actionWriteInitialData
      = seedSchemeReady ∧
    seedSchemeReady._isInitialized = true ∧
    seedSchemeReady._hasToSendInitData = true ∧
    seedSchemeReady.isActionRequired exampleConstants.actionWriteInitialData = false ∧
    seedSchemeReady.isCouplingOngoing exampleConstants = true ∧
    BaseCouplingScheme.initializeData exampleConstants seedSchemeReady freshChannel
      = .ok (seedSchemeDone, seedChannelDone) ∧
    seedSchemeDone.getSendData 2
      = some { values := [2], oldValues := [[0]], initialize_ := false } ∧
    sentValues seedChannelDone.log = [Msg.doubles [1], Msg.doubles [2]] := by
  refine ⟨seedScheme_initialized, seedSchemeReady_eq, rfl, rfl, ?_,
    isCouplingOngoing_unbounded _ rfl rfl, seedSchemeReady_initializeData, rfl, rfl⟩
  cases h : seedSchemeReady.isActionRequired exampleConstants.actionWriteInitialData with
  | false => rfl
  | true =>
    rw [isActionRequired_iff] at h
    simp [seedSchemeReady, exampleConstants] at h

/-! ## Helper lemmas: what the wiring steps of `initialize` leave alone -/

theorem sameControl_refl (s : BaseCouplingScheme) : SameControl s s :=
  ⟨rfl, rfl, rfl, rfl, rfl, rfl, rfl, rfl, rfl, rfl⟩

theorem sameControl_trans {s₁ s₂ s₃ : BaseCouplingScheme} (h₁ : SameControl s₁ s₂)
    (h₂ : SameControl s₂ s₃) : SameControl s₁ s₃ :=
  ⟨h₂.maxTime.trans h₁.maxTime, h₂.maxTimesteps.trans h₁.maxTimesteps,
    h₂.validDigits.trans h₁.validDigits, h₂.time.trans h₁.time,
    h₂.timesteps.trans h₁.timesteps, h₂.timestepLength.trans h₁.timestepLength,
    h₂.participantReceivesDt.trans h₁.participantReceivesDt,
    h₂.hasDataBeenExchanged.trans h₁.hasDataBeenExchanged, h₂.actions.trans h₁.actions,
    h₂.measures.trans h₁.measures⟩

theorem sameControl_modify (s : BaseCouplingScheme) (ref : DataRef)
    (f : CouplingData → CouplingData) : SameControl s (s.modify ref f) := by
  cases ref <;> exact ⟨rfl, rfl, rfl, rfl, rfl, rfl, rfl, rfl, rfl, rfl⟩

namespace BaseCouplingScheme

theorem reserveConvergenceStorage_control (ms : List ConvergenceMeasure)
    (s s' : BaseCouplingScheme) (h : s.reserveConvergenceStorage ms = .ok s') :
    SameControl s s' := by
  induction ms generalizing s with
  | nil =>
    simp only [reserveConvergenceStorage] at h
    injection h with h
    subst h
    exact sameControl_refl s
  | cons m ms ih =>
    unfold reserveConvergenceStorage at h
    cases hd : m.data with
    | none => simp [hd] at h
    | some ref =>
      simp only [hd] at h
      cases hr : s.deref ref with
      | none => simp [hr] at h
      | some d =>
        simp only [hr] at h
        have := ih _ h
        split_ifs at this
        · exact sameControl_trans (sameControl_modify s ref _) this
        · exact this

theorem resolveMeasures_length (s : BaseCouplingScheme) (ms ms' : List ConvergenceMeasure)
    (h : s.resolveMeasures ms = .ok ms') : ms'.length = ms.length := by
  induction ms generalizing ms' with
  | nil =>
    simp only [resolveMeasures] at h
    injection h with h
    subst h
    rfl
  | cons m ms ih =>
    unfold resolveMeasures at h
    obtain ⟨m', _, h⟩ := (bind_eq_ok _ _ _).mp h
    obtain ⟨rest, hrest, h⟩ := (bind_eq_ok _ _ _).mp h
    simp only [pure, Except.pure] at h
    injection h with h
    subst h
    simp [ih rest hrest]

theorem setupConvergenceMeasures_control (s s' : BaseCouplingScheme)
    (h : s.setupConvergenceMeasures = .ok s') : SameControl s s' := by
  unfold setupConvergenceMeasures at h
  obtain ⟨_, _, h⟩ := (bind_eq_ok _ _ _).mp h
  obtain ⟨_, _, h⟩ := (bind_eq_ok _ _ _).mp h
  obtain ⟨ms, hms, h⟩ := (bind_eq_ok _ _ _).mp h
  simp only [pure, Except.pure] at h
  injection h with h
  subst h
  exact ⟨rfl, rfl, rfl, rfl, rfl, rfl, rfl, rfl, rfl, resolveMeasures_length s _ ms hms⟩

theorem setupDataMatrices_control (s s' : BaseCouplingScheme) (data : DataSide)
    (h : s.setupDataMatrices data = .ok s') : SameControl s s' := by
  unfold setupDataMatrices at h
  obtain ⟨s1, h1, h⟩ := (bind_eq_ok _ _ _).mp h
  have c1 := reserveConvergenceStorage_control _ s s1 h1
  split_ifs at h
  · cases data with
    | sendData =>
      obtain ⟨m, _, h⟩ := (bind_eq_ok _ _ _).mp h
      simp only [pure, Except.pure] at h
      injection h with h
      subst h
      exact sameControl_trans c1 ⟨rfl, rfl, rfl, rfl, rfl, rfl, rfl, rfl, rfl, rfl⟩
    | receiveData =>
      obtain ⟨m, _, h⟩ := (bind_eq_ok _ _ _).mp h
      simp only [pure, Except.pure] at h
      injection h with h
      subst h
      exact sameControl_trans c1 ⟨rfl, rfl, rfl, rfl, rfl, rfl, rfl, rfl, rfl, rfl⟩
  · simp only [pure, Except.pure] at h
    injection h with h
    subst h
    exact c1

theorem initializeSetup_control (s s' : BaseCouplingScheme)
    (h : s.initializeSetup = .ok s') : SameControl s s' := by
  unfold initializeSetup at h
  split_ifs at h
  · obtain ⟨s1, h1, h2⟩ := (bind_eq_ok _ _ _).mp h
    have c1 : SameControl s s1 := by
      unfold initializeStorage at h1
      split_ifs at h1
      · obtain ⟨s0, g1, g2⟩ := (bind_eq_ok _ _ _).mp h1
        exact sameControl_trans (setupConvergenceMeasures_control s s0 g1)
          (setupDataMatrices_control s0 s1 _ g2)
      · simp only [pure, Except.pure] at h1
        injection h1 with h1
        subst h1
        exact sameControl_refl s
    have c2 : SameControl s1 s' := by
      unfold initializePostProcessing at h2
      cases hpp : s1._postProcessing with
      | none =>
        simp only [hpp, pure, Except.pure] at h2
        injection h2 with h2
        subst h2
        exact sameControl_refl s1
      | some pp =>
        simp only [hpp] at h2
        obtain ⟨_, _, h3⟩ := (bind_eq_ok _ _ _).mp h2
        cases hm : pp.initialize_ s1._sendData with
        | none => simp [hm, preciceError] at h3
        | some m =>
          simp only [hm, pure, Except.pure] at h3
          injection h3 with h3
          subst h3
          exact ⟨rfl, rfl, rfl, rfl, rfl, rfl, rfl, rfl, rfl, rfl⟩
    exact sameControl_trans c1 c2
  · rw [(checkPostProcessing_spec s).1 s' h]
    exact sameControl_refl s

end BaseCouplingScheme

/-! ## Helper lemmas: the log of a receive package -/

theorem receivedValues_append (l₁ l₂ : List CommOp) :
    receivedValues (l₁ ++ l₂) = receivedValues l₁ ++ receivedValues l₂ := by
  induction l₁ with
  | nil => rfl
  | cons op l ih => cases op <;> simp [receivedValues, ih]

theorem isCouplingOngoing_congr (k : Constants) (s s' : BaseCouplingScheme)
    (h : SameClock s s') : s'.isCouplingOngoing k = s.isCouplingOngoing k := by
  simp only [BaseCouplingScheme.isCouplingOngoing, BaseCouplingScheme.eps, h.maxTime,
    h.maxTimesteps, h.validDigits, h.time, h.timesteps]

namespace BaseCouplingScheme

/-- The loop of `receiveData`: what it appends to the log and takes from the
unread values. -/
theorem receiveDataLoop_log (m : DataMap) (c : Communication) :
    ∀ m' ids c', receiveDataLoop m c = .ok (m', ids, c') →
      c'.log = c.log ++ receiveOps m' ∧
      c.inbox = receivedValues (receiveOps m') ++ c'.inbox := by
  induction m generalizing c with
  | nil =>
    intro m' ids c' h
    simp only [receiveDataLoop] at h
    injection h with h
    injection h with h1 h2
    injection h2 with _ h3
    subst h1 h3
    simp [receiveOps, receivedValues]
  | cons p m ih =>
    obtain ⟨id, d⟩ := p
    intro m' ids c' h
    unfold receiveDataLoop at h
    obtain ⟨⟨d1, c1⟩, h1, h2⟩ := (bind_eq_ok _ _ _).mp h
    obtain ⟨⟨rest, ids1, c2⟩, h3, h4⟩ := (bind_eq_ok _ _ _).mp h2
    simp only [pure, Except.pure] at h4
    injection h4 with h4
    injection h4 with hm h5
    injection h5 with _ hc
    subst hm hc
    obtain ⟨i1, i2⟩ := ih c1 rest ids1 c2 h3
    unfold receiveValues at h1
    dsimp only at h1
    split_ifs at h1 with hsize
    · obtain ⟨⟨xs, c3⟩, h6, h7⟩ := (bind_eq_ok _ _ _).mp h1
      simp only [pure, Except.pure] at h7
      injection h7 with h7
      injection h7 with hd hc
      subst hd hc
      unfold Communication.receiveDoubles at h6
      split at h6
      · rename_i ys tail hin
        split_ifs at h6 with hlen
        injection h6 with h6
        injection h6 with hx hc
        subst hx hc
        have hne : ys ≠ [] := by
          intro e
          rw [e] at hlen
          simp only [List.length_nil] at hlen
          rw [← hlen] at hsize
          simp at hsize
        have hops : receiveOps ((id, { d with values := ys }) :: rest)
            = CommOp.receive (.doubles ys) 0 :: receiveOps rest := by
          cases ys with
          | nil => exact absurd rfl hne
          | cons y ys => simp [receiveOps]
        rw [hops, i1, hin]
        simp only [Communication.pop] at i2 ⊢
        rw [i2]
        simp [receivedValues]
      · simp at h6
    · simp only [pure, Except.pure] at h1
      injection h1 with h1
      injection h1 with hd hc
      subst hd hc
      have hnil : d.values = [] := by
        cases hv : d.values with
        | nil => rfl
        | cons x xs =>
          rw [hv] at hsize
          simp only [List.length_cons, Nat.cast_add, Nat.cast_one, gt_iff_lt, not_lt] at hsize
          have : (0 : Int) ≤ (xs.length : Int) := Int.natCast_nonneg _
          omega
      have hops : receiveOps ((id, d) :: rest) = receiveOps rest := by
        simp [receiveOps, hnil]
      rw [hops]
      exact ⟨i1, i2⟩

/-- The receive package: what it appends to the log, what it takes from the
unread values, and what it leaves in the scheme. -/
theorem receivePackage_log (k : Constants) (s : BaseCouplingScheme) (c : Communication)
    (s' : BaseCouplingScheme) (c' : Communication) (h : s.receivePackage k c = .ok (s', c')) :
    s'._hasDataBeenExchanged = true ∧ SameClock s s' ∧
    ∃ dtOps, c'.log = c.log ++ [CommOp.startReceivePackage 0] ++ dtOps
        ++ receiveOps s'._receiveData ++ [CommOp.finishReceivePackage] ∧
      c.inbox = receivedValues (dtOps ++ receiveOps s'._receiveData) ++ c'.inbox ∧
      (s._participantReceivesDt = true →
        dtOps = [CommOp.receive (.double s'._timestepLength) 0]) ∧
      (s._participantReceivesDt = false →
        dtOps = [] ∧ s'._timestepLength = s._timestepLength) := by
  unfold receivePackage at h
  obtain ⟨⟨s1, c1⟩, h1, h2⟩ := (bind_eq_ok _ _ _).mp h
  obtain ⟨⟨s2, ids, c2⟩, h3, h4⟩ := (bind_eq_ok _ _ _).mp h2
  simp only [pure, Except.pure] at h4
  injection h4 with h4
  injection h4 with hs hc
  subst hs hc
  -- the receive of the data
  unfold receiveData at h3
  obtain ⟨_, _, h5⟩ := (bind_eq_ok _ _ _).mp h3
  obtain ⟨⟨data, ids1, c3⟩, h6, h7⟩ := (bind_eq_ok _ _ _).mp h5
  simp only [pure, Except.pure] at h7
  injection h7 with h7
  injection h7 with hs h8
  injection h8 with _ hc
  subst hs hc
  obtain ⟨l1, l2⟩ := receiveDataLoop_log _ _ _ _ _ h6
  -- the receive of the timestep length
  unfold receiveTimestepLength at h1
  cases hdt : s._participantReceivesDt with
  | true =>
    simp only [hdt, if_true] at h1
    obtain ⟨⟨dt, c4⟩, g1, g2⟩ := (bind_eq_ok _ _ _).mp h1
    obtain ⟨_, _, g3⟩ := (bind_eq_ok _ _ _).mp g2
    simp only [pure, Except.pure] at g3
    injection g3 with g3
    injection g3 with hs hc
    subst hs hc
    unfold Communication.receiveDouble at g1
    split at g1
    · rename_i x tail hin
      injection g1 with g1
      injection g1 with hx hc
      subst hx hc
      refine ⟨rfl, ⟨rfl, rfl, rfl, rfl, rfl⟩, [CommOp.receive (.double x) 0], ?_, ?_,
        fun _ => rfl, fun e => by simp at e⟩
      · simp only [Communication.finishReceivePackage, l1, Communication.pop,
          Communication.startReceivePackage]
      · simp only [Communication.startReceivePackage] at hin
        simp only [Communication.pop] at l2
        rw [hin, l2]
        simp [receivedValues, receivedValues_append, Communication.finishReceivePackage]
    · simp at g1
  | false =>
    simp only [hdt, Bool.false_eq_true, if_false, pure, Except.pure] at h1
    injection h1 with h1
    injection h1 with hs hc
    subst hs hc
    refine ⟨rfl, ⟨rfl, rfl, rfl, rfl, rfl⟩, [], ?_, ?_, fun e => by simp at e,
      fun _ => ⟨rfl, rfl⟩⟩
    · simp only [Communication.finishReceivePackage, l1, Communication.startReceivePackage]
      simp
    · simp only [Communication.startReceivePackage] at l2
      simpa using l2

end BaseCouplingScheme

/-- What the steps of `initialize` before the first receive leave of the clock,
the timestep length and the actions. -/
theorem BaseCouplingScheme.initializeScans_control (k : Constants) (s : BaseCouplingScheme)
    (startTime : ℚ) (startTimestep : Int) (s1 s2 s3 : BaseCouplingScheme)
    (h : BaseCouplingScheme.InitializeScans k s startTime startTimestep s1 s2 s3) :
    SameClock { s with _time := startTime, _timesteps := startTimestep } s3 ∧
    s3._timestepLength = s._timestepLength ∧
    s3._participantReceivesDt = s._participantReceivesDt ∧
    s3._hasDataBeenExchanged = s._hasDataBeenExchanged ∧
    s3._actions = (if s._convergenceMeasures = [] then s._actions
      else setInsert k.actionWriteIterationCheckpoint s._actions) := by
  obtain ⟨_, h1, h2, h3⟩ := h
  have c1 := BaseCouplingScheme.initializeSetup_control _ s1 h1
  generalize hs1' : (if !s1._convergenceMeasures.isEmpty
      then s1.requireAction k.actionWriteIterationCheckpoint else s1) = s1' at h2
  have hs2 : s2 = s1' ∨ s2 = { s1' with _hasToSendInitData := true } := by
    obtain ⟨a, b⟩ := (BaseCouplingScheme.scanSendData_spec s1' s1'._sendData).1 s2 h2
    by_cases hm : true ∈ initializeFlags s1'._sendData
    · exact Or.inr (a hm)
    · exact Or.inl (b hm)
  have hs3 : s3 = s2 ∨ s3 = { s2 with _hasToReceiveInitData := true } := by
    obtain ⟨a, b⟩ := (BaseCouplingScheme.scanReceiveData_spec s2._receiveData s2).1 s3 h3
    by_cases hm : true ∈ initializeFlags s2._receiveData
    · exact Or.inr (a hm)
    · exact Or.inl (b hm)
  have e3 : SameControl s1' s3 := by
    rcases hs2 with e2 | e2 <;> rcases hs3 with e | e <;> subst e <;> subst e2 <;>
      exact ⟨rfl, rfl, rfl, rfl, rfl, rfl, rfl, rfl, rfl, rfl⟩
  have hempty : s1._convergenceMeasures.isEmpty = s._convergenceMeasures.isEmpty := by
    have := c1.measures
    simp only at this
    cases hm1 : s1._convergenceMeasures <;> cases hm : s._convergenceMeasures <;>
      simp_all
  have e1 : SameClock s1 s1' ∧ s1'._timestepLength = s1._timestepLength ∧
      s1'._participantReceivesDt = s1._participantReceivesDt ∧
      s1'._hasDataBeenExchanged = s1._hasDataBeenExchanged ∧
      s1'._actions = (if s._convergenceMeasures = [] then s1._actions
        else setInsert k.actionWriteIterationCheckpoint s1._actions) := by
    rw [← hs1', hempty]
    cases hm : s._convergenceMeasures with
    | nil => exact ⟨⟨rfl, rfl, rfl, rfl, rfl⟩, rfl, rfl, rfl, rfl⟩
    | cons m ms => exact ⟨⟨rfl, rfl, rfl, rfl, rfl⟩, rfl, rfl, rfl, rfl⟩
  obtain ⟨k1, k2, k3, k4, k5⟩ := e1
  refine ⟨⟨?_, ?_, ?_, ?_, ?_⟩, ?_, ?_, ?_, ?_⟩
  · rw [e3.maxTime, k1.maxTime, c1.maxTime]
  · rw [e3.maxTimesteps, k1.maxTimesteps, c1.maxTimesteps]
  · rw [e3.validDigits, k1.validDigits, c1.validDigits]
  · rw [e3.time, k1.time, c1.time]
  · rw [e3.timesteps, k1.timesteps, c1.timesteps]
  · rw [e3.timestepLength, k2, c1.timestepLength]
  · rw [e3.participantReceivesDt, k3, c1.participantReceivesDt]
  · rw [e3.hasDataBeenExchanged, k4, c1.hasDataBeenExchanged]
  · rw [e3.actions, k5, c1.actions]

/-! ## C11: the first receive of `initialize` -/

theorem plainFirstScheme_initialized :
    BaseCouplingScheme.initialize exampleConstants plainFirstScheme 0 0 (channelWith [Msg.doubles [7]])
      = .ok ({ plainFirstScheme with _isInitialized := true }, channelWith [Msg.doubles [7]]) := by
  have hge : tarch.la.greaterEquals 0 0 exampleConstants.NUMERICAL_ZERO_DIFFERENCE = true := by
    norm_num [tarch.la.greaterEquals, exampleConstants]
  rw [BaseCouplingScheme.initialize_of_steps exampleConstants plainFirstScheme 0 0 _
    plainFirstScheme plainFirstScheme plainFirstScheme plainFirstScheme _ ⟨rfl, rfl, rfl, rfl⟩
    hge le_rfl rfl (by simp [plainFirstScheme]) rfl]
  rfl

theorem plainSecondScheme_initialized :
    BaseCouplingScheme.initialize exampleConstants plainSecondScheme 0 0 (channelWith [Msg.doubles [7]])
      = .ok ({ plainSecondScheme with
          _receiveData := [(2, { values := [7], oldValues := [], initialize_ := false })],
          _hasDataBeenExchanged := true, _isInitialized := true },
        { isConnected := true, inbox := [],
          log := [CommOp.startReceivePackage 0, CommOp.receive (.doubles [7]) 0,
            CommOp.finishReceivePackage] }) := by
  have hge : tarch.la.greaterEquals 0 0 exampleConstants.NUMERICAL_ZERO_DIFFERENCE = true := by
    norm_num [tarch.la.greaterEquals, exampleConstants]
  have h4 : BaseCouplingScheme.firstReceive exampleConstants plainSecondScheme
      (channelWith [Msg.doubles [7]])
      = .ok ({ plainSecondScheme with
          _receiveData := [(2, { values := [7], oldValues := [], initialize_ := false })],
          _hasDataBeenExchanged := true },
        { isConnected := true, inbox := [],
          log := [CommOp.startReceivePackage 0, CommOp.receive (.doubles [7]) 0,
            CommOp.finishReceivePackage] }) := by
    unfold BaseCouplingScheme.firstReceive
    rw [isCouplingOngoing_unbounded _ rfl rfl]
    rfl
  rw [BaseCouplingScheme.initialize_of_steps exampleConstants plainSecondScheme 0 0 _
    plainSecondScheme plainSecondScheme plainSecondScheme _ _ ⟨rfl, rfl, rfl, rfl⟩
    hge le_rfl rfl (by simp [plainSecondScheme, plainFirstScheme]) h4]
  rfl

/-- C11, refuted as stated: `initialize` succeeds on the first participant
`plainFirstScheme`, no initial-data send is pending and the coupling is
ongoing, but nothing is read from the channel (its log stays empty, the value
the peer wrote stays unread) and `hasDataBeenExchanged` stays false. -/
theorem C11_counterexample :
    ∃ s' c', BaseCouplingScheme.initialize exampleConstants plainFirstScheme 0 0
        (channelWith [Msg.doubles [7]]) = .ok (s', c') ∧
      s'._hasToSendInitData = false ∧
      s'.isCouplingOngoing exampleConstants = true ∧
      s'._hasDataBeenExchanged = false ∧
      c'.log = [] ∧ c'.inbox = [Msg.doubles [7]] :=
  ⟨_, _, plainFirstScheme_initialized, rfl, isCouplingOngoing_unbounded _ rfl rfl, rfl, rfl, rfl⟩

/-- C11, amended: for every scheme of a participant that does not do the first
step, on which `initialize` succeeds with no initial-data send pending
(`hasToSendInitData` false) and `isCouplingOngoing()` true, `initialize`
performs the first regular receive: it reads one receive package that consists
of the timestep length (only if this side receives dt, which it then stores as
`timestepLength`) followed by all receive data (every non-empty buffer, in the
order of the map), these values are taken from the channel, and
`hasDataBeenExchanged` is left true. -/
theorem C11_first_receive (k : Constants) (s : BaseCouplingScheme) (startTime : ℚ)
    (startTimestep : Int) (c : Communication) (s' : BaseCouplingScheme) (c' : Communication)
    (h : BaseCouplingScheme.initialize k s startTime startTimestep c = .ok (s', c'))
    (hfs : s._doesFirstStep = false)
    (hsend : s'._hasToSendInitData = false)
    (hon : s'.isCouplingOngoing k = true) :
    s'._hasDataBeenExchanged = true ∧
    ∃ dtOps, c'.log = c.log ++ [CommOp.startReceivePackage 0] ++ dtOps
        ++ receiveOps s'._receiveData ++ [CommOp.finishReceivePackage] ∧
      c.inbox = receivedValues (dtOps ++ receiveOps s'._receiveData) ++ c'.inbox ∧
      (s._participantReceivesDt = true →
        dtOps = [CommOp.receive (.double s'._timestepLength) 0]) ∧
      (s._participantReceivesDt = false →
        dtOps = [] ∧ s'._timestepLength = s._timestepLength) := by
  obtain ⟨s1, s2, s3, s4, hscan, h4, hs'⟩ :=
    BaseCouplingScheme.initialize_ok k s startTime startTimestep c s' c' h
  obtain ⟨g1, _⟩ :=
    BaseCouplingScheme.initializeScans_spec k s startTime startTimestep s1 s2 s3 hscan
  obtain ⟨_, q2, q3, _, _⟩ :=
    BaseCouplingScheme.initializeScans_control k s startTime startTimestep s1 s2 s3 hscan
  obtain ⟨r, _, _⟩ := BaseCouplingScheme.firstReceive_spec k s3 c s4 c' h4
  -- no initial-data send is pending in `s4`, so `s'` is `s4`, initialized
  have h4send : s4._hasToSendInitData = false := by
    cases hc : s4._hasToSendInitData with
    | false => rfl
    | true =>
      rw [hs'] at hsend
      simp [hc, BaseCouplingScheme.requireAction] at hsend
  have hs4 : s' = { s4 with _isInitialized := true } := by
    rw [hs']
    simp [h4send]
  have h3send : s3._hasToSendInitData = false := by
    rw [← r.hasToSendInitData, h4send]
  have h3fs : s3._doesFirstStep = false := by rw [g1, hfs]
  unfold BaseCouplingScheme.firstReceive at h4
  by_cases hcond : (!s3._doesFirstStep && !s3._hasToSendInitData && s3.isCouplingOngoing k) = true
  · rw [if_pos hcond] at h4
    obtain ⟨p1, _, dtOps, p3, p4, p5, p6⟩ :=
      BaseCouplingScheme.receivePackage_log k s3 c s4 c' h4
    subst hs4
    refine ⟨p1, dtOps, p3, p4, ?_, ?_⟩
    · intro hdt
      exact p5 (by rw [q3, hdt])
    · intro hdt
      obtain ⟨a, b⟩ := p6 (by rw [q3, hdt])
      exact ⟨a, by rw [← q2, ← b]⟩
  · rw [if_neg hcond] at h4
    simp only [pure, Except.pure] at h4
    injection h4 with h4
    injection h4 with e1 e2
    subst e1 e2
    subst hs4
    exfalso
    apply hcond
    have : s3.isCouplingOngoing k = true := by
      rw [← hon]
      exact (isCouplingOngoing_congr k s3 _ ⟨rfl, rfl, rfl, rfl, rfl⟩).symm
    simp [h3fs, h3send, this]

/-- C11 (amended) at a concrete input: the second participant
`plainSecondScheme` reads the values the peer wrote. -/
theorem C11_first_receive_witness :
    plainSecondScheme._doesFirstStep = false ∧
    ∃ s' c', BaseCouplingScheme.initialize exampleConstants plainSecondScheme 0 0
        (channelWith [Msg.doubles [7]]) = .ok (s', c') ∧
      s'._hasToSendInitData = false ∧
      s'.isCouplingOngoing exampleConstants = true ∧
      s'._hasDataBeenExchanged = true ∧
      s'._receiveData = [(2, { values := [7], oldValues := [], initialize_ := false })] ∧
      c'.inbox = [] := by
  refine ⟨rfl, _, _, plainSecondScheme_initialized, rfl, isCouplingOngoing_unbounded _ rfl rfl,
    ?_, rfl, rfl⟩
  exact (C11_first_receive exampleConstants plainSecondScheme 0 0 _ _ _
    plainSecondScheme_initialized rfl rfl (isCouplingOngoing_unbounded _ rfl rfl)).1

/-! ## C12: the actions `initialize` requires -/

/-- C12: for every scheme whose action set is empty before the call and on
which `initialize` succeeds, afterwards the "write iteration checkpoint" action
is required if and only if the scheme has at least one convergence measure, the
"write initial data" action is required if and only if an initial-data send is
pending (`hasToSendInitData`), and no other action is required. The two action
names are taken to differ. -/
theorem C12_initial_actions (k : Constants) (s : BaseCouplingScheme) (startTime : ℚ)
    (startTimestep : Int) (c : Communication) (s' : BaseCouplingScheme) (c' : Communication)
    (hnames : k.actionWriteIterationCheckpoint ≠ k.actionWriteInitialData)
    (hempty : s._actions = [])
    (h : BaseCouplingScheme.initialize k s startTime startTimestep c = .ok (s', c')) :
    (s'.isActionRequired k.actionWriteIterationCheckpoint = true ↔
      s._convergenceMeasures ≠ []) ∧
    (s'.isActionRequired k.actionWriteInitialData = true ↔ s'._hasToSendInitData = true) ∧
    (∀ t, s'.isActionRequired t = true →
      t = k.actionWriteIterationCheckpoint ∨ t = k.actionWriteInitialData) := by
  obtain ⟨s1, s2, s3, s4, hscan, h4, hs'⟩ :=
    BaseCouplingScheme.initialize_ok k s startTime startTimestep c s' c' h
  obtain ⟨_, _, _, _, q5⟩ :=
    BaseCouplingScheme.initializeScans_control k s startTime startTimestep s1 s2 s3 hscan
  obtain ⟨_, _, a4⟩ := BaseCouplingScheme.firstReceive_spec k s3 c s4 c' h4
  have hact : ∀ t, t ∈ s'._actions ↔
      (t = k.actionWriteInitialData ∧ s'._hasToSendInitData = true) ∨
      (t = k.actionWriteIterationCheckpoint ∧ s._convergenceMeasures ≠ []) := by
    intro t
    have h4a : ∀ t, t ∈ s4._actions ↔
        (t = k.actionWriteIterationCheckpoint ∧ s._convergenceMeasures ≠ []) := by
      intro t
      rw [a4, q5, hempty]
      split_ifs with hm
      · simp [hm]
      · simp [setInsert, hm]
    rw [hs']
    cases hc : s4._hasToSendInitData with
    | false => simp [h4a, hc]
    | true =>
      simp only [hc, if_true, BaseCouplingScheme.requireAction, mem_setInsert, h4a]
      simp
  refine ⟨?_, ?_, ?_⟩
  · rw [isActionRequired_iff, hact]
    constructor
    · rintro (⟨e, _⟩ | ⟨_, e⟩)
      · exact absurd e hnames
      · exact e
    · intro e
      exact Or.inr ⟨rfl, e⟩
  · rw [isActionRequired_iff, hact]
    constructor
    · rintro (⟨_, e⟩ | ⟨e, _⟩)
      · exact e
      · exact absurd e.symm hnames
    · intro e
      exact Or.inl ⟨rfl, e⟩
  · intro t ht
    rw [isActionRequired_iff, hact] at ht
    rcases ht with ⟨e, _⟩ | ⟨e, _⟩
    · exact Or.inr e
    · exact Or.inl e

/-- C12 at a concrete input: `seedScheme` has a convergence measure and a send
data flagged `initialize`; after `initialize` both actions are required. -/
theorem C12_initial_actions_witness :
    exampleConstants.actionWriteIterationCheckpoint ≠ exampleConstants.actionWriteInitialData ∧
    seedScheme._actions = [] ∧
    BaseCouplingScheme.initialize exampleConstants seedScheme 0 0 freshChannel
      = .ok (seedSchemeInitialized, freshChannel) ∧
    seedSchemeInitialized.isActionRequired exampleConstants.actionWriteIterationCheckpoint
      = true ∧
    seedSchemeInitialized.isActionRequired exampleConstants.actionWriteInitialData = true := by
  have hnames : exampleConstants.actionWriteIterationCheckpoint
      ≠ exampleConstants.actionWriteInitialData := by decide
  obtain ⟨h1, h2, _⟩ := C12_initial_actions exampleConstants seedScheme 0 0 freshChannel
    seedSchemeInitialized freshChannel hnames rfl seedScheme_initialized
  exact ⟨hnames, rfl, seedScheme_initialized, h1.mpr (by simp [seedScheme]), h2.mpr rfl⟩

/-! ## C21: the length of the next timestep -/

/-- C21, refuted as stated: in `tenthPartScheme` the timestep length is 1, of
which the double `0.1` has been computed. `getNextTimestepMaxLength()` and
`getThisTimestepRemainder()` return the double difference, the double `0.9`,
which is not `timestepLength - computedTimestepPart`. -/
theorem C21_counterexample :
    tenthPartScheme.hasTimestepLength exampleConstants = true ∧
    tenthPartScheme._timestepLength = 1 ∧
    tenthPartScheme._computedTimestepPart = doubleTenth ∧
    tenthPartScheme.getNextTimestepMaxLength exampleConstants = 8106479329266893 / 2 ^ 53 ∧
    tenthPartScheme.getThisTimestepRemainder exampleConstants = 8106479329266893 / 2 ^ 53 ∧
    tenthPartScheme.getNextTimestepMaxLength exampleConstants
      ≠ tenthPartScheme._timestepLength - tenthPartScheme._computedTimestepPart := by
  have hdef : tarch.la.equals tenthPartScheme._timestepLength
      exampleConstants.UNDEFINED_TIMESTEP_LENGTH exampleConstants.NUMERICAL_ZERO_DIFFERENCE
      = false := by
    simp only [tarch.la.equals, tenthPartScheme, exampleScheme, exampleConstants]
    norm_num [abs_le]
  have hnext : tenthPartScheme.getNextTimestepMaxLength exampleConstants
      = 8106479329266893 / 2 ^ 53 := by
    unfold BaseCouplingScheme.getNextTimestepMaxLength
    rw [hdef]
    exact sub_one_tenth
  have hrem : tenthPartScheme.getThisTimestepRemainder exampleConstants
      = 8106479329266893 / 2 ^ 53 := by
    rw [BaseCouplingScheme.getThisTimestepRemainder_of_length _ _ hdef]
    exact sub_one_tenth
  refine ⟨?_, rfl, rfl, hnext, hrem, ?_⟩
  · unfold BaseCouplingScheme.hasTimestepLength
    rw [hdef]
    rfl
  · rw [hnext]
    norm_num [tenthPartScheme, exampleScheme, doubleTenth]

/-- C21, amended: `getNextTimestepMaxLength()` is the double difference of
`timestepLength` and `computedTimestepPart`, the value of
`getThisTimestepRemainder()`, when a timestep length is defined
(`hasTimestepLength()`); it is the double difference of `maxTime` and `time`
when no timestep length is defined and `maxTime` is not the undefined sentinel
(as tested by `tarch::la::equals`); it is the largest finite double,
`(2 - 2^-52) * 2^1023`, when neither is defined; and
`getThisTimestepRemainder()` is 0 whenever no timestep length is defined. -/
theorem C21_next_timestep_max_length (k : Constants) (s : BaseCouplingScheme) :
    (s.hasTimestepLength k = true →
      s.getNextTimestepMaxLength k = k.sub s._timestepLength s._computedTimestepPart ∧
      s.getNextTimestepMaxLength k = s.getThisTimestepRemainder k) ∧
    (s.hasTimestepLength k = false →
      tarch.la.equals s._maxTime k.UNDEFINED_TIME k.NUMERICAL_ZERO_DIFFERENCE = false →
      s.getNextTimestepMaxLength k = k.sub s._maxTime s._time) ∧
    (s.hasTimestepLength k = false →
      tarch.la.equals s._maxTime k.UNDEFINED_TIME k.NUMERICAL_ZERO_DIFFERENCE = true →
      s.getNextTimestepMaxLength k = (2 - 1 / 2 ^ 52) * 2 ^ 1023) ∧
    (s.hasTimestepLength k = false → s.getThisTimestepRemainder k = 0) := by
  have hmax : numeric_limits_double_max = (2 - 1 / 2 ^ 52) * 2 ^ 1023 := by
    unfold numeric_limits_double_max
    norm_num
  unfold BaseCouplingScheme.hasTimestepLength BaseCouplingScheme.getNextTimestepMaxLength
    BaseCouplingScheme.getThisTimestepRemainder
  cases hl : tarch.la.equals s._timestepLength k.UNDEFINED_TIMESTEP_LENGTH
      k.NUMERICAL_ZERO_DIFFERENCE
  · refine ⟨fun _ => ⟨?_, ?_⟩, fun h => ?_, fun h => ?_, fun h => ?_⟩
    · simp
    · simp
    · simp at h
    · simp at h
    · simp at h
  · refine ⟨fun h => ?_, fun _ hm => ?_, fun _ hm => ?_, fun _ => ?_⟩
    · simp at h
    · simp [hm]
    · simp [hm, hmax]
    · simp

/-! ## Helper lemmas: the history storage -/

theorem lookup_updateEntry (dataID id : Int) (f : CouplingData → CouplingData) (m : DataMap) :
    (BaseCouplingScheme.updateEntry dataID f m).lookup id
      = if id = dataID then (m.lookup id).map f else m.lookup id := by
  induction m with
  | nil => simp [BaseCouplingScheme.updateEntry, List.lookup]
  | cons p m ih =>
    obtain ⟨i, e⟩ := p
    unfold BaseCouplingScheme.updateEntry
    by_cases hi : i = dataID
    · rw [if_pos hi]
      subst hi
      by_cases hid : id = i
      · subst hid
        simp [List.lookup]
      · have hne : (id == i) = false := by simpa using hid
        simp [List.lookup, hne, hid]
    · rw [if_neg hi]
      cases hji : (id == i) with
      | true =>
        have : id = i := by simpa using hji
        subst this
        simp [List.lookup, hi]
      | false => simp [List.lookup, hji, ih]

theorem deref_modify (s : BaseCouplingScheme) (ref ref' : DataRef)
    (f : CouplingData → CouplingData) :
    (s.modify ref f).deref ref' = if ref' = ref then (s.deref ref').map f else s.deref ref' := by
  cases ref with
  | sendData a =>
    cases ref' with
    | sendData b =>
      simp only [BaseCouplingScheme.modify, BaseCouplingScheme.deref, lookup_updateEntry,
        DataRef.sendData.injEq]
    | receiveData b => simp [BaseCouplingScheme.modify, BaseCouplingScheme.deref]
  | receiveData a =>
    cases ref' with
    | sendData b => simp [BaseCouplingScheme.modify, BaseCouplingScheme.deref]
    | receiveData b =>
      simp only [BaseCouplingScheme.modify, BaseCouplingScheme.deref, lookup_updateEntry,
        DataRef.receiveData.injEq]

theorem length_lt_one_iff (m : DataMatrix) : ((m.length : Int) < 1) ↔ m = [] := by
  cases m with
  | nil => simp
  | cons a l =>
    simp only [List.length_cons, Nat.cast_add, Nat.cast_one, reduceCtorEq, iff_false, not_lt]
    omega

/-- The first loop of `setupDataMatrices`, entry by entry: an entry without
columns to which a measure points gets one column of zeros, and every other
entry stays as it is. -/
theorem reserveConvergenceStorage_deref (ms : List ConvergenceMeasure)
    (s s' : BaseCouplingScheme) (h : s.reserveConvergenceStorage ms = .ok s') (ref : DataRef) :
    s'.deref ref = (s.deref ref).map (fun d =>
      if d.oldValues = [] ∧ measuredBy ms ref = true
      then BaseCouplingScheme.appendZeroColumns 1 d else d) := by
  induction ms generalizing s with
  | nil =>
    simp only [BaseCouplingScheme.reserveConvergenceStorage] at h
    injection h with h
    subst h
    simp [measuredBy]
  | cons m ms ih =>
    unfold BaseCouplingScheme.reserveConvergenceStorage at h
    cases hd : m.data with
    | none => simp [hd] at h
    | some r =>
      simp only [hd] at h
      cases hr : s.deref r with
      | none => simp [hr] at h
      | some d =>
        simp only [hr] at h
        rw [ih _ h]
        by_cases hcols : d.oldValues = []
        · rw [if_pos ((length_lt_one_iff _).mpr hcols), deref_modify]
          by_cases hrr : ref = r
          · subst hrr
            rw [if_pos rfl, hr]
            simp [measuredBy, hd, hcols, BaseCouplingScheme.appendZeroColumns, DataMatrix.filled]
          · rw [if_neg hrr]
            have hne : ¬ (r = ref) := fun e => hrr e.symm
            cases hx : s.deref ref with
            | none => rfl
            | some x => simp [measuredBy, hd, hne]
        · rw [if_neg (fun e => hcols ((length_lt_one_iff _).mp e))]
          by_cases hrr : ref = r
          · subst hrr
            rw [hr]
            simp [hcols]
          · have hne : ¬ (r = ref) := fun e => hrr e.symm
            cases hx : s.deref ref with
            | none => rfl
            | some x => simp [measuredBy, hd, hne]

theorem reserved_refl (p : Int × CouplingData) : Reserved p p :=
  ⟨rfl, rfl, rfl, Or.inl rfl⟩

theorem reserved_trans {p q r : Int × CouplingData} (h₁ : Reserved p q) (h₂ : Reserved q r) :
    Reserved p r := by
  obtain ⟨a1, a2, a3, a4⟩ := h₁
  obtain ⟨b1, b2, b3, b4⟩ := h₂
  refine ⟨b1.trans a1, b2.trans a2, b3.trans a3, ?_⟩
  rcases a4 with a4 | ⟨a4, a5⟩
  · rcases b4 with b4 | ⟨b4, b5⟩
    · exact Or.inl (b4.trans a4)
    · exact Or.inr ⟨a4 ▸ b4, by rw [b5, a2]⟩
  · rcases b4 with b4 | ⟨b4, b5⟩
    · exact Or.inr ⟨a4, b4.trans a5⟩
    · rw [a5] at b4
      cases b4

theorem forall₂_reserved_refl (m : DataMap) : List.Forall₂ Reserved m m := by
  induction m with
  | nil => exact List.Forall₂.nil
  | cons p m ih => exact List.Forall₂.cons (reserved_refl p) ih

theorem forall₂_reserved_trans {l₁ l₂ l₃ : DataMap} (h₁ : List.Forall₂ Reserved l₁ l₂)
    (h₂ : List.Forall₂ Reserved l₂ l₃) : List.Forall₂ Reserved l₁ l₃ := by
  induction h₁ generalizing l₃ with
  | nil =>
    cases h₂
    exact List.Forall₂.nil
  | cons hab _ ih =>
    cases h₂ with
    | cons hbc hrest => exact List.Forall₂.cons (reserved_trans hab hbc) (ih hrest)

theorem forall₂_reserved_updateEntry (dataID : Int) (d : CouplingData) (m : DataMap)
    (hd : m.lookup dataID = some d) (hcols : d.oldValues = []) :
    List.Forall₂ Reserved m
      (BaseCouplingScheme.updateEntry dataID (BaseCouplingScheme.appendZeroColumns 1) m) := by
  induction m with
  | nil => simp [List.lookup] at hd
  | cons p m ih =>
    obtain ⟨i, e⟩ := p
    unfold BaseCouplingScheme.updateEntry
    by_cases hi : i = dataID
    · rw [if_pos hi]
      subst hi
      simp only [List.lookup, beq_self_eq_true, Option.some.injEq] at hd
      subst hd
      refine List.Forall₂.cons ⟨rfl, rfl, rfl, Or.inr ⟨hcols, ?_⟩⟩ (forall₂_reserved_refl m)
      simp [BaseCouplingScheme.appendZeroColumns, DataMatrix.filled, hcols]
    · rw [if_neg hi]
      have hne : (dataID == i) = false := by simpa using fun e => hi e.symm
      simp only [List.lookup, hne] at hd
      exact List.Forall₂.cons (reserved_refl _) (ih hd)

/-- The first loop of `setupDataMatrices` keeps the entries of both maps in
place, with their keys, values and flags. -/
theorem reserveConvergenceStorage_reserved (ms : List ConvergenceMeasure)
    (s s' : BaseCouplingScheme) (h : s.reserveConvergenceStorage ms = .ok s') :
    List.Forall₂ Reserved s._sendData s'._sendData ∧
    List.Forall₂ Reserved s._receiveData s'._receiveData := by
  induction ms generalizing s with
  | nil =>
    simp only [BaseCouplingScheme.reserveConvergenceStorage] at h
    injection h with h
    subst h
    exact ⟨forall₂_reserved_refl _, forall₂_reserved_refl _⟩
  | cons m ms ih =>
    unfold BaseCouplingScheme.reserveConvergenceStorage at h
    cases hd : m.data with
    | none => simp [hd] at h
    | some r =>
      simp only [hd] at h
      cases hr : s.deref r with
      | none => simp [hr] at h
      | some d =>
        simp only [hr] at h
        obtain ⟨i1, i2⟩ := ih _ h
        by_cases hcols : d.oldValues = []
        · rw [if_pos ((length_lt_one_iff _).mpr hcols)] at i1 i2
          cases r with
          | sendData a =>
            exact ⟨forall₂_reserved_trans (forall₂_reserved_updateEntry a d _ hr hcols) i1, i2⟩
          | receiveData a =>
            exact ⟨i1, forall₂_reserved_trans (forall₂_reserved_updateEntry a d _ hr hcols) i2⟩
        · rw [if_neg (fun e => hcols ((length_lt_one_iff _).mp e))] at i1 i2
          exact ⟨i1, i2⟩

/-- The first loop of `setupDataMatrices` succeeds exactly when every measure
points to an entry. -/
theorem reserveConvergenceStorage_isOk (ms : List ConvergenceMeasure) (s : BaseCouplingScheme) :
    (∃ s', s.reserveConvergenceStorage ms = .ok s') ↔
      ∀ m ∈ ms, ∃ ref, m.data = some ref ∧ (s.deref ref).isSome = true := by
  induction ms generalizing s with
  | nil => simp [BaseCouplingScheme.reserveConvergenceStorage]
  | cons m ms ih =>
    unfold BaseCouplingScheme.reserveConvergenceStorage
    cases hd : m.data with
    | none => simp [hd]
    | some r =>
      simp only
      cases hr : s.deref r with
      | none => simp [hd, hr]
      | some d =>
        simp only [ih]
        have hsame : ∀ ref,
            ((if (d.oldValues.length : Int) < 1
              then s.modify r (BaseCouplingScheme.appendZeroColumns 1) else s).deref ref).isSome
            = (s.deref ref).isSome := by
          intro ref
          split_ifs
          · rw [deref_modify]
            split_ifs
            · cases s.deref ref <;> rfl
            · rfl
          · rfl
        simp only [hsame, List.mem_cons, forall_eq_or_imp, hd, Option.some.injEq, exists_eq_left',
          hr, Option.isSome_some, true_and]

theorem forall₂_reserved_spec (m m' : DataMap) (h : List.Forall₂ Reserved m m')
    (hzero : ∀ p ∈ m, p.2.oldValues = []) :
    m'.map (fun p => (p.1, p.2.values)) = m.map (fun p => (p.1, p.2.values)) ∧
    ∀ p ∈ m', p.2.oldValues = [] ∨ p.2.oldValues = [List.replicate p.2.values.length 0] := by
  induction h with
  | nil => simp
  | @cons a b l l' hab _ ih =>
    obtain ⟨i1, i2⟩ := ih (fun p hp => hzero p (List.mem_cons_of_mem _ hp))
    obtain ⟨a1, a2, _, a4⟩ := hab
    have ha := hzero a (List.mem_cons_self _ _)
    constructor
    · simp only [List.map_cons, i1, a1, a2]
    · intro p hp
      rcases List.mem_cons.mp hp with hp | hp
      · subst hp
        rcases a4 with a4 | ⟨_, a5⟩
        · exact Or.inl (a4.trans ha)
        · exact Or.inr (by rw [a5, a2])
      · exact i2 p hp

/-- The second loop of `setupDataMatrices`: it succeeds when no entry has more
than one column, and it then fills every entry up. -/
theorem reserveExtrapolationStorage_ok_iff (order : Int) (m m' : DataMap) :
    BaseCouplingScheme.reserveExtrapolationStorage order m = .ok m' ↔
      (∀ p ∈ m, (p.2.oldValues.length : Int) ≤ 1) ∧
      m' = m.map (fun p => (p.1, BaseCouplingScheme.appendZeroColumns
        (order + 1 - (p.2.oldValues.length : Int)).toNat p.2)) := by
  induction m generalizing m' with
  | nil =>
    simp only [BaseCouplingScheme.reserveExtrapolationStorage, List.not_mem_nil, false_implies,
      implies_true, List.map_nil, true_and]
    constructor
    · intro h
      injection h with h
      exact h.symm
    · intro h
      rw [h]
  | cons p m ih =>
    obtain ⟨i, d⟩ := p
    unfold BaseCouplingScheme.reserveExtrapolationStorage
    simp only [bind_eq_ok, List.mem_cons, forall_eq_or_imp,
      List.map_cons, ih, pure, Except.pure]
    constructor
    · rintro ⟨u, hc, rest, ⟨hall, hrest⟩, h⟩
      cases u
      injection h with h
      subst hrest
      exact ⟨⟨by simpa using (assertion_eq_ok _ _).mp hc, hall⟩, h.symm⟩
    · rintro ⟨⟨hc, hall⟩, h⟩
      exact ⟨(), (assertion_eq_ok _ _).mpr (by simpa using hc), _, ⟨hall, rfl⟩, by rw [h]⟩

theorem mem_of_lookup (m : DataMap) (i : Int) (d : CouplingData) (h : m.lookup i = some d) :
    (i, d) ∈ m := by
  induction m with
  | nil => simp [List.lookup] at h
  | cons p m ih =>
    obtain ⟨j, e⟩ := p
    cases hij : (i == j) with
    | true =>
      have : i = j := by simpa using hij
      subst this
      simp only [List.lookup, hij, Option.some.injEq] at h
      subst h
      exact List.mem_cons_self _ _
    | false =>
      simp only [List.lookup, hij] at h
      exact List.mem_cons_of_mem _ (ih h)

theorem lookup_of_mem (m : DataMap) (hkeys : (m.map Prod.fst).Nodup) (i : Int)
    (d : CouplingData) (h : (i, d) ∈ m) : m.lookup i = some d := by
  induction m with
  | nil => simp at h
  | cons p m ih =>
    obtain ⟨j, e⟩ := p
    simp only [List.map_cons, List.nodup_cons, List.mem_map, Prod.exists, exists_and_right,
      exists_eq_right, not_exists] at hkeys
    rcases List.mem_cons.mp h with hhead | htail
    · injection hhead with h1 h2
      subst h1 h2
      simp [List.lookup]
    · have hne : (i == j) = false := by
        simp only [beq_eq_false_iff_ne, ne_eq]
        intro e'
        subst e'
        exact hkeys.1 d htail
      simp only [List.lookup, hne]
      exact ih hkeys.2 htail

theorem deref_ref (s : BaseCouplingScheme) (data : BaseCouplingScheme.DataSide) (dataID : Int) :
    s.deref (data.ref dataID) = (data.entries s).lookup dataID := by
  cases data <;> rfl

theorem setExtrapolationOrder_ok (s s' : BaseCouplingScheme) (order : Int)
    (h : s.setExtrapolationOrder order = .ok s') :
    (order = 0 ∨ order = 1 ∨ order = 2) ∧ s' = { s with _extrapolationOrder := order } := by
  unfold BaseCouplingScheme.setExtrapolationOrder at h
  obtain ⟨u, h1, h2⟩ := (bind_eq_ok _ _ _).mp h
  cases u
  rw [preciceCheck_eq_ok] at h1
  simp only [pure, Except.pure] at h2
  injection h2 with h2
  refine ⟨?_, h2.symm⟩
  simpa [or_assoc] using h1

/-- The two loops of `setupDataMatrices(data)`. -/
theorem setupDataMatrices_ok_iff (s s' : BaseCouplingScheme)
    (data : BaseCouplingScheme.DataSide) :
    s.setupDataMatrices data = .ok s' ↔
      ∃ s1, s.reserveConvergenceStorage s._convergenceMeasures = .ok s1 ∧
        if s1._extrapolationOrder > 0 then
          ∃ m, BaseCouplingScheme.reserveExtrapolationStorage s1._extrapolationOrder
              (data.entries s1) = .ok m ∧
            s' = (match data with
              | .sendData => { s1 with _sendData := m }
              | .receiveData => { s1 with _receiveData := m })
        else s' = s1 := by
  unfold BaseCouplingScheme.setupDataMatrices
  rw [bind_eq_ok]
  refine exists_congr (fun s1 => and_congr_right (fun _ => ?_))
  split_ifs with hord
  · cases data with
    | sendData =>
      simp only [BaseCouplingScheme.DataSide.entries]
      rw [bind_eq_ok]
      refine exists_congr (fun m => and_congr_right (fun _ => ?_))
      simp only [pure, Except.pure, Except.ok.injEq]
      exact eq_comm
    | receiveData =>
      simp only [BaseCouplingScheme.DataSide.entries]
      rw [bind_eq_ok]
      refine exists_congr (fun m => and_congr_right (fun _ => ?_))
      simp only [pure, Except.pure, Except.ok.injEq]
      exact eq_comm
  · simp only [pure, Except.pure, Except.ok.injEq]
    exact eq_comm

theorem entries_setupDataMatrices (s1 : BaseCouplingScheme) (data : BaseCouplingScheme.DataSide)
    (m : DataMap) :
    data.entries (match data with
      | .sendData => { s1 with _sendData := m }
      | .receiveData => { s1 with _receiveData := m }) = m := by
  cases data <;> rfl

theorem forall₂_reserved_entries (s s1 : BaseCouplingScheme) (data : BaseCouplingScheme.DataSide)
    (h : s.reserveConvergenceStorage s._convergenceMeasures = .ok s1) :
    List.Forall₂ Reserved (data.entries s) (data.entries s1) := by
  obtain ⟨h1, h2⟩ := reserveConvergenceStorage_reserved _ s s1 h
  cases data
  · exact h1
  · exact h2

/-! ## C22: the columns of the history storage -/

/-- C22, amended: let the extrapolation order be set by
`setExtrapolationOrder(order)` (so `order` is 0, 1 or 2) and let no entry of
the map `data` have an `oldValues` column. Then `setupDataMatrices(data)`
succeeds exactly when every convergence measure points to an entry, and after
it the map has the keys and values it had, every `oldValues` column of its
entries has as many rows as the entry's values and is filled with zeros, and
the number of columns is `1 + order` for every entry if `order` is 1 or 2,
while for `order` 0 (the keys of the map being distinct) it is 1 for the
entries a convergence measure points to and 0 for all others. -/
theorem C22_setupDataMatrices_columns (s0 s : BaseCouplingScheme) (order : Int)
    (data : BaseCouplingScheme.DataSide)
    (hset : s0.setExtrapolationOrder order = .ok s)
    (hzero : ∀ p ∈ data.entries s, p.2.oldValues = []) :
    (order = 0 ∨ order = 1 ∨ order = 2) ∧
    ((∃ s', s.setupDataMatrices data = .ok s') ↔ s.MeasuresResolved) ∧
    ∀ s', s.setupDataMatrices data = .ok s' →
      (data.entries s').map (fun p => (p.1, p.2.values))
        = (data.entries s).map (fun p => (p.1, p.2.values)) ∧
      (∀ p ∈ data.entries s', ∀ column ∈ p.2.oldValues,
        column = List.replicate p.2.values.length 0) ∧
      (order ≠ 0 → ∀ p ∈ data.entries s', (p.2.oldValues.length : Int) = 1 + order) ∧
      (order = 0 → ((data.entries s).map Prod.fst).Nodup → ∀ p ∈ data.entries s',
        p.2.oldValues.length
          = if measuredBy s._convergenceMeasures (data.ref p.1) then 1 else 0) := by
  obtain ⟨horder, hs⟩ := setExtrapolationOrder_ok s0 s order hset
  have hord : s._extrapolationOrder = order := by rw [hs]
  -- after the first loop no entry has more than one column
  have first : ∀ s1, s.reserveConvergenceStorage s._convergenceMeasures = .ok s1 →
      s1._extrapolationOrder = order ∧
      (data.entries s1).map (fun p => (p.1, p.2.values))
        = (data.entries s).map (fun p => (p.1, p.2.values)) ∧
      ∀ p ∈ data.entries s1,
        p.2.oldValues = [] ∨ p.2.oldValues = [List.replicate p.2.values.length 0] := by
    intro s1 h1
    obtain ⟨f1, f2⟩ := forall₂_reserved_spec _ _ (forall₂_reserved_entries s s1 data h1) hzero
    exact ⟨((BaseCouplingScheme.reserveConvergenceStorage_spec _ s).1 s1 h1).2.trans hord, f1, f2⟩
  have cols : ∀ s1, s.reserveConvergenceStorage s._convergenceMeasures = .ok s1 →
      ∀ p ∈ data.entries s1, (p.2.oldValues.length : Int) ≤ 1 := by
    intro s1 h1 p hp
    rcases (first s1 h1).2.2 p hp with e | e <;> rw [e] <;> simp
  refine ⟨horder, ?_, ?_⟩
  · constructor
    · rintro ⟨s', h⟩
      obtain ⟨s1, h1, _⟩ := (setupDataMatrices_ok_iff s s' data).mp h
      exact (reserveConvergenceStorage_isOk _ s).mp ⟨s1, h1⟩
    · intro hres
      obtain ⟨s1, h1⟩ := (reserveConvergenceStorage_isOk _ s).mpr hres
      by_cases hpos : s1._extrapolationOrder > 0
      · have hm := (reserveExtrapolationStorage_ok_iff s1._extrapolationOrder (data.entries s1)
          _).mpr ⟨cols s1 h1, rfl⟩
        exact ⟨_, (setupDataMatrices_ok_iff s _ data).mpr
          ⟨s1, h1, (if_pos hpos).mpr ⟨_, hm, rfl⟩⟩⟩
      · refine ⟨s1, (setupDataMatrices_ok_iff s s1 data).mpr ⟨s1, h1, ?_⟩⟩
        rw [if_neg hpos]
  · intro s' h
    obtain ⟨s1, h1, h2⟩ := (setupDataMatrices_ok_iff s s' data).mp h
    obtain ⟨f0, f1, f2⟩ := first s1 h1
    by_cases hpos : s1._extrapolationOrder > 0
    · rw [if_pos hpos] at h2
      obtain ⟨m, hm, hs'⟩ := h2
      obtain ⟨_, hm⟩ := (reserveExtrapolationStorage_ok_iff _ _ _).mp hm
      have he : data.entries s' = m := by
        rw [hs']
        exact entries_setupDataMatrices s1 data m
      rw [he, hm, f0]
      have hne : order ≠ 0 := by
        rw [f0] at hpos
        exact ne_of_gt hpos
      refine ⟨?_, ?_, ?_, fun h0 => absurd h0 hne⟩
      · rw [← f1, List.map_map]
        rfl
      · intro p hp column hc
        obtain ⟨q, hq, rfl⟩ := List.mem_map.mp hp
        simp only [BaseCouplingScheme.appendZeroColumns, DataMatrix.filled, List.mem_append,
          List.mem_replicate] at hc ⊢
        rcases hc with hc | hc
        · rcases f2 q hq with e | e
          · rw [e] at hc
            simp at hc
          · rw [e] at hc
            simpa using hc
        · exact hc.2
      · intro _ p hp
        obtain ⟨q, hq, rfl⟩ := List.mem_map.mp hp
        have hq1 := cols s1 h1 q hq
        simp only [BaseCouplingScheme.appendZeroColumns, DataMatrix.filled, List.length_append,
          List.length_replicate, Nat.cast_add]
        rw [Int.toNat_of_nonneg (by rw [f0] at hpos; omega)]
        ring
    · rw [if_neg hpos] at h2
      subst h2
      have h0 : order = 0 := by
        rw [f0] at hpos
        rcases horder with e | e | e <;> omega
      refine ⟨f1, ?_, fun hne => absurd h0 hne, ?_⟩
      · intro p hp column hc
        rcases f2 p hp with e | e
        · rw [e] at hc
          simp at hc
        · rw [e] at hc
          simpa using hc
      · intro _ hkeys p hp
        have hkeys' : ((data.entries s').map Prod.fst).Nodup := by
          have e : (data.entries s').map Prod.fst = (data.entries s).map Prod.fst := by
            have := congrArg (List.map Prod.fst) f1
            simpa only [List.map_map] using this
          rw [e]
          exact hkeys
        have hl := lookup_of_mem _ hkeys' p.1 p.2 hp
        rw [← deref_ref, reserveConvergenceStorage_deref _ s s' h1, deref_ref] at hl
        cases hd : (data.entries s).lookup p.1 with
        | none => simp [hd] at hl
        | some d =>
          have hd0 : d.oldValues = [] := hzero _ (mem_of_lookup _ _ _ hd)
          simp only [hd, Option.map_some', hd0, true_and, Option.some.injEq] at hl
          rw [← hl]
          by_cases hm : measuredBy s._convergenceMeasures (data.ref p.1) = true
          · rw [if_pos hm, if_pos hm]
            simp [BaseCouplingScheme.appendZeroColumns, DataMatrix.filled, hd0]
          · rw [if_neg hm, if_neg hm]
            simp [hd0]

/-- C22, refuted as stated: `historyScheme` has extrapolation order 0 (set
by `setExtrapolationOrder(0)`) and no entry of its send data has an
`oldValues` column. `setupDataMatrices` for the send data succeeds, and after
it send data 1, to which no convergence measure points, still has no column
instead of `1 + 0`. -/
theorem C22_counterexample :
    historyScheme.setExtrapolationOrder 0 = .ok historyScheme ∧
    (∀ p ∈ historyScheme._sendData, p.2.oldValues.length = 0) ∧
    historyScheme.setupDataMatrices .sendData = .ok historySchemeAfter ∧
    (∃ p ∈ historySchemeAfter._sendData, p.2.oldValues.length = 0) ∧
    ¬ (∀ p ∈ historySchemeAfter._sendData, (p.2.oldValues.length : Int) = 1 + 0) := by
  refine ⟨rfl, ?_, rfl, ?_, ?_⟩
  · simp [historyScheme]
  · simp [historySchemeAfter]
  · simp [historySchemeAfter]

/-- C22 at a concrete input: with extrapolation order 1, `setupDataMatrices`
gives both send data of `historyScheme` two columns. -/
theorem C22_setupDataMatrices_columns_witness :
    historyScheme.setExtrapolationOrder 1 = .ok { historyScheme with _extrapolationOrder := 1 } ∧
    (∀ p ∈ historyScheme._sendData, p.2.oldValues = []) ∧
    ∃ s', BaseCouplingScheme.setupDataMatrices { historyScheme with _extrapolationOrder := 1 }
        .sendData = .ok s' ∧
      ∀ p ∈ s'._sendData, (p.2.oldValues.length : Int) = 1 + 1 := by
  have hzero : ∀ p ∈ historyScheme._sendData, p.2.oldValues = [] := by
    simp [historyScheme]
  have h := C22_setupDataMatrices_columns historyScheme
    { historyScheme with _extrapolationOrder := 1 } 1 .sendData rfl hzero
  have hres : BaseCouplingScheme.MeasuresResolved
      { historyScheme with _extrapolationOrder := 1 } := by
    intro m hm
    simp only [historyScheme, List.mem_singleton] at hm
    subst hm
    exact ⟨_, rfl, rfl⟩
  obtain ⟨s', hs'⟩ := h.2.1.mpr hres
  exact ⟨rfl, hzero, s', hs', (h.2.2 s' hs').2.2.1 (by decide)⟩

/-! ## C23: the direction of the initial data -/

/-- A configured scheme is not initialized, and neither of its initial-data
flags is set. -/
theorem BaseCouplingScheme.configured_flags (k : Constants) (s : BaseCouplingScheme)
    (h : BaseCouplingScheme.Configured k s) :
    s._isInitialized = false ∧ s._hasToSendInitData = false ∧
      s._hasToReceiveInitData = false := by
  induction h with
  | built maxTime maxTimesteps timestepLength validDigits firstParticipant secondParticipant
      localParticipant communication maxIterations dtMethod s hs =>
    obtain ⟨_, _, _, hres, _⟩ := (BaseCouplingScheme.constructParticipant_ok_iff k maxTime
      maxTimesteps timestepLength validDigits firstParticipant secondParticipant localParticipant
      communication maxIterations dtMethod s).mp hs
    obtain ⟨_, hs'⟩ := BaseCouplingScheme.resolveParticipant_ok k _ s localParticipant dtMethod hres
    rw [hs']
    split_ifs <;> exact ⟨rfl, rfl, rfl⟩
  | sendAdded s data flag _ ih =>
    rw [BaseCouplingScheme.addDataToSend_eq]
    split_ifs <;> exact ih
  | receiveAdded s data flag _ ih =>
    rw [BaseCouplingScheme.addDataToReceive_eq]
    split_ifs <;> exact ih
  | orderSet s s' order _ hset ih =>
    rw [(setExtrapolationOrder_ok s s' order hset).2]
    exact ih
  | measuresSet s measures _ ih => exact ih
  | postProcessingSet s postProcessing _ ih => exact ih

namespace BaseCouplingScheme

theorem receiveData_isInitialized (s : BaseCouplingScheme) (c : Communication)
    (s' : BaseCouplingScheme) (ids : List Int) (c' : Communication)
    (h : s.receiveData c = .ok (s', ids, c')) : s'._isInitialized = s._isInitialized := by
  unfold receiveData at h
  obtain ⟨_, _, h2⟩ := (bind_eq_ok _ _ _).mp h
  obtain ⟨⟨data, ids1, c1⟩, _, h4⟩ := (bind_eq_ok _ _ _).mp h2
  simp only [pure, Except.pure] at h4
  injection h4 with h4
  injection h4 with h4 _
  subst h4
  rfl

theorem receivePackage_isInitialized (k : Constants) (s : BaseCouplingScheme)
    (c : Communication) (s' : BaseCouplingScheme) (c' : Communication)
    (h : s.receivePackage k c = .ok (s', c')) : s'._isInitialized = s._isInitialized := by
  unfold receivePackage at h
  obtain ⟨⟨s1, c1⟩, h1, h2⟩ := (bind_eq_ok _ _ _).mp h
  obtain ⟨⟨s2, ids, c2⟩, h3, h4⟩ := (bind_eq_ok _ _ _).mp h2
  simp only [pure, Except.pure] at h4
  injection h4 with h4
  injection h4 with h4 _
  subst h4
  have r1 : s1._isInitialized = s._isInitialized := by
    unfold receiveTimestepLength at h1
    split_ifs at h1
    · obtain ⟨⟨dt, c3⟩, _, h6⟩ := (bind_eq_ok _ _ _).mp h1
      obtain ⟨_, _, h8⟩ := (bind_eq_ok _ _ _).mp h6
      simp only [pure, Except.pure] at h8
      injection h8 with h8
      injection h8 with h8 _
      subst h8
      rfl
    · simp only [pure, Except.pure] at h1
      injection h1 with h1
      injection h1 with h1 _
      subst h1
      rfl
  exact (receiveData_isInitialized s1 c1 s2 ids c2 h3).trans r1

end BaseCouplingScheme

theorem BaseCouplingScheme.receiveInitData_isInitialized (k : Constants)
    (s : BaseCouplingScheme) (c : Communication) (s' : BaseCouplingScheme) (c' : Communication)
    (h : s.receiveInitData k c = .ok (s', c')) : s'._isInitialized = s._isInitialized := by
  unfold BaseCouplingScheme.receiveInitData at h
  split_ifs at h
  · obtain ⟨_, _, h2⟩ := (bind_eq_ok _ _ _).mp h
    exact BaseCouplingScheme.receivePackage_isInitialized k s c s' c' h2
  · simp only [pure, Except.pure] at h
    injection h with h
    injection h with h _
    subst h
    rfl

theorem BaseCouplingScheme.sendInitData_isInitialized (k : Constants)
    (s : BaseCouplingScheme) (c : Communication) (s' : BaseCouplingScheme) (c' : Communication)
    (h : s.sendInitData k c = .ok (s', c')) : s'._isInitialized = s._isInitialized := by
  unfold BaseCouplingScheme.sendInitData at h
  split_ifs at h
  · obtain ⟨_, _, h2⟩ := (bind_eq_ok _ _ _).mp h
    obtain ⟨⟨ids, c1⟩, _, h3⟩ := (bind_eq_ok _ _ _).mp h2
    obtain ⟨⟨s2, ids2, c2⟩, h4, h5⟩ := (bind_eq_ok _ _ _).mp h3
    simp only [pure, Except.pure] at h5
    injection h5 with h5
    injection h5 with h5 _
    subst h5
    have e := BaseCouplingScheme.receiveData_isInitialized _ _ s2 ids2 c2 h4
    exact e
  · simp only [pure, Except.pure] at h
    injection h with h
    injection h with h _
    subst h
    rfl

/-- A successful `initializeData` needs an initialized scheme and leaves it
initialized, with neither initial-data flag set. -/
theorem BaseCouplingScheme.initializeData_ok (k : Constants) (s : BaseCouplingScheme)
    (c : Communication) (s' : BaseCouplingScheme) (c' : Communication)
    (h : s.initializeData k c = .ok (s', c')) :
    s'._isInitialized = true ∧ s'._hasToSendInitData = false ∧
      s'._hasToReceiveInitData = false := by
  unfold BaseCouplingScheme.initializeData at h
  obtain ⟨_, hinit, h⟩ := (bind_eq_ok _ _ _).mp h
  rw [preciceCheck_ok_unit] at hinit
  split_ifs at h with hflags
  · simp only [pure, Except.pure] at h
    injection h with h
    injection h with h _
    subst h
    simp only [Bool.and_eq_true, Bool.not_eq_true'] at hflags
    exact ⟨hinit, hflags.1, hflags.2⟩
  · obtain ⟨_, _, h⟩ := (bind_eq_ok _ _ _).mp h
    obtain ⟨⟨s1, c1⟩, h1, h⟩ := (bind_eq_ok _ _ _).mp h
    obtain ⟨⟨s2, c2⟩, h2, h⟩ := (bind_eq_ok _ _ _).mp h
    simp only [pure, Except.pure] at h
    injection h with h
    injection h with h _
    subst h
    refine ⟨?_, rfl, rfl⟩
    have e1 := BaseCouplingScheme.receiveInitData_isInitialized k _ c s1 c1 h1
    have e2 := BaseCouplingScheme.sendInitData_isInitialized k s1 c1 s2 c2 h2
    exact (e2.trans e1).trans hinit

/-- C23: for every scheme the participant constructor has built and the
configuration calls have filled, after a successful `initialize` the flags
`hasToSendInitData` and `hasToReceiveInitData` are not both true,
`hasToSendInitData` implies that the local participant does not do the first
step, and `hasToReceiveInitData` implies that it does. After every successful
`initializeData` both flags are false, and a second `initializeData` call
succeeds and changes neither the scheme nor the channel. -/
theorem C23_initial_data_one_way (k : Constants) (s : BaseCouplingScheme)
    (hbuilt : BaseCouplingScheme.Configured k s) :
    (∀ startTime startTimestep c s' c',
      BaseCouplingScheme.initialize k s startTime startTimestep c = .ok (s', c') →
      ¬ (s'._hasToSendInitData = true ∧ s'._hasToReceiveInitData = true) ∧
      (s'._hasToSendInitData = true → s'._doesFirstStep = false) ∧
      (s'._hasToReceiveInitData = true → s'._doesFirstStep = true)) ∧
    (∀ (t : BaseCouplingScheme) c t' c', t.initializeData k c = .ok (t', c') →
      t'._hasToSendInitData = false ∧ t'._hasToReceiveInitData = false ∧
      t'.initializeData k c' = .ok (t', c')) := by
  obtain ⟨_, hsend, hrecv⟩ := BaseCouplingScheme.configured_flags k s hbuilt
  constructor
  · intro startTime startTimestep c s' c' hres
    obtain ⟨s1, s2, s3, s4, hscan, h4, hs'⟩ :=
      BaseCouplingScheme.initialize_ok k s startTime startTimestep c s' c' hres
    obtain ⟨g1, g2, g3, _, _, _, g7, g8⟩ :=
      BaseCouplingScheme.initializeScans_spec k s startTime startTimestep s1 s2 s3 hscan
    obtain ⟨r, _, _⟩ := BaseCouplingScheme.firstReceive_spec k s3 c s4 c' h4
    have e : s'._hasToSendInitData = s4._hasToSendInitData ∧
        s'._hasToReceiveInitData = s4._hasToReceiveInitData ∧
        s'._doesFirstStep = s4._doesFirstStep := by
      rw [hs']
      split_ifs <;> exact ⟨rfl, rfl, rfl⟩
    obtain ⟨e1, e2, e3⟩ := e
    have role : s'._doesFirstStep = s._doesFirstStep := by
      rw [e3, r.doesFirstStep, g1]
    have toSend : s'._hasToSendInitData = true → s'._doesFirstStep = false := by
      intro hflag
      rw [e1, r.hasToSendInitData, g2, hsend] at hflag
      rw [role]
      exact g7 (by simpa using hflag)
    have toReceive : s'._hasToReceiveInitData = true → s'._doesFirstStep = true := by
      intro hflag
      rw [e2, r.hasToReceiveInitData, g3, hrecv] at hflag
      rw [role]
      exact g8 (by simpa using hflag)
    refine ⟨?_, toSend, toReceive⟩
    rintro ⟨a, b⟩
    have := (toSend a).symm.trans (toReceive b)
    exact Bool.false_ne_true this
  · intro t c t' c' h
    obtain ⟨hinit, h1, h2⟩ := BaseCouplingScheme.initializeData_ok k t c t' c' h
    exact ⟨h1, h2, BaseCouplingScheme.initializeData_skip k t' c' hinit h1 h2⟩

/-- The second participant "B" of a coupling of "A" and "B" with fixed
timestep length 1, as the second constructor builds it. -/
theorem exampleScheme_built :
    BaseCouplingScheme.constructParticipant exampleConstants (-1) (-1) 1 1 "A" "B" "B"
      (some freshChannel) (-1) .FIXED_DT = .ok exampleScheme := by
  rw [BaseCouplingScheme.constructParticipant_ok_iff]
  refine ⟨⟨Or.inl rfl, Or.inl rfl, Or.inr (by norm_num), by norm_num, by norm_num⟩,
    (by decide), (fun _ => by norm_num [tarch.la.equals, exampleConstants]), ?_, Or.inr rfl,
    rfl⟩
  simp [BaseCouplingScheme.resolveParticipant, BaseCouplingScheme.members, exampleConstants,
    exampleScheme]

/-- The scheme `seedScheme` is what the constructor and the configuration
calls leave: two calls of `addDataToSend` and one convergence measure. -/
theorem seedScheme_configured : BaseCouplingScheme.Configured exampleConstants seedScheme := by
  have h0 := BaseCouplingScheme.Configured.built (-1) (-1) 1 1 "A" "B" "B" (some freshChannel) (-1)
    .FIXED_DT exampleScheme exampleScheme_built
  have h1 := BaseCouplingScheme.Configured.sendAdded _
    { getID := 1, getName := "Forces", meshName := "Mesh", values := [1] } true h0
  have h2 := BaseCouplingScheme.Configured.sendAdded _
    { getID := 2, getName := "Velocities", meshName := "Mesh", values := [2] } false h1
  have h3 := BaseCouplingScheme.Configured.measuresSet _ [{ dataID := 2, data := none }] h2
  exact h3

/-- C23 at a concrete input: the configured second participant `seedScheme`
has to send initial data after `initialize`, and after `initializeData` a
second call changes nothing. -/
theorem C23_initial_data_one_way_witness :
    BaseCouplingScheme.Configured exampleConstants seedScheme ∧
    BaseCouplingScheme.initialize exampleConstants seedScheme 0 0 freshChannel
      = .ok (seedSchemeInitialized, freshChannel) ∧
    seedSchemeInitialized._hasToSendInitData = true ∧
    seedSchemeInitialized._doesFirstStep = false ∧
    BaseCouplingScheme.initializeData exampleConstants seedSchemeReady freshChannel
      = .ok (seedSchemeDone, seedChannelDone) ∧
    seedSchemeDone._hasToSendInitData = false ∧
    seedSchemeDone._hasToReceiveInitData = false ∧
    BaseCouplingScheme.initializeData exampleConstants seedSchemeDone seedChannelDone
      = .ok (seedSchemeDone, seedChannelDone) := by
  have h := C23_initial_data_one_way exampleConstants seedScheme seedScheme_configured
  have h1 := h.1 0 0 freshChannel _ _ seedScheme_initialized
  have h2 := h.2 seedSchemeReady freshChannel _ _ seedSchemeReady_initializeData
  exact ⟨seedScheme_configured, seedScheme_initialized, rfl, h1.2.1 rfl,
    seedSchemeReady_initializeData, h2.1, h2.2.1, h2.2.2⟩
